import Mathlib

/-! # DMMShield library: measurement and calibration core

A shallow embedding of the C sources (`dmm.cpp`, `calib.cpp`, `eprom.cpp`, `utils.cpp`)
and theorems about it.

Conventions of the embedding:

* C `int` values are `Int`; `uint8_t` / `uint16_t` values are `Nat` with an explicit
  `% 256` / `% 65536` wherever the C code truncates. Where the width of `int` matters
  (the guard of `EPROM_WriteWords`, the conversion `int(dVal)`) it is taken from the
  `Target` and the wrap-around is explicit (`wrapInt`).
* a `double` value is a `Dbl`: NaN, the two infinities, or a finite number carried as a
  rational; zero has no sign. The measurement and calibration formulas are evaluated in
  exact arithmetic, and a decimal literal stands for its decimal value. The functions
  that print the digits of a value (`SPrintfDouble`, `DMM_FormatValue`, the export of the
  coefficients) round every result of a `double` operation with the rounding `rnd` of
  the `Target`, since the digits printed depend on it.
* a `float` object in memory is its 32-bit IEEE-754 pattern (a `Nat`); reading it as a
  number is `f32ToDbl`, converting a `double` to `float` is a parameter `toFloat`.
* global variables are fields of explicit state records; a C function that changes
  globals returns the new state next to its result.
* what the hardware answers (register read-back, measurement results, ready polls) is an
  explicit input of the function that consumes it.
-/

namespace DMMShield

/-! ## Error codes (errors.h) -/

def ERRVAL_SUCCESS : Nat := 0
def ERRVAL_EPROM_WRTIMEOUT : Nat := 0xFF
def ERRVAL_EPROM_CRC : Nat := 0xFE
def ERRVAL_EPROM_MAGICNO : Nat := 0xFD
def ERRVAL_DMM_IDXCONFIG : Nat := 0xFC
def ERRVAL_CALIB_NANDOUBLE : Nat := 0xFB
def ERRVAL_DMM_VALIDDATATIMEOUT : Nat := 0xFA
def ERRVAL_EPROM_VERIFY : Nat := 0xF7
def ERRVAL_DMM_CFGVERIFY : Nat := 0xF5
def ERRVAL_CMD_VALWRONGUNIT : Nat := 0xF4
def ERRVAL_CALIB_MISSINGMEASUREMENT : Nat := 0xF0

/-! ## Floating-point values -/

/-- A value of C type `double`: not-a-number, an infinity, or a finite number. -/
inductive Dbl where
  | nan : Dbl
  | pinf : Dbl
  | ninf : Dbl
  | fin (q : ℚ) : Dbl
  deriving DecidableEq

namespace Dbl

instance : Inhabited Dbl := ⟨fin 0⟩

/-- The C test `isnan(x)`. -/
def isNaN : Dbl → Bool
  | nan => true
  | _ => false

/-- The C comparison `x == y` (false as soon as one side is NaN). -/
def eq : Dbl → Dbl → Bool
  | nan, _ => false
  | _, nan => false
  | pinf, pinf => true
  | ninf, ninf => true
  | fin a, fin b => decide (a = b)
  | _, _ => false

/-- The C comparison `x != y`. -/
def ne (x y : Dbl) : Bool := !(eq x y)

/-- The C comparison `x < y`. -/
def lt : Dbl → Dbl → Bool
  | nan, _ => false
  | _, nan => false
  | ninf, ninf => false
  | ninf, _ => true
  | _, ninf => false
  | pinf, _ => false
  | fin _, pinf => true
  | fin a, fin b => decide (a < b)

/-- The C comparison `x > y`. -/
def gt (x y : Dbl) : Bool := lt y x

/-- The C comparison `x >= y`. -/
def ge : Dbl → Dbl → Bool
  | nan, _ => false
  | _, nan => false
  | pinf, _ => true
  | _, ninf => true
  | ninf, _ => false
  | fin _, pinf => false
  | fin a, fin b => decide (b ≤ a)

/-- Unary minus. -/
def neg : Dbl → Dbl
  | nan => nan
  | pinf => ninf
  | ninf => pinf
  | fin a => fin (-a)

/-- Addition `x + y`. -/
def add : Dbl → Dbl → Dbl
  | nan, _ => nan
  | _, nan => nan
  | pinf, ninf => nan
  | ninf, pinf => nan
  | pinf, _ => pinf
  | _, pinf => pinf
  | ninf, _ => ninf
  | _, ninf => ninf
  | fin a, fin b => fin (a + b)

/-- Subtraction `x - y`. -/
def sub (x y : Dbl) : Dbl := add x (neg y)

/-- The infinity with the sign of `s` (`s` positive or zero: `+∞`). -/
def infOfSign (s : ℚ) : Dbl := if s < 0 then ninf else pinf

/-- Multiplication `x * y`. -/
def mul : Dbl → Dbl → Dbl
  | nan, _ => nan
  | _, nan => nan
  | pinf, pinf => pinf
  | pinf, ninf => ninf
  | ninf, pinf => ninf
  | ninf, ninf => pinf
  | pinf, fin b => if b = 0 then nan else infOfSign b
  | ninf, fin b => if b = 0 then nan else infOfSign (-b)
  | fin a, pinf => if a = 0 then nan else infOfSign a
  | fin a, ninf => if a = 0 then nan else infOfSign (-a)
  | fin a, fin b => fin (a * b)

/-- Division `x / y`; a finite non-zero number over zero is an infinity, `0 / 0` is NaN. -/
def div : Dbl → Dbl → Dbl
  | nan, _ => nan
  | _, nan => nan
  | pinf, pinf => nan
  | pinf, ninf => nan
  | ninf, pinf => nan
  | ninf, ninf => nan
  | pinf, fin b => infOfSign b
  | ninf, fin b => infOfSign (-b)
  | fin _, pinf => fin 0
  | fin _, ninf => fin 0
  | fin a, fin b => if b = 0 then (if a = 0 then nan else infOfSign a) else fin (a / b)

/-- The C call `fabs(x)`. -/
def abs : Dbl → Dbl
  | nan => nan
  | pinf => pinf
  | ninf => pinf
  | fin a => fin |a|

/-- The C call `sqrt(x)`, over a square-root routine `sq` for the non-negative finite
numbers: NaN and negative arguments give NaN. -/
def sqrt (sq : ℚ → ℚ) : Dbl → Dbl
  | nan => nan
  | pinf => pinf
  | ninf => nan
  | fin a => if a < 0 then nan else fin (sq a)

/-- The C call `pow(x, 2)`. -/
def pow2 (x : Dbl) : Dbl := mul x x

/-- Conversion of a C integer to `double`. -/
def ofInt (n : Int) : Dbl := fin n

end Dbl

/-- The value of the `float` whose IEEE-754 binary32 pattern is `b` (sign bit 31,
exponent bits 30..23, fraction bits 22..0). -/
def f32ToDbl (b : Nat) : Dbl :=
  let s : Nat := b / 2 ^ 31 % 2
  let e : Nat := b / 2 ^ 23 % 256
  let m : Nat := b % 2 ^ 23
  let sign : ℚ := if s = 0 then 1 else -1
  if e = 255 then
    (if m = 0 then (if s = 0 then Dbl.pinf else Dbl.ninf) else Dbl.nan)
  else if e = 0 then Dbl.fin (sign * (m : ℚ) / 2 ^ 149)
  else if e < 150 then Dbl.fin (sign * (2 ^ 23 + (m : ℚ)) / 2 ^ (150 - e))
  else Dbl.fin (sign * (2 ^ 23 + (m : ℚ)) * 2 ^ (e - 150))

/-- Function `DMM_IsNotANumber` (dmm.cpp): `(dVal == NAN) || isnan(dVal)`. -/
def DMM_IsNotANumber (dVal : Dbl) : Bool := Dbl.eq dVal Dbl.nan || Dbl.isNaN dVal

/-! ## The arithmetic of the board

The sources are built for two kinds of boards (the test
`defined (__arm__) && defined (__SAM3X8E__)` of `utils.cpp` and `dmm.cpp`): the Arduino
Due, whose `int` has 32 bits and whose `double` is the IEEE-754 binary64 format, and the
8-bit AVR boards, whose `int` has 16 bits and whose `double` is the binary32 format. -/

/-- What the embedding takes from the board the library is compiled for: `rnd` rounds a
real number to a value of the type `double`; `intBits` is the width of `int`; `intUndef`
is the integer a conversion from `double` to an integer type produces where C leaves the
conversion undefined (NaN, an infinity, a number outside the range of the type). -/
structure Target where
  rnd : ℚ → ℚ
  intBits : Nat
  intUndef : Dbl → Int

/-- The value of the two's-complement `bits`-bit pattern of `z`: the result of an `int`
operation whose mathematical result is `z`, on a board whose adder wraps around (an
overflow of `int` is undefined in C; the boards wrap). -/
def wrapInt (bits : Nat) (z : Int) : Int :=
  (z + 2 ^ (bits - 1)) % 2 ^ bits - 2 ^ (bits - 1)

/-- Rounding of the real number `q` to the nearest number with a significand of `p` bits,
ties to the even significand: the default rounding of IEEE-754 arithmetic. The exponent
is not bounded: overflow to an infinity and the subnormal range are not modelled. -/
def roundNE (p : Nat) (q : ℚ) : ℚ :=
  if q = 0 then 0
  else
    let e : Int := Int.log 2 |q| - ((p : Int) - 1)
    let m : ℚ := |q| / 2 ^ e
    let f : Int := ⌊m⌋
    let n : Int :=
      if m - f < 1 / 2 then f
      else if 1 / 2 < m - f then f + 1
      else if f % 2 = 0 then f else f + 1
    (if q < 0 then -1 else 1) * (n : ℚ) * 2 ^ e

/-- The Arduino Due: `double` is binary64 (53-bit significand), `int` has 32 bits. -/
def targetDue (intUndef : Dbl → Int) : Target := ⟨roundNE 53, 32, intUndef⟩

/-- An 8-bit AVR board: `double` is binary32 (24-bit significand), `int` has 16 bits. -/
def targetAVR (intUndef : Dbl → Int) : Target := ⟨roundNE 24, 16, intUndef⟩

/-- The result of a `double` operation whose real result is `x`, on the board `t`. -/
def Dbl.round (t : Target) : Dbl → Dbl
  | Dbl.fin q => Dbl.fin (t.rnd q)
  | x => x

/-! ## Scale registry (dmm.h, dmm.cpp) -/

def DmmResistance : Nat := 1
def DmmContinuity : Nat := 2
def DmmDiode : Nat := 3
def DmmDCVoltage : Nat := 4
def DmmACVoltage : Nat := 5
def DmmDCCurrent : Nat := 6
def DmmACCurrent : Nat := 7
def DmmDCLowCurrent : Nat := 8
def DmmACLowCurrent : Nat := 9

def DMM_CNTSCALES : Int := 27
def DMM_VALIDDATA_CNTTIMEOUT : Nat := 0x100
def DMMVoltageDC50Scale : Int := 7
def DMM_DIODEOPENTHRESHOLD : Int := 3

/-- The C struct `DMMCFG`: one scale definition. -/
structure DMMCFG where
  mode : Nat
  range : Dbl
  sw : Nat
  cfg : List Nat
  mul : Dbl
  deriving DecidableEq

/-- The all-zero `DMMCFG` (the terminating `{0}` entry, and the initial `curCfg`). -/
def DMMCFG.zero : DMMCFG :=
  ⟨0, Dbl.fin 0, 0, List.replicate 24 0, Dbl.fin 0⟩

instance : Inhabited DMMCFG := ⟨DMMCFG.zero⟩

/-- The per-register mask `dmmcfgmask` used when the configuration is verified. -/
def dmmcfgmask : List Nat :=
  [0x1F, 0xFE, 0xFF, 0xFF, 0x9F, 0xFF, 0xFF, 0xBF, 0xFF, 0x33, 0xFF, 0xFF,
   0xFF, 0xFF, 0xFF, 0xFF, 0xFF, 0xFF, 0xFF, 0xFF, 0xFF, 0xBC, 0xFC, 0xFF]

/-- The scale table `dmmcfg`: the 27 scale definitions followed by the `{0}` entry. -/
def dmmcfg : List DMMCFG := [
  -- scale 0
  ⟨DmmResistance, Dbl.fin 5e7, 1,
   [0x00, 0xC0, 0xCF, 0x17, 0x93, 0x85, 0x00, 0x00, 0x55, 0x55, 0x00, 0x00,
    0x08, 0x00, 0x00, 0x80, 0x86, 0x80, 0xD1, 0x3C, 0xA0, 0x00, 0x00, 0x00],
   Dbl.fin (6e7 / 0.9 / 8388608)⟩,
  -- scale 1
  ⟨DmmResistance, Dbl.fin 5e6, 1,
   [0x00, 0xC0, 0xCF, 0x17, 0x93, 0x85, 0x00, 0x00, 0x55, 0x55, 0x00, 0x00,
    0x08, 0x00, 0x80, 0x80, 0x86, 0x80, 0xD1, 0x3C, 0xA0, 0x00, 0x00, 0x00],
   Dbl.fin (6e6 / 0.9 / 8388608)⟩,
  -- scale 2
  ⟨DmmResistance, Dbl.fin 5e5, 1,
   [0x00, 0xC0, 0xCF, 0x17, 0x93, 0x85, 0x00, 0x00, 0x55, 0x55, 0x00, 0x00,
    0x08, 0x00, 0x08, 0x80, 0x86, 0x80, 0xD1, 0x33, 0x20, 0x00, 0x00, 0x00],
   Dbl.fin (6e5 / 0.9 / 8388608)⟩,
  -- scale 3
  ⟨DmmResistance, Dbl.fin 5e4, 1,
   [0x00, 0xC0, 0xCF, 0x17, 0x83, 0x85, 0x00, 0x00, 0x55, 0x00, 0x00, 0x00,
    0x40, 0x00, 0x06, 0x44, 0x94, 0x80, 0xD3, 0x33, 0x20, 0x00, 0x00, 0x00],
   Dbl.fin (1e5 / 0.9 / 8388608)⟩,
  -- scale 4
  ⟨DmmResistance, Dbl.fin 5e3, 1,
   [0x00, 0xC0, 0xCF, 0x17, 0x83, 0x85, 0x00, 0x00, 0x55, 0x00, 0x00, 0x00,
    0x40, 0x60, 0x00, 0x44, 0x94, 0x80, 0xD3, 0x33, 0x20, 0x00, 0x00, 0x00],
   Dbl.fin (1e4 / 0.9 / 8388608)⟩,
  -- scale 5
  ⟨DmmResistance, Dbl.fin 5e2, 1,
   [0x00, 0xC0, 0xCF, 0x17, 0x83, 0x35, 0x00, 0x00, 0x55, 0x00, 0x00, 0x00,
    0x40, 0x06, 0x00, 0x44, 0x94, 0x80, 0xD2, 0x3C, 0xA0, 0x00, 0x00, 0x00],
   Dbl.fin (1e3 / 0.9 / 8388608)⟩,
  -- scale 6
  ⟨DmmResistance, Dbl.fin 5e1, 1,
   [0x00, 0xC0, 0xCF, 0x17, 0x83, 0x35, 0x01, 0x00, 0x55, 0x00, 0x00, 0x00,
    0x40, 0x06, 0x00, 0x44, 0x94, 0x80, 0xD2, 0x3C, 0xA0, 0x00, 0x00, 0x00],
   Dbl.fin (1e2 / 0.9 / 8388608)⟩,
  -- scale 7
  ⟨DmmDCVoltage, Dbl.fin 5e1, 2,
   [0x00, 0x60, 0x00, 0x17, 0x8B, 0x01, 0x11, 0x00, 0x55, 0x31, 0x00, 0x22,
    0x00, 0x00, 0x09, 0x28, 0xA0, 0x80, 0xC7, 0x33, 0x20, 0x00, 0x00, 0x00],
   Dbl.fin (125e0 / 1.8 / 8388608)⟩,
  -- scale 8
  ⟨DmmDCVoltage, Dbl.fin 5e0, 2,
   [0x00, 0x60, 0x00, 0x17, 0x8B, 0x01, 0x11, 0x00, 0x55, 0x31, 0x00, 0x22,
    0x00, 0x00, 0x90, 0x28, 0xA0, 0x80, 0xC7, 0x33, 0x20, 0x00, 0x00, 0x00],
   Dbl.fin (125e-1 / 1.8 / 8388608)⟩,
  -- scale 9
  ⟨DmmDCVoltage, Dbl.fin 5e-1, 1,
   [0x00, 0xC0, 0x00, 0x17, 0x8B, 0x85, 0x11, 0x00, 0x55, 0x31, 0x00, 0x00,
    0x00, 0x00, 0x00, 0x00, 0x90, 0x80, 0xC7, 0x33, 0x28, 0x00, 0x00, 0x00],
   Dbl.fin (125e-2 / 1.8 / 8388608)⟩,
  -- scale 10
  ⟨DmmDCVoltage, Dbl.fin 5e-2, 1,
   [0x00, 0x00, 0x00, 0x17, 0x8B, 0x35, 0x11, 0x00, 0x55, 0x31, 0x00, 0x00,
    0x00, 0x00, 0x00, 0x00, 0x90, 0x80, 0xC7, 0x3C, 0x60, 0x00, 0x00, 0x00],
   Dbl.fin (125e-3 / 1.8 / 8388608)⟩,
  -- scale 11
  ⟨DmmACVoltage, Dbl.fin 5e1, 2,
   [0x00, 0xF2, 0xDD, 0x07, 0x03, 0x52, 0x10, 0x80, 0x25, 0x31, 0xF8, 0x22,
    0x00, 0x00, 0x0D, 0x28, 0xA0, 0xFF, 0xC7, 0x38, 0x20, 0x00, 0x00, 0x00],
   Dbl.fin (1e-3)⟩,
  -- scale 12
  ⟨DmmACVoltage, Dbl.fin 5e0, 2,
   [0x00, 0xF2, 0xDD, 0x07, 0x03, 0x52, 0x10, 0x80, 0x25, 0x31, 0xF8, 0x22,
    0x00, 0x00, 0xD0, 0x88, 0xA0, 0xFF, 0xC7, 0x38, 0x20, 0x02, 0x50, 0x0C],
   Dbl.fin (1e-4)⟩,
  -- scale 13
  ⟨DmmACVoltage, Dbl.fin 5e-1, 1,
   [0x00, 0x92, 0xDD, 0x07, 0x03, 0x52, 0x10, 0x80, 0x25, 0x11, 0xF8, 0x00,
    0x00, 0x00, 0x00, 0x00, 0x90, 0x80, 0xC7, 0x3A, 0x28, 0x00, 0x00, 0x00],
   Dbl.fin (1e-5)⟩,
  -- scale 14
  ⟨DmmACVoltage, Dbl.fin 5e-2, 1,
   [0x00, 0x52, 0xDD, 0x07, 0x03, 0x00, 0x13, 0x80, 0x25, 0x11, 0xF8, 0x00,
    0x00, 0x00, 0x00, 0x00, 0x90, 0x80, 0xC7, 0x3A, 0x28, 0x00, 0x00, 0x00],
   Dbl.fin (1e-6)⟩,
  -- scale 15
  ⟨DmmDCCurrent, Dbl.fin 5e0, 0,
   [0x00, 0x00, 0x00, 0x17, 0x8B, 0x95, 0x11, 0x00, 0x55, 0x31, 0x00, 0x00,
    0x00, 0x00, 0x00, 0x00, 0x80, 0x80, 0xC7, 0x33, 0x20, 0x00, 0x00, 0x00],
   Dbl.fin (125e0 / 3.6 / 8388608)⟩,
  -- scale 16
  ⟨DmmACCurrent, Dbl.fin 5e0, 0,
   [0x00, 0x52, 0xDD, 0x07, 0x03, 0x00, 0x13, 0x80, 0x25, 0x11, 0xF8, 0x00,
    0x00, 0x00, 0x00, 0x00, 0x90, 0x80, 0xC7, 0x3D, 0x28, 0x00, 0x00, 0x00],
   Dbl.fin (1e-4 / 2.16)⟩,
  -- scale 17
  ⟨DmmContinuity, Dbl.fin 500, 1,
   [0x00, 0x74, 0xCF, 0x17, 0x83, 0x35, 0x10, 0x00, 0x55, 0x00, 0x00, 0x00,
    0x00, 0x0A, 0x00, 0x40, 0x86, 0x80, 0xD2, 0x3C, 0xA0, 0x00, 0x00, 0x00],
   Dbl.fin (666e-7)⟩,
  -- scale 18
  ⟨DmmDiode, Dbl.fin 3.0, 1,
   [0x00, 0xC0, 0xCF, 0x17, 0x8B, 0x8D, 0x10, 0x00, 0x55, 0x31, 0x00, 0x00,
    0x00, 0x08, 0x00, 0x40, 0x86, 0x80, 0xE2, 0x33, 0xA0, 0x00, 0x00, 0x00],
   Dbl.fin (666e-6)⟩,
  -- scale 19
  ⟨DmmDCLowCurrent, Dbl.fin 5e-1, 0,
   [0x00, 0x00, 0x00, 0x17, 0x8B, 0x95, 0x11, 0x00, 0x55, 0x31, 0x00, 0x00,
    0x00, 0x00, 0x00, 0x00, 0x80, 0x80, 0xC7, 0x33, 0x20, 0x00, 0x00, 0x00],
   Dbl.fin (125e-2 / 1.8 / 8388608)⟩,
  -- scale 20
  ⟨DmmDCLowCurrent, Dbl.fin 5e-2, 0,
   [0x00, 0x00, 0x00, 0x17, 0x8B, 0x35, 0x11, 0x00, 0x55, 0x31, 0x00, 0x00,
    0x00, 0x00, 0x00, 0x00, 0x80, 0x80, 0xC7, 0x3D, 0xA0, 0x00, 0x00, 0x00],
   Dbl.fin (125e-3 / 1.8 / 8388608)⟩,
  -- scale 21
  ⟨DmmDCLowCurrent, Dbl.fin 5e-3, 4,
   [0x00, 0x00, 0x00, 0x17, 0x8B, 0x95, 0x11, 0x00, 0x55, 0x31, 0x00, 0x00,
    0x00, 0x00, 0x00, 0x00, 0x80, 0x80, 0xC7, 0x33, 0x20, 0x00, 0x00, 0x00],
   Dbl.fin (125e-4 / 1.8 / 8388608)⟩,
  -- scale 22
  ⟨DmmDCLowCurrent, Dbl.fin 5e-4, 4,
   [0x00, 0x00, 0x00, 0x17, 0x8B, 0x35, 0x11, 0x00, 0x55, 0x31, 0x00, 0x00,
    0x00, 0x00, 0x00, 0x00, 0x80, 0x80, 0xC7, 0x3D, 0xA0, 0x00, 0x00, 0x00],
   Dbl.fin (125e-5 / 1.8 / 8388608)⟩,
  -- scale 23
  ⟨DmmACLowCurrent, Dbl.fin 5e-1, 0,
   [0x00, 0x92, 0xDD, 0x07, 0x03, 0x52, 0x10, 0x80, 0x25, 0x11, 0xF8, 0x00,
    0x00, 0x00, 0x00, 0x00, 0x90, 0x80, 0xC7, 0x3D, 0x28, 0x00, 0x00, 0x00],
   Dbl.fin (1e-5 / 1.08)⟩,
  -- scale 24
  ⟨DmmACLowCurrent, Dbl.fin 5e-2, 0,
   [0x00, 0x52, 0xDD, 0x07, 0x03, 0x00, 0x13, 0x80, 0x25, 0x11, 0xF8, 0x00,
    0x00, 0x00, 0x00, 0x00, 0x90, 0x80, 0xC7, 0x3D, 0x28, 0x00, 0x00, 0x00],
   Dbl.fin (1e-6 / 1.08)⟩,
  -- scale 25
  ⟨DmmACLowCurrent, Dbl.fin 5e-3, 4,
   [0x00, 0x92, 0xDD, 0x07, 0x03, 0x52, 0x10, 0x80, 0x25, 0x11, 0xF8, 0x00,
    0x00, 0x00, 0x00, 0x00, 0x90, 0x80, 0xC7, 0x3D, 0x28, 0x00, 0x00, 0x00],
   Dbl.fin (1e-7 / 1.08)⟩,
  -- scale 26
  ⟨DmmACLowCurrent, Dbl.fin 5e-4, 4,
   [0x00, 0x52, 0xDD, 0x07, 0x03, 0x00, 0x13, 0x80, 0x25, 0x11, 0xF8, 0x00,
    0x00, 0x00, 0x00, 0x00, 0x90, 0x80, 0xC7, 0x3D, 0x28, 0x00, 0x00, 0x00],
   Dbl.fin (1e-8 / 1.08)⟩,
  DMMCFG.zero]

/-! ## Measurement engine: scale selection (dmm.cpp) -/

/-- The global variables of dmm.cpp (`curCfg`, `idxCurrentScale`, `fUseCalib`) together
with what the module has driven towards the hardware: the three relay lines and the
write transactions sent to the DMM chip (command byte, data bytes). -/
structure DMMState where
  curCfg : DMMCFG
  idxCurrentScale : Int
  fUseCalib : Nat
  relays : Nat × Nat × Nat
  spiOut : List (Nat × List Nat)
  deriving DecidableEq

/-- The state at program start: `curCfg` zeroed, `idxCurrentScale = -1`, `fUseCalib = 1`. -/
def DMMState.init : DMMState := ⟨DMMCFG.zero, -1, 1, (0, 0, 0), []⟩

/-- Function `DMM_ERR_CheckIdxCalib`: success for `0 <= idxScale < DMM_CNTSCALES`. -/
def DMM_ERR_CheckIdxCalib (idxScale : Int) : Nat :=
  if idxScale ≥ 0 ∧ idxScale < DMM_CNTSCALES then ERRVAL_SUCCESS else ERRVAL_DMM_IDXCONFIG

/-- Function `DMM_ConfigSwitches`: drives RLD, RLU, RLI from bits 0, 1, 2 of `sw`. -/
def DMM_ConfigSwitches (s : DMMState) (sw : Nat) : DMMState :=
  { s with relays := (sw &&& 1, (sw &&& 2) >>> 1, (sw &&& 4) >>> 2) }

/-- Function `DMM_SendCmdSPI`: one write transaction, the command byte then `bytesNumber` bytes. -/
def DMM_SendCmdSPI (s : DMMState) (bCmd : Nat) (bytesNumber : Nat) (pbWrData : List Nat) :
    DMMState :=
  { s with spiOut := s.spiOut ++ [(bCmd, pbWrData.take bytesNumber)] }

/-- Function `DMM_GetCurrentScale`. -/
def DMM_GetCurrentScale (s : DMMState) : Int := s.idxCurrentScale

/-- The comparison loop of `DMM_SetScale` (step 5.2): true when no register differs from
the configuration under `dmmcfgmask`. -/
def DMM_SetScale_verify (cfg : List Nat) (rgIn : Nat → Nat) : Bool :=
  (List.range 24).all fun i =>
    (rgIn i &&& dmmcfgmask.getD i 0) == (cfg.getD i 0 &&& dmmcfgmask.getD i 0)

/-- Function `DMM_SetScale`; `rgIn` is what the chip returns for the read of the 24 registers
starting at 0x1F (step 5.1). -/
def DMM_SetScale (s : DMMState) (idxScale : Int) (rgIn : Nat → Nat) : Nat × DMMState :=
  -- 0. Verify index
  let bResult := DMM_ERR_CheckIdxCalib idxScale
  if bResult ≠ ERRVAL_SUCCESS then (bResult, s)
  else
    -- 1. Retrieve current Scale information from PROGMEM
    let s1 := { s with curCfg := dmmcfg.getD idxScale.toNat default }
    -- 2. Reset the DMM by writing 0x60 on 0x37 register
    let s2 := DMM_SendCmdSPI s1 ((0x37 <<< 1) % 256) 1 [0x60]
    -- 3. Set the switches
    let s3 := DMM_ConfigSwitches s2 s2.curCfg.sw
    -- 4. Set the value for the 24 registers starting with 0x1f
    let s4 := DMM_SendCmdSPI s3 ((0x1F <<< 1) % 256) 24 s3.curCfg.cfg
    -- 5. Verify the values of the 24 registers starting with 0x1f
    if DMM_SetScale_verify s4.curCfg.cfg rgIn then
      -- 6. Set idxScale as current scale
      (ERRVAL_SUCCESS, { s4 with idxCurrentScale := idxScale })
    else (ERRVAL_DMM_CFGVERIFY, s4)

/-- Function `DMM_SetUseCalib`. -/
def DMM_SetUseCalib (s : DMMState) (f : Nat) : DMMState := { s with fUseCalib := f }

/-- Function `DMM_FACScale`: decided on the cached `curCfg.mode`; the argument is not used. -/
def DMM_FACScale (s : DMMState) (_idxScale : Int) : Bool :=
  let mode := s.curCfg.mode
  mode == DmmACVoltage || mode == DmmACCurrent || mode == DmmACLowCurrent

/-- Function `DMM_FDCScale`. -/
def DMM_FDCScale (s : DMMState) (_idxScale : Int) : Bool :=
  let mode := s.curCfg.mode
  mode == DmmDCVoltage || mode == DmmDCCurrent || mode == DmmDCLowCurrent

/-- Function `DMM_FResistorScale`. -/
def DMM_FResistorScale (s : DMMState) (_idxScale : Int) : Bool :=
  let mode := s.curCfg.mode
  mode == DmmResistance || mode == DmmContinuity

/-- Function `DMM_FDiodeScale`. -/
def DMM_FDiodeScale (s : DMMState) (_idxScale : Int) : Bool :=
  let mode := s.curCfg.mode
  mode == DmmDiode

/-- Function `DMM_FContinuityScale`. -/
def DMM_FContinuityScale (s : DMMState) (_idxScale : Int) : Bool :=
  let mode := s.curCfg.mode
  mode == DmmContinuity

/-- Function `DMM_GetScaleRange`: the cached range; the argument is not used. -/
def DMM_GetScaleRange (s : DMMState) (_idxScale : Int) : Dbl := s.curCfg.range


/-- The state after `DMM_SetScale 7` (50 V DC) succeeded on the initial state. -/
def scale7Selected : DMMState :=
  (DMM_SetScale DMMState.init 7 (fun i => (dmmcfg.getD 7 default).cfg.getD i 0)).2

/-! ## Measurement engine: averaging (dmm.cpp) -/

/-- The test `fValid` of `DMM_DGetAvgValue` on one sample. -/
def DMM_DGetAvgValue_valid (dVal : Dbl) (bErr : Nat) : Bool :=
  (bErr == ERRVAL_SUCCESS) && Dbl.ne dVal Dbl.pinf && Dbl.ne dVal Dbl.ninf &&
    !DMM_IsNotANumber dVal

/-- The sampling loop `for(i = 0; (i < cbSamples) && fValid; i++)` of `DMM_DGetAvgValue`;
`term` is what a valid sample adds to `dValAvg` (`pow(dVal, 2)` in the AC loop, `dVal`
in the other one), `samples i` the value and error of the call of `DMM_DGetValue` in
iteration `i`. The loop state is `(fValid, dValAvg, bErr)`. -/
def DMM_DGetAvgValue_loop (term : Dbl → Dbl) (samples : Nat → Dbl × Nat) (cbSamples : Int) :
    Nat → Nat → Bool × Dbl × Nat → Bool × Dbl × Nat
  | 0, _, st => st
  | fuel + 1, i, (fValid, dValAvg, bErr) =>
    if (i : Int) < cbSamples ∧ fValid = true then
      let dVal := (samples i).1
      let bErr1 := (samples i).2
      let fValid1 := DMM_DGetAvgValue_valid dVal bErr1
      let dValAvg1 := if fValid1 then Dbl.add dValAvg (term dVal) else dValAvg
      DMM_DGetAvgValue_loop term samples cbSamples fuel (i + 1) (fValid1, dValAvg1, bErr1)
    else (fValid, dValAvg, bErr)

/-- Function `DMM_DGetAvgValue`: the returned value and the error written through `pbErr`.
`sq` is the square-root routine, `samples` the results of the successive calls of
`DMM_DGetValue`. -/
def DMM_DGetAvgValue (sq : ℚ → ℚ) (s : DMMState) (samples : Nat → Dbl × Nat)
    (cbSamples : Int) : Dbl × Nat :=
  let idxScale := DMM_GetCurrentScale s
  let bErr0 := DMM_ERR_CheckIdxCalib idxScale
  let r : Dbl × Nat :=
    if bErr0 = ERRVAL_SUCCESS then
      if DMM_FACScale s idxScale then
        -- use RMS (Quadratic mean) Average value for AC
        let l := DMM_DGetAvgValue_loop Dbl.pow2 samples cbSamples cbSamples.toNat 0
          (true, Dbl.fin 0, bErr0)
        if l.1 = true ∧ cbSamples ≠ 0 then
          (Dbl.sqrt sq (Dbl.div l.2.1 (Dbl.ofInt cbSamples)), l.2.2)
        else (l.2.1, l.2.2)
      else
        -- use normal (Arithmetic mean) Average value for other than AC.
        let l := DMM_DGetAvgValue_loop id samples cbSamples cbSamples.toNat 0
          (true, Dbl.fin 0, bErr0)
        if l.1 = true ∧ cbSamples ≠ 0 then (Dbl.div l.2.1 (Dbl.ofInt cbSamples), l.2.2)
        else (l.2.1, l.2.2)
    else (Dbl.fin 0, bErr0)
  if r.2 ≠ ERRVAL_SUCCESS then (Dbl.nan, r.2) else r

/-- Two results of `DMM_DGetValue`: the reading 1.0, then an over-range reading, both
reported with success. -/
def samplesOverRange : Nat → Dbl × Nat
  | 0 => (Dbl.fin 1, ERRVAL_SUCCESS)
  | _ => (Dbl.pinf, ERRVAL_SUCCESS)

/-- Two results of `DMM_DGetValue`, 1.0 and 3.0, then 0.0, all reported with success. -/
def samplesOneThree : Nat → Dbl × Nat
  | 0 => (Dbl.fin 1, ERRVAL_SUCCESS)
  | 1 => (Dbl.fin 3, ERRVAL_SUCCESS)
  | _ => (Dbl.fin 0, ERRVAL_SUCCESS)

/-- The values of `samplesOneThree`. -/
def valuesOneThree : Nat → ℚ
  | 0 => 1
  | 1 => 3
  | _ => 0

/-! ## Storage protocol (eprom.h, eprom.cpp) -/

def EPROM_CNTTIMEOUT : Nat := 0x00010000
def ADR_EPROM_CALIB : Nat := 31
def ADR_EPROM_FACTCALIB : Nat := 147
def ADR_EPROM_SERIALNO : Nat := 140
def EPROM_MAGIC_NO : Nat := 0x23

/-- The storage chip as the driver sees it: the 16-bit word held at each word address
(0..255), the write-enable latch set by EWEN and cleared by EWDS, and, for each write
cycle still to come, the number of ready polls during which the chip keeps MISO low
(no entry: ready at once). A read returns the word last written to the address. -/
structure EPROM where
  mem : Nat → Nat
  wen : Bool
  busy : List Nat

/-- Function `EPROM_WriteEnable`: the EWEN instruction. -/
def EPROM_WriteEnable (dev : EPROM) : EPROM := { dev with wen := true }

/-- Function `EPROM_WriteDisable`: the EWDS instruction. -/
def EPROM_WriteDisable (dev : EPROM) : EPROM := { dev with wen := false }

/-- Function `EPROM_Erase`: the ERASE instruction forces the 16 bits of the word to 1. -/
def EPROM_Erase (dev : EPROM) (bAddress : Nat) : EPROM :=
  if dev.wen then
    { dev with mem := fun a => if a = bAddress % 256 then 0xFFFF else dev.mem a }
  else dev

/-- The polling loop `while((!GPIO_Get_MISO()) && (cntTimeout++ < EPROM_CNTTIMEOUT));` of
`EPROM_WaitUntilReady_Raw`, for a chip that keeps MISO low during the first `lowPolls`
polls; the result is the final `cntTimeout`. -/
def EPROM_WaitUntilReady_loop (lowPolls : Nat) : Nat → Nat → Nat
  | 0, cntTimeout => cntTimeout
  | fuel + 1, cntTimeout =>
    if cntTimeout < lowPolls then
      (if cntTimeout < EPROM_CNTTIMEOUT then
        EPROM_WaitUntilReady_loop lowPolls fuel (cntTimeout + 1)
       else cntTimeout + 1)
    else cntTimeout

/-- Function `EPROM_WaitUntilReady_Raw`. -/
def EPROM_WaitUntilReady_Raw (lowPolls : Nat) : Nat :=
  let cntTimeout := EPROM_WaitUntilReady_loop lowPolls (EPROM_CNTTIMEOUT + 1) 0
  if cntTimeout ≥ EPROM_CNTTIMEOUT then ERRVAL_EPROM_WRTIMEOUT else ERRVAL_SUCCESS

/-- Function `EPROM_Read_Raw`: the READ instruction, most significant byte first. -/
def EPROM_Read_Raw (dev : EPROM) (bAddress : Nat) : Nat :=
  let w := dev.mem (bAddress % 256)
  ((w / 256 % 256) * 256 + w % 256) % 65536

/-- Function `EPROM_Write_Raw`: the WRITE instruction (the two bytes of `wVal`), then the
wait for the ready signal. The chip stores the word only while the write-enable latch is
set. -/
def EPROM_Write_Raw (dev : EPROM) (bAddress : Nat) (wVal : Nat) : Nat × EPROM :=
  let w := (wVal / 256 % 256) * 256 + wVal % 256
  let mem1 := if dev.wen then (fun a => if a = bAddress % 256 then w else dev.mem a) else dev.mem
  (EPROM_WaitUntilReady_Raw (dev.busy.headD 0), { dev with mem := mem1, busy := dev.busy.tail })

/-- The loop `for(i = 0; i < cwVals && !bResult; i++)` of `EPROM_WriteWords_Raw`. -/
def EPROM_WriteWords_loop (bAddress : Nat) (prgVals : Nat → Nat) (cwVals : Int) :
    Nat → Nat → Nat × EPROM → Nat × EPROM
  | 0, _, st => st
  | fuel + 1, i, (bResult, dev) =>
    if (i : Int) < cwVals ∧ bResult = 0 then
      EPROM_WriteWords_loop bAddress prgVals cwVals fuel (i + 1)
        (EPROM_Write_Raw dev ((bAddress + i) % 256) (prgVals i))
    else (bResult, dev)

/-- Function `EPROM_WriteWords_Raw`. -/
def EPROM_WriteWords_Raw (dev : EPROM) (bAddress : Nat) (prgVals : Nat → Nat) (cwVals : Int) :
    Nat × EPROM :=
  EPROM_WriteWords_loop bAddress prgVals cwVals cwVals.toNat 0 (0, dev)

/-- Function `EPROM_ReadWords`: word `i` of the destination buffer. -/
def EPROM_ReadWords (dev : EPROM) (bAddress : Nat) (i : Nat) : Nat :=
  EPROM_Read_Raw dev ((bAddress + i) % 256)

/-- A chip with all words zero, writes enabled, and every write cycle ready at once. -/
def epromZero : EPROM := ⟨fun _ => 0, true, []⟩

/-! ## Calibration data (dmm.h, calib.cpp, utils.cpp) -/

/-- The C struct `CALIB`: the two `float` coefficients, as their 32-bit patterns. -/
structure CALIB where
  Mult : Nat
  Add : Nat
  deriving DecidableEq

/-- The packed C struct `CALIBDATA`: magic byte, 27 coefficient pairs, checksum byte. -/
structure CALIBDATA where
  magic : Nat
  Dmm : Nat → CALIB
  crc : Nat

/-- The C struct `PARTCALIB`: the measurements and references collected for one scale. -/
structure PARTCALIB where
  Calib_Ms_Zero : Dbl
  Calib_Ms_ValP : Dbl
  Calib_Ref_ValP : Dbl
  Calib_Ms_ValN : Dbl
  Calib_Ref_ValN : Dbl
  fCalibDirty : Nat
  deriving DecidableEq

/-- Size in bytes of the packed `CALIBDATA`: 1 + 27 * 8 + 1. -/
def sizeofCALIBDATA : Nat := 218

/-- Byte `j` (0..3) of a little-endian 32-bit object. -/
def byteLE (x j : Nat) : Nat := x / 256 ^ j % 256

/-- The 32-bit object made of four little-endian bytes. -/
def ofBytesLE (b0 b1 b2 b3 : Nat) : Nat := b0 + 256 * b1 + 65536 * b2 + 16777216 * b3

/-- Byte `k` of the memory image of a `CALIBDATA` (what `(uint8_t *)&calib` points to):
the magic byte at offset 0, entry `i` at offsets `1 + 8 i .. 8 + 8 i` (`Mult` then `Add`,
little-endian), the checksum at offset 217. -/
def CALIBDATA.byte (c : CALIBDATA) (k : Nat) : Nat :=
  if k = 0 then c.magic % 256
  else if k < 217 then
    (if (k - 1) % 8 < 4 then byteLE (c.Dmm ((k - 1) / 8)).Mult ((k - 1) % 8)
     else byteLE (c.Dmm ((k - 1) / 8)).Add ((k - 1) % 8 - 4))
  else if k = 217 then c.crc % 256
  else 0

/-- Word `i` of the memory image of a `CALIBDATA` (what `(uint16_t *)&calib` points to). -/
def CALIBDATA.word (c : CALIBDATA) (i : Nat) : Nat := c.byte (2 * i) + 256 * c.byte (2 * i + 1)

/-- The `CALIBDATA` whose memory image is the byte sequence `b`. -/
def CALIBDATA.ofBytes (b : Nat → Nat) : CALIBDATA where
  magic := b 0
  Dmm := fun i =>
    ⟨ofBytesLE (b (1 + 8 * i)) (b (2 + 8 * i)) (b (3 + 8 * i)) (b (4 + 8 * i)),
     ofBytesLE (b (5 + 8 * i)) (b (6 + 8 * i)) (b (7 + 8 * i)) (b (8 + 8 * i))⟩
  crc := b 217

/-- Byte `k` of a buffer filled with the 16-bit words `w` (low byte first). -/
def bytesOfWords (w : Nat → Nat) (k : Nat) : Nat :=
  if k % 2 = 0 then w (k / 2) % 256 else w (k / 2) / 256 % 256

/-- The `CALIBDATA` whose memory image is the sequence of 16-bit words `w`. -/
def CALIBDATA.ofWords (w : Nat → Nat) : CALIBDATA := CALIBDATA.ofBytes (bytesOfWords w)

/-- Function `GetBufferChecksum` (utils.cpp): the 8-bit sum of the first `len` bytes. -/
def GetBufferChecksum (pBuf : Nat → Nat) (len : Nat) : Nat :=
  (List.range len).foldl (fun checksum i => (checksum + pBuf i) % 256) 0

/-- The module state of calib.cpp: the globals `calib` and `partCalib`, the storage chip,
and the arguments of the last "Coeff:" notice written to the error-message buffer. -/
structure CalibState where
  calib : CALIBDATA
  partCalib : Nat → PARTCALIB
  eprom : EPROM
  coeffNotice : Option (Nat × Nat)

/-- Function `CALIB_InitPartCalibData`: every field NaN, every dirty flag 0. -/
def CALIB_InitPartCalibData (st : CalibState) : CalibState :=
  { st with partCalib := fun idxScale =>
      if idxScale < 27 then ⟨Dbl.nan, Dbl.nan, Dbl.nan, Dbl.nan, Dbl.nan, 0⟩
      else st.partCalib idxScale }

/-- Function `CALIB_ReplaceCalibNullValues`: a NaN `Add` or `Mult` becomes `0`. -/
def CALIB_ReplaceCalibNullValues (st : CalibState) : CalibState :=
  let c := st.calib
  let Dmm1 : Nat → CALIB := fun idxScale =>
    if idxScale < 27 then
      { Mult := if DMM_IsNotANumber (f32ToDbl (c.Dmm idxScale).Mult) then 0
                else (c.Dmm idxScale).Mult,
        Add := if DMM_IsNotANumber (f32ToDbl (c.Dmm idxScale).Add) then 0
               else (c.Dmm idxScale).Add }
    else c.Dmm idxScale
  { st with calib := { c with Dmm := Dmm1 } }

/-- Function `CALIB_CntCalibDirty`: the 8-bit sum of the 27 dirty flags, which are reset. -/
def CALIB_CntCalibDirty (st : CalibState) : Nat × CalibState :=
  ((List.range 27).foldl (fun bResult idxScale =>
      (bResult + (st.partCalib idxScale).fCalibDirty) % 256) 0,
   { st with partCalib := fun idxScale =>
      if idxScale < 27 then { (st.partCalib idxScale) with fCalibDirty := 0 }
      else st.partCalib idxScale })

/-- The first three assignments of `CALIB_WriteAllCalibsToEPROM_Raw`: the magic number,
the neutral checksum value, then the checksum of the whole record. -/
def CALIBDATA.seal (c : CALIBDATA) : CALIBDATA :=
  let c1 := { c with magic := EPROM_MAGIC_NO, crc := 0 }
  { c1 with crc := GetBufferChecksum c1.byte sizeofCALIBDATA }

/-- Function `CALIB_WriteAllCalibsToEPROM_Raw`. -/
def CALIB_WriteAllCalibsToEPROM_Raw (st : CalibState) (baseAddr : Nat) : Nat × CalibState :=
  let dev1 := EPROM_WriteEnable st.eprom
  let c2 := st.calib.seal
  -- write calibration structure
  let r := EPROM_WriteWords_Raw dev1 baseAddr c2.word ((sizeofCALIBDATA / 2 : Nat) : Int)
  (r.1, { st with calib := c2, eprom := EPROM_WriteDisable r.2 })

/-- Function `CALIB_ReadAllCalibsFromEPROM_Raw`: the error code and the record left in `*pCalib`. -/
def CALIB_ReadAllCalibsFromEPROM_Raw (dev : EPROM) (baseAddr : Nat) : Nat × CALIBDATA :=
  -- read calibration structure
  let pCalib := CALIBDATA.ofWords (EPROM_ReadWords dev baseAddr)
  -- check CRC
  let bCrcRead := pCalib.crc
  let p0 := { pCalib with crc := 0 }
  let bCrc := GetBufferChecksum p0.byte sizeofCALIBDATA
  let p1 := { p0 with crc := bCrcRead }
  if p1.magic ≠ EPROM_MAGIC_NO then (ERRVAL_EPROM_MAGICNO, p1)
  else if p1.crc ≠ bCrc then (ERRVAL_EPROM_CRC, p1)
  else (0, p1)

/-- Function `CALIB_ReadAllCalibsFromEPROM_User`. -/
def CALIB_ReadAllCalibsFromEPROM_User (st : CalibState) : Nat × CalibState :=
  let r := CALIB_ReadAllCalibsFromEPROM_Raw st.eprom ADR_EPROM_CALIB
  (r.1, CALIB_ReplaceCalibNullValues { st with calib := r.2 })

/-- Function `CALIB_ReadAllCalibsFromEPROM_Factory`. -/
def CALIB_ReadAllCalibsFromEPROM_Factory (st : CalibState) : Nat × CalibState :=
  let r := CALIB_ReadAllCalibsFromEPROM_Raw st.eprom ADR_EPROM_FACTCALIB
  (r.1, { st with calib := r.2 })

/-- Function `CALIB_Init`: `EPROM_Init` only sets up the pins. -/
def CALIB_Init (st : CalibState) : Nat × CalibState :=
  CALIB_ReadAllCalibsFromEPROM_User (CALIB_InitPartCalibData st)

/-- Function `CALIB_WriteAllCalibsToEPROM_User`. -/
def CALIB_WriteAllCalibsToEPROM_User (st : CalibState) : Nat × CalibState :=
  let r := CALIB_WriteAllCalibsToEPROM_Raw st ADR_EPROM_CALIB
  if r.1 = ERRVAL_SUCCESS then
    let c := CALIB_CntCalibDirty r.2
    (c.1, (CALIB_Init c.2).2)
  else r

/-- Function `CALIB_VerifyEPROM_Raw`. -/
def CALIB_VerifyEPROM_Raw (dev : EPROM) (pCalib : CALIBDATA) (baseAddr : Nat) : Nat :=
  -- 1. Read data from eprom to calib1
  let r := CALIB_ReadAllCalibsFromEPROM_Raw dev baseAddr
  -- 2. Compare data from *pCalib with data from calib1
  if r.1 = ERRVAL_SUCCESS then
    (List.range 27).foldl (fun bResult i =>
      if bResult = ERRVAL_SUCCESS then
        (if Dbl.ne (f32ToDbl (r.2.Dmm i).Add) (f32ToDbl (pCalib.Dmm i).Add) ||
            Dbl.ne (f32ToDbl (r.2.Dmm i).Mult) (f32ToDbl (pCalib.Dmm i).Mult)
         then ERRVAL_EPROM_VERIFY else bResult)
      else bResult) r.1
  else r.1

/-- Function `CALIB_VerifyEPROM`. -/
def CALIB_VerifyEPROM (st : CalibState) : Nat :=
  CALIB_VerifyEPROM_Raw st.eprom st.calib ADR_EPROM_CALIB

/-- Every write cycle still to come completes: the chip raises MISO before the ready
poll of `EPROM_WaitUntilReady_Raw` gives up. -/
def EPROM.AllComplete (dev : EPROM) : Prop := ∀ p, p ∈ dev.busy → p < EPROM_CNTTIMEOUT

/-- Every coefficient of the table is a 32-bit pattern (the size of a `float`). -/
def CALIBDATA.WellFormed (c : CALIBDATA) : Prop :=
  ∀ i, i < 27 → (c.Dmm i).Mult < 2 ^ 32 ∧ (c.Dmm i).Add < 2 ^ 32

/-- No coefficient of the table is a NaN. -/
def CALIBDATA.NoNaN (c : CALIBDATA) : Prop :=
  ∀ i, i < 27 → DMM_IsNotANumber (f32ToDbl (c.Dmm i).Mult) = false ∧
    DMM_IsNotANumber (f32ToDbl (c.Dmm i).Add) = false

/-- What `CALIB_ReplaceCalibNullValues` makes of one entry. -/
def CALIB.replaceNull (e : CALIB) : CALIB :=
  ⟨if DMM_IsNotANumber (f32ToDbl e.Mult) then 0 else e.Mult,
   if DMM_IsNotANumber (f32ToDbl e.Add) then 0 else e.Add⟩

/-- A module state whose coefficients are all `0.0f`, on the zeroed chip. -/
def calibStateZero : CalibState :=
  ⟨⟨0, fun _ => ⟨0, 0⟩, 0⟩, fun _ => ⟨Dbl.nan, Dbl.nan, Dbl.nan, Dbl.nan, Dbl.nan, 0⟩,
   epromZero, none⟩

/-- A module state on the zeroed chip in which the scales 5 and 11 have new coefficients
(`Mult = 0.01f`, `Add = 0.002f`, as `CALIB_ImportCalibCoefficients` stores them) and
their dirty flags set. -/
def calibStateTwoDirty : CalibState :=
  ⟨⟨0, fun i => if i = 5 ∨ i = 11 then ⟨0x3C23D70A, 0x3B03126F⟩ else ⟨0, 0⟩, 0⟩,
   fun i => ⟨Dbl.nan, Dbl.nan, Dbl.nan, Dbl.nan, Dbl.nan, if i = 5 ∨ i = 11 then 1 else 0⟩,
   epromZero, none⟩

/-- A module state whose `Mult` coefficient of scale 0 is the quiet NaN `0x7FC00000`
(as `CALIB_ImportCalibCoefficients` stores it when given a NaN), all other
coefficients `0.0f`, on the zeroed chip. -/
def calibStateNaN : CalibState :=
  ⟨⟨0, fun i => if i = 0 then ⟨0x7FC00000, 0⟩ else ⟨0, 0⟩, 0⟩,
   fun _ => ⟨Dbl.nan, Dbl.nan, Dbl.nan, Dbl.nan, Dbl.nan, 0⟩, epromZero, none⟩

/-! ## Calibration engine (calib.h, calib.cpp) -/

/-- Constant `CALIB_RES_ZERO_REFVAL`: 50 mOhm. -/
def CALIB_RES_ZERO_REFVAL : Dbl := Dbl.fin 0.05

/-- The operand `(fResistance || fContinuity ? CALIB_RES_ZERO_REFVAL : 0)`. -/
def CALIB_zeroRef (fResistance fContinuity : Bool) : Dbl :=
  if fResistance || fContinuity then CALIB_RES_ZERO_REFVAL else Dbl.fin 0

/-- Function `CALIB_ComputeMult`: the `float` returned, as its 32-bit pattern. `toFloat` is the
conversion from `double` to `float`, `sq` the square-root routine. -/
def CALIB_ComputeMult (toFloat : Dbl → Nat) (sq : ℚ → ℚ) (dmm : DMMState) (st : CalibState)
    (idxScale : Int) : Nat :=
  let pc := st.partCalib idxScale.toNat
  let fAC := DMM_FACScale dmm idxScale
  let fDC := DMM_FDCScale dmm idxScale
  let fResistance := DMM_FResistorScale dmm idxScale
  let fDiode := DMM_FDiodeScale dmm idxScale
  let fContinuity := DMM_FContinuityScale dmm idxScale
  let fResult : Nat :=
    if fAC then
      -- 2 points calib AC
      toFloat (Dbl.sub (Dbl.div pc.Calib_Ref_ValP
        (Dbl.sqrt sq (Dbl.sub (Dbl.pow2 pc.Calib_Ms_ValP) (Dbl.pow2 pc.Calib_Ms_Zero))))
        (Dbl.fin 1))
    else
      let r1 : Nat :=
        if fDC then
          -- 3 points calib DC
          toFloat (Dbl.sub (Dbl.div (Dbl.sub pc.Calib_Ref_ValP pc.Calib_Ref_ValN)
            (Dbl.sub pc.Calib_Ms_ValP pc.Calib_Ms_ValN)) (Dbl.fin 1))
        else 0
      if fResistance || fDiode || fContinuity then
        -- 2 points calib Diode, Resistance
        toFloat (Dbl.sub (Dbl.div
          (Dbl.sub (CALIB_zeroRef fResistance fContinuity) pc.Calib_Ref_ValP)
          (Dbl.sub pc.Calib_Ms_Zero pc.Calib_Ms_ValP)) (Dbl.fin 1))
      else r1
  if DMM_IsNotANumber (f32ToDbl fResult) then 0 else fResult

/-- Function `CALIB_ComputeAdd`: the `float` returned, as its 32-bit pattern. In the DC and the
resistance branches the cast `(float)` applies to the first factor only. -/
def CALIB_ComputeAdd (toFloat : Dbl → Nat) (sq : ℚ → ℚ) (dmm : DMMState) (st : CalibState)
    (idxScale : Int) : Nat :=
  let pc := st.partCalib idxScale.toNat
  let fAC := DMM_FACScale dmm idxScale
  let fDC := DMM_FDCScale dmm idxScale
  let fResistance := DMM_FResistorScale dmm idxScale
  let fDiode := DMM_FDiodeScale dmm idxScale
  let fContinuity := DMM_FContinuityScale dmm idxScale
  let fResult : Nat :=
    if fAC then
      -- 2 points calib AC
      toFloat pc.Calib_Ms_Zero
    else
      let r1 : Nat :=
        if fDC then
          -- 3 points calib DC
          toFloat (Dbl.mul (f32ToDbl (toFloat (Dbl.sub (Dbl.fin 0) pc.Calib_Ms_Zero)))
            (Dbl.add (Dbl.fin 1) (f32ToDbl (CALIB_ComputeMult toFloat sq dmm st idxScale))))
        else 0
      if fResistance || fDiode || fContinuity then
        -- 2 points calib Diode, Resistance
        toFloat (Dbl.mul
          (f32ToDbl (toFloat (Dbl.sub (CALIB_zeroRef fResistance fContinuity) pc.Calib_Ms_Zero)))
          (Dbl.add (Dbl.fin 1) (f32ToDbl (CALIB_ComputeMult toFloat sq dmm st idxScale))))
      else r1
  if DMM_IsNotANumber (f32ToDbl fResult) then 0 else fResult

/-- Function `CALIB_ERR_CheckDoubleVal`. -/
def CALIB_ERR_CheckDoubleVal (dVal : Dbl) : Nat :=
  if !DMM_IsNotANumber dVal then ERRVAL_SUCCESS else ERRVAL_CALIB_NANDOUBLE

/-- Function `CALIB_CheckCompleteCalib`: the value returned (0 or 1) and the new module state. -/
def CALIB_CheckCompleteCalib (toFloat : Dbl → Nat) (sq : ℚ → ℚ) (dmm : DMMState)
    (st : CalibState) : Nat × CalibState :=
  let idxScale := DMM_GetCurrentScale dmm
  if idxScale ≥ 0 ∧ idxScale < DMM_CNTSCALES then
    let pc := st.partCalib idxScale.toNat
    let fCalibZ := !DMM_IsNotANumber pc.Calib_Ms_Zero
    let fCalibP := !DMM_IsNotANumber pc.Calib_Ms_ValP && !DMM_IsNotANumber pc.Calib_Ref_ValP
    let fCalibN := !DMM_IsNotANumber pc.Calib_Ms_ValN && !DMM_IsNotANumber pc.Calib_Ref_ValN
    let fAC := DMM_FACScale dmm idxScale
    let fDC := DMM_FDCScale dmm idxScale
    let fDiode := DMM_FDiodeScale dmm idxScale
    let fResistance := DMM_FResistorScale dmm idxScale
    let fResult := (fDC && fCalibZ && fCalibP && fCalibN) ||
      ((fAC || fResistance || fDiode) && fCalibZ && fCalibP)
    if fResult then
      let mult := CALIB_ComputeMult toFloat sq dmm st idxScale
      let Dmm1 : Nat → CALIB := fun i =>
        if i = idxScale.toNat then ⟨mult, (st.calib.Dmm i).Add⟩ else st.calib.Dmm i
      let st1 : CalibState := { st with calib := ⟨st.calib.magic, Dmm1, st.calib.crc⟩ }
      let add := CALIB_ComputeAdd toFloat sq dmm st1 idxScale
      let Dmm2 : Nat → CALIB := fun i =>
        if i = idxScale.toNat then ⟨(Dmm1 i).Mult, add⟩ else Dmm1 i
      let st2 : CalibState := { st1 with calib := ⟨st.calib.magic, Dmm2, st.calib.crc⟩ }
      -- needs to be written to EPROM
      let part1 : Nat → PARTCALIB := fun i =>
        if i = idxScale.toNat then { (st.partCalib i) with fCalibDirty := 1 }
        else st.partCalib i
      let st3 : CalibState := { st2 with partCalib := part1 }
      -- fill information text
      (1, { st3 with coeffNotice := some (mult, add) })
    else (0, st)
  else (0, st)

/-- The completeness condition in the words of the specification: a DC-type scale needs
the zero measurement, the positive measurement with its reference and the negative
measurement with its reference; an AC, resistance, continuity or diode scale needs the
zero measurement and the positive measurement with its reference. "Present" is "not
NaN". -/
def calibrationComplete (mode : Nat) (pc : PARTCALIB) : Prop :=
  ((mode = DmmDCVoltage ∨ mode = DmmDCCurrent ∨ mode = DmmDCLowCurrent) ∧
    pc.Calib_Ms_Zero ≠ Dbl.nan ∧ pc.Calib_Ms_ValP ≠ Dbl.nan ∧ pc.Calib_Ref_ValP ≠ Dbl.nan ∧
    pc.Calib_Ms_ValN ≠ Dbl.nan ∧ pc.Calib_Ref_ValN ≠ Dbl.nan) ∨
  ((mode = DmmACVoltage ∨ mode = DmmACCurrent ∨ mode = DmmACLowCurrent ∨
      mode = DmmResistance ∨ mode = DmmContinuity ∨ mode = DmmDiode) ∧
    pc.Calib_Ms_Zero ≠ Dbl.nan ∧ pc.Calib_Ms_ValP ≠ Dbl.nan ∧ pc.Calib_Ref_ValP ≠ Dbl.nan)

/-- The zero reference `R0` of the specification: 0.05 for resistance and continuity
scales, 0 for the diode scale. -/
def specZeroRef (mode : Nat) : Dbl :=
  if mode = DmmResistance ∨ mode = DmmContinuity then Dbl.fin 0.05 else Dbl.fin 0

/-- The documented `mult` formula, by scale type: AC `Pref / sqrt(P² − Z²) − 1`, DC
`(Pref − Nref) / (P − N) − 1`, resistance, continuity and diode
`(R0 − Pref) / (Z − P) − 1`. -/
def specMult (sq : ℚ → ℚ) (mode : Nat) (pc : PARTCALIB) : Dbl :=
  if mode = DmmACVoltage ∨ mode = DmmACCurrent ∨ mode = DmmACLowCurrent then
    Dbl.sub (Dbl.div pc.Calib_Ref_ValP
      (Dbl.sqrt sq (Dbl.sub (Dbl.mul pc.Calib_Ms_ValP pc.Calib_Ms_ValP)
        (Dbl.mul pc.Calib_Ms_Zero pc.Calib_Ms_Zero)))) (Dbl.fin 1)
  else if mode = DmmDCVoltage ∨ mode = DmmDCCurrent ∨ mode = DmmDCLowCurrent then
    Dbl.sub (Dbl.div (Dbl.sub pc.Calib_Ref_ValP pc.Calib_Ref_ValN)
      (Dbl.sub pc.Calib_Ms_ValP pc.Calib_Ms_ValN)) (Dbl.fin 1)
  else
    Dbl.sub (Dbl.div (Dbl.sub (specZeroRef mode) pc.Calib_Ref_ValP)
      (Dbl.sub pc.Calib_Ms_Zero pc.Calib_Ms_ValP)) (Dbl.fin 1)

/-- The first factor of the documented `add` formula of the DC (`−Z`) and the
resistance, continuity and diode (`R0 − Z`) types. -/
def specAddFactor (mode : Nat) (pc : PARTCALIB) : Dbl :=
  if mode = DmmDCVoltage ∨ mode = DmmDCCurrent ∨ mode = DmmDCLowCurrent then
    Dbl.neg pc.Calib_Ms_Zero
  else Dbl.sub (specZeroRef mode) pc.Calib_Ms_Zero

/-- The documented `add` formula, by scale type: AC `Z`, DC `−Z * (1 + mult)`,
resistance, continuity and diode `(R0 − Z) * (1 + mult)`. -/
def specAdd (mode : Nat) (pc : PARTCALIB) (mult : Dbl) : Dbl :=
  if mode = DmmACVoltage ∨ mode = DmmACCurrent ∨ mode = DmmACLowCurrent then pc.Calib_Ms_Zero
  else Dbl.mul (specAddFactor mode pc) (Dbl.add (Dbl.fin 1) mult)

/-- The documented `add` formula as `float` arithmetic evaluates it: in the product of
the DC and the resistance, continuity and diode types the first factor (`−Z`, `R0 − Z`)
is a `float` value. -/
def specAddFloat (toFloat : Dbl → Nat) (mode : Nat) (pc : PARTCALIB) (mult : Dbl) : Dbl :=
  if mode = DmmACVoltage ∨ mode = DmmACCurrent ∨ mode = DmmACLowCurrent then pc.Calib_Ms_Zero
  else Dbl.mul (f32ToDbl (toFloat (specAddFactor mode pc))) (Dbl.add (Dbl.fin 1) mult)

/-- The last step of `CALIB_ComputeMult` and `CALIB_ComputeAdd`: a NaN result becomes 0. -/
def CALIB_clampNaN (fResult : Nat) : Nat :=
  if DMM_IsNotANumber (f32ToDbl fResult) then 0 else fResult

/-- The state after `DMM_SetScale 11` (an AC voltage scale) succeeded on the initial state. -/
def scale11Selected : DMMState :=
  (DMM_SetScale DMMState.init 11 (fun i => (dmmcfg.getD 11 default).cfg.getD i 0)).2

/-- A module state in which scale 11 has the zero measurement `Z = 0`, the positive
measurement `P = 1000` and the positive reference `Pref = 1.0`, and nothing else. -/
def calibStateACExample : CalibState :=
  ⟨⟨0, fun _ => ⟨0, 0⟩, 0⟩,
   fun i => if i = 11 then ⟨Dbl.fin 0, Dbl.fin 1000, Dbl.fin 1, Dbl.nan, Dbl.nan, 0⟩
     else ⟨Dbl.nan, Dbl.nan, Dbl.nan, Dbl.nan, Dbl.nan, 0⟩,
   epromZero, none⟩

/-- A square-root routine for the example: exact on `1000² = 1000000`. -/
def sqExample (q : ℚ) : ℚ := if q = 1000000 then 1000 else 0

/-- A conversion to `float` for the examples: the round-to-nearest patterns of NaN, the
infinities, `0` (`0x00000000`) and `-0.999` (`0xBF7FBE77`); other numbers are not used
and are sent to `0x00000000`. -/
def toFloatExample : Dbl → Nat
  | Dbl.nan => 0x7FC00000
  | Dbl.pinf => 0x7F800000
  | Dbl.ninf => 0xFF800000
  | Dbl.fin q => if q = -999 / 1000 then 0xBF7FBE77 else 0

/-! ## Value formatting and parsing (utils.cpp, dmm.cpp) -/

/-- Truncation of a number towards zero. -/
def truncQ (q : ℚ) : Int := if q < 0 then -⌊-q⌋ else ⌊q⌋

/-- The C conversion `int(dVal)`: truncation towards zero when the truncated number is a
value of `int`. For NaN, an infinity, or a number outside the range of `int` the
conversion is undefined in C: the result is then the `int` the board produces
(`intUndef`, reduced to the width of `int`). -/
def Dbl.toInt (t : Target) : Dbl → Int
  | Dbl.fin q =>
    if -(2 ^ (t.intBits - 1) : Int) ≤ truncQ q ∧ truncQ q < 2 ^ (t.intBits - 1) then truncQ q
    else wrapInt t.intBits (t.intUndef (Dbl.fin q))
  | x => wrapInt t.intBits (t.intUndef x)

/-- The C conversion of a `double` to `uint32_t`: truncation towards zero when the
truncated number is a value of `uint32_t`, and what the board produces otherwise
(`intUndef`, reduced to 32 bits). -/
def Dbl.toUInt32 (t : Target) : Dbl → Nat
  | Dbl.fin q =>
    if 0 ≤ truncQ q ∧ truncQ q < 2 ^ 32 then (truncQ q).toNat
    else (t.intUndef (Dbl.fin q) % 2 ^ 32).toNat
  | x => (t.intUndef x % 2 ^ 32).toNat

/-- The library call `itoa(n, s, 10)`: the decimal digits, after a `-` when negative. -/
def itoa (n : Int) : List Char :=
  if n < 0 then '-' :: Nat.toDigits 10 n.natAbs else Nat.toDigits 10 n.toNat

/-- Function `SPrintfDouble` (utils.cpp): the text written to `pString` (integer part, decimal
point, `precision` digits of the fraction) and the value returned. The difference and
the product of step 3.2 are `double` operations: each result is rounded to a `double` of
the board before the conversion to `uint32_t` cuts the fraction of the product. The
conversions of `int(dVal)` and of the precision factor to `double` are exact on both
boards (a value of `int`; 10^6 for the precision 6 of every call in the library). -/
def SPrintfDouble (t : Target) (dVal : Dbl) (precision : Nat) : List Char × Nat :=
  -- 1. Print the integer part
  let sInt := itoa (Dbl.toInt t dVal)
  let lenInt := sInt.length % 256
  -- 3.1. Compute precision factor (10 power precision)
  let precisionFactor := 10 ^ precision % 2 ^ 32
  -- 3.2. Compute fractional part as integer
  let fract :=
    if Dbl.ge dVal (Dbl.fin 0) then
      Dbl.toUInt32 t (Dbl.round t (Dbl.mul
        (Dbl.round t (Dbl.sub dVal (Dbl.ofInt (Dbl.toInt t dVal))))
        (Dbl.ofInt precisionFactor)))
    else
      Dbl.toUInt32 t (Dbl.round t (Dbl.mul
        (Dbl.round t (Dbl.sub (Dbl.ofInt (Dbl.toInt t dVal)) dVal))
        (Dbl.ofInt precisionFactor)))
  -- 3.3. Print the fractional part, padding left with leading 0s
  let sFract := (List.range precision).map fun j =>
    Char.ofNat (48 + fract / 10 ^ (precision - 1 - j) % 10)
  (sInt ++ ['.'] ++ sFract, (lenInt + precision + 1) % 256)

/-- Function `DMM_GetScaleUnit`: the error code, the scale factor, the unit prefix and the unit.
The three outputs are written only for a valid index; the unit is written only for one
of the nine modes (the model gives the empty text otherwise). -/
def DMM_GetScaleUnit (s : DMMState) (idxScale : Int) : Nat × Dbl × List Char × List Char :=
  let bResult := DMM_ERR_CheckIdxCalib idxScale
  if bResult = ERRVAL_SUCCESS then
    let r := s.curCfg.range
    let pf : Dbl × List Char :=
      if Dbl.lt r (Dbl.fin 1e-3) then (Dbl.fin 1e6, ['u'])
      else if Dbl.ge r (Dbl.fin 1e-3) && Dbl.lt r (Dbl.fin 1) then (Dbl.fin 1e3, ['m'])
      else if Dbl.ge r (Dbl.fin 1) && Dbl.lt r (Dbl.fin 1e3) then (Dbl.fin 1, [])
      else if Dbl.ge r (Dbl.fin 1e3) && Dbl.lt r (Dbl.fin 1e6) then (Dbl.fin 1e-3, ['k'])
      else (Dbl.fin 1e-6, ['M'])
    let m := s.curCfg.mode
    let szUnit : List Char :=
      if m = DmmDCVoltage ∨ m = DmmACVoltage ∨ m = DmmDiode then ['V']
      else if m = DmmDCCurrent ∨ m = DmmACCurrent ∨ m = DmmDCLowCurrent ∨ m = DmmACLowCurrent
        then ['A']
      else if m = DmmResistance ∨ m = DmmContinuity then ['O', 'h', 'm']
      else []
    (bResult, pf.1, pf.2, szUnit)
  else (bResult, Dbl.fin 0, [], [])

/-- Function `DMM_FormatValue`: the error code and the content of `pString` after the call
(`pString0` before it). The variable `dScaleFact` holds the factor as a `double` of the
board, and `dVal *= dScaleFact` is a `double` operation: both are rounded. -/
def DMM_FormatValue (t : Target) (s : DMMState) (dVal : Dbl) (pString0 : List Char)
    (fUnit : Nat) : Nat × List Char :=
  let bResult := DMM_ERR_CheckIdxCalib s.idxCurrentScale
  if bResult = ERRVAL_SUCCESS then
    let r : Nat × List Char × Dbl :=
      if Dbl.eq dVal Dbl.pinf then
        (bResult, if s.curCfg.mode = DmmContinuity then "OPEN".toList else "OVERLOAD".toList, dVal)
      else if Dbl.eq dVal Dbl.ninf then
        (bResult, if s.curCfg.mode = DmmContinuity then "OPEN".toList else "OVERLOAD".toList, dVal)
      else
        let u := DMM_GetScaleUnit s s.idxCurrentScale
        if u.1 = ERRVAL_SUCCESS then
          -- valid idxScale
          let dVal1 := Dbl.round t (Dbl.mul dVal (Dbl.round t u.2.1))
          let p := (SPrintfDouble t dVal1 6).1
          (u.1, if fUnit ≠ 0 then p ++ [' '] ++ u.2.2.1 ++ u.2.2.2 else p, dVal1)
        else (u.1, pString0, dVal)
    if s.curCfg.mode = DmmDiode ∧ Dbl.gt r.2.2 (Dbl.ofInt DMM_DIODEOPENTHRESHOLD) = true then
      (r.1, "OPEN".toList)
    else (r.1, r.2.1)
  else (bResult, pString0)

/-- The loop `while(pString[szLen - 1] == ' ')` of `DMM_InterpretValue`: the text without
its trailing blanks. -/
def trimTrailingBlanks (p : List Char) : List Char :=
  (p.reverse.dropWhile (fun c => c == ' ')).reverse

/-- Function `DMM_InterpretValue`: the error code and the value written through `pdVal` (`none`
when nothing is written). `atof` is the library call; the input is a non-empty text at
least as long as the unit. -/
def DMM_InterpretValue (atof : List Char → Dbl) (s : DMMState) (pString : List Char) :
    Nat × Option Dbl :=
  -- trim the blank values at the end of the string
  let p1 := trimTrailingBlanks pString
  if p1 = "OVERLOAD".toList ∨ p1 = "OPEN".toList then (ERRVAL_SUCCESS, some Dbl.pinf)
  else
    let u := DMM_GetScaleUnit s s.idxCurrentScale
    if u.1 = ERRVAL_SUCCESS then
      let last := p1.getLastD ' '
      let r : Nat × Dbl × List Char :=
        if ¬ ('0' ≤ last ∧ last ≤ '9') then
          -- the string does not end with numeric char, it contains Unit.
          let szUnit := u.2.2.2
          if p1.drop (p1.length - szUnit.length) = szUnit then
            -- remove Unit length
            let p2 := p1.take (p1.length - szUnit.length)
            -- look for any multiple / submultiple prefix before the Unit
            let c := p2.getLastD ' '
            if c = 'u' then (u.1, Dbl.fin 1e6, p2.dropLast)
            else if c = 'm' then (u.1, Dbl.fin 1e3, p2.dropLast)
            else if c = 'k' then (u.1, Dbl.fin 1e-3, p2.dropLast)
            else if c = 'M' then (u.1, Dbl.fin 1e-6, p2.dropLast)
            else (u.1, Dbl.fin 1, p2)
          else (ERRVAL_CMD_VALWRONGUNIT, Dbl.fin 1, p1)
        else (u.1, u.2.1, p1)
      if r.1 = ERRVAL_SUCCESS then
        -- trim the string to eliminate Unit Prefix and Unit, then the blanks; extract
        (r.1, some (Dbl.div (atof (trimTrailingBlanks r.2.2)) r.2.1))
      else (r.1, none)
    else (u.1, none)

/-- The state after `DMM_SetScale 8` (5 V DC) succeeded on the initial state. -/
def scale8Selected : DMMState :=
  (DMM_SetScale DMMState.init 8 (fun i => (dmmcfg.getD 8 default).cfg.getD i 0)).2

/-- The state after `DMM_SetScale 9` (500 mV DC) succeeded on the initial state. -/
def scale9Selected : DMMState :=
  (DMM_SetScale DMMState.init 9 (fun i => (dmmcfg.getD 9 default).cfg.getD i 0)).2

/-! ## Measurement engine: reading the converter (dmm.h, dmm.cpp) -/

/-- The C struct `DMMSTS`: the registers 0x00 .. 0x1F read in one status transaction. -/
structure DMMSTS where
  ad1 : Nat → Nat
  ad2 : Nat → Nat
  lpf : Nat → Nat
  rms : Nat → Nat
  pkhmin : Nat → Nat
  pkhmax : Nat → Nat
  ctsta : Nat
  ctc : Nat → Nat
  ctb : Nat → Nat
  cta : Nat → Nat
  intf : Nat
  inte : Nat

def DMM_Voltage50DCLinearCoeff_P3 : Dbl := Dbl.fin (-1.59128e-06)
def DMM_Voltage50DCLinearCoeff_P1 : Dbl := Dbl.fin 1.003918916
def DMM_Voltage50DCLinearCoeff_P0 : Dbl := Dbl.fin 0.000196999

/-- The `int32_t` value `vad1` of `DMM_DGetStatus`: the three bytes of `ad1` placed in the
upper 24 bits of a 32-bit two's-complement word, then divided by 256. -/
def DMM_vad1 (dmmsts : DMMSTS) : Int :=
  let raw : Nat := (dmmsts.ad1 2 % 256) * 2 ^ 24 + (dmmsts.ad1 1 % 256) * 2 ^ 16 +
    (dmmsts.ad1 0 % 256) * 2 ^ 8
  let signed : Int := if raw ≥ 2 ^ 31 then (raw : Int) - 2 ^ 32 else (raw : Int)
  Int.tdiv signed 256

/-- The `int64_t` value `vrms` of `DMM_DGetStatus`: the five bytes of `rms`, `rms[4]` the
most significant, shifted right by 8 bits when `rms32` is set. -/
def DMM_vrms (rms32 : Bool) (dmmsts : DMMSTS) : Int :=
  let v : Nat := (List.range 5).foldl (fun vrms i => vrms * 256 + dmmsts.rms (4 - i) % 256) 0
  if rms32 then ((v / 256 : Nat) : Int) else (v : Int)

/-- Function `DMM_DGetStatus`: the value returned and the error written through `pbErr`,
for the register snapshot `dmmsts` read from the chip. The flag `rms32` is a parameter
(the source computes it from `dmmsts.rms[4-i]` with `i` not yet assigned, or fixes it
to 0 on the Arduino Due); `sq` is the square-root routine. -/
def DMM_DGetStatus (sq : ℚ → ℚ) (rms32 : Bool) (s : DMMState) (calib : CALIBDATA)
    (dmmsts : DMMSTS) : Dbl × Nat :=
  -- 1. Verify index
  let bResult := DMM_ERR_CheckIdxCalib s.idxCurrentScale
  if bResult ≠ ERRVAL_SUCCESS then (Dbl.nan, bResult)
  else
    -- 3. Compute value, according to the specific scale
    let vad1 := DMM_vad1 dmmsts
    let vrms := DMM_vrms rms32 dmmsts
    let cMult := f32ToDbl (calib.Dmm s.idxCurrentScale.toNat).Mult
    let cAdd := f32ToDbl (calib.Dmm s.idxCurrentScale.toNat).Add
    let v : Dbl :=
      if DMM_FACScale s s.idxCurrentScale then
        -- AC uses RMS
        if dmmsts.intf &&& 0x10 ≠ 0 then
          -- conversion done
          if s.fUseCalib ≠ 0 then
            -- apply calibration coefficients
            if rms32 then
              Dbl.mul (Dbl.sqrt sq (Dbl.abs (Dbl.sub
                (Dbl.mul (Dbl.fin 256) (Dbl.mul (Dbl.pow2 s.curCfg.mul) (Dbl.ofInt vrms)))
                (Dbl.pow2 cAdd)))) (Dbl.add (Dbl.fin 1) cMult)
            else
              Dbl.mul (Dbl.sqrt sq (Dbl.abs (Dbl.sub
                (Dbl.mul (Dbl.pow2 s.curCfg.mul) (Dbl.ofInt vrms)) (Dbl.pow2 cAdd))))
                (Dbl.add (Dbl.fin 1) cMult)
          else
            if rms32 then
              Dbl.mul (Dbl.fin 16) (Dbl.mul s.curCfg.mul (Dbl.sqrt sq (Dbl.ofInt vrms)))
            else Dbl.mul s.curCfg.mul (Dbl.sqrt sq (Dbl.ofInt vrms))
        else Dbl.nan
      else
        -- AD1 value
        if dmmsts.intf &&& 0x04 ≠ 0 then
          -- conversion done
          if vad1 ≥ 0x7FFFFE then Dbl.pinf
          else if vad1 ≤ -0x7FFFFE then Dbl.ninf
          else
            let v0 := Dbl.mul s.curCfg.mul (Dbl.ofInt vad1)
            if s.fUseCalib ≠ 0 then Dbl.add (Dbl.mul v0 (Dbl.add (Dbl.fin 1) cMult)) cAdd
            else v0
        else Dbl.nan
    (v, ERRVAL_SUCCESS)

/-- Function `DMM_CompensateVoltage50DCLinear`. -/
def DMM_CompensateVoltage50DCLinear (dVal : Dbl) : Dbl :=
  if !DMM_IsNotANumber dVal then
    Dbl.add (Dbl.add
      (Dbl.mul (Dbl.mul (Dbl.mul dVal dVal) dVal) DMM_Voltage50DCLinearCoeff_P3)
      (Dbl.mul dVal DMM_Voltage50DCLinearCoeff_P1))
      (Dbl.mul dVal DMM_Voltage50DCLinearCoeff_P0)
  else dVal

/-- The loop `while(DMM_IsNotANumber(dVal = DMM_DGetStatus(&bErr)) && (cntTimeout++ <
DMM_VALIDDATA_CNTTIMEOUT) && (bErr == ERRVAL_SUCCESS));` of `DMM_DGetValue`. `status k`
is the result of call number `k` of `DMM_DGetStatus`; the loop state is the number of
calls made and `cntTimeout`; the result is `(dVal, bErr, cntTimeout, calls)`, or `none`
when the fuel runs out before the loop ends. -/
def DMM_DGetValue_loop (status : Nat → Dbl × Nat) : Nat → Nat → Nat → Option (Dbl × Nat × Nat × Nat)
  | 0, _, _ => none
  | fuel + 1, calls, cntTimeout =>
    let dVal := (status calls).1
    let bErr := (status calls).2
    if DMM_IsNotANumber dVal then
      if cntTimeout < DMM_VALIDDATA_CNTTIMEOUT then
        if bErr = ERRVAL_SUCCESS then DMM_DGetValue_loop status fuel (calls + 1) (cntTimeout + 1)
        else some (dVal, bErr, cntTimeout + 1, calls + 1)
      else some (dVal, bErr, cntTimeout + 1, calls + 1)
    else some (dVal, bErr, cntTimeout, calls + 1)

/-- Function `DMM_DGetValue`: the value returned, the error written through `pbErr`, and
the number of calls of `DMM_DGetStatus` made; `sts k` is the register snapshot the chip
returns to call number `k`. The result is `none` if the loop did not end within the
fuel given to the model (`DMM_VALIDDATA_CNTTIMEOUT + 1` iterations). -/
def DMM_DGetValue (sq : ℚ → ℚ) (rms32 : Bool) (s : DMMState) (calib : CALIBDATA)
    (sts : Nat → DMMSTS) : Option (Dbl × Nat × Nat) :=
  match DMM_DGetValue_loop (fun k => DMM_DGetStatus sq rms32 s calib (sts k))
      (DMM_VALIDDATA_CNTTIMEOUT + 1) 0 0 with
  | none => none
  | some (dVal, bErr, cntTimeout, calls) =>
    -- detect timeout
    let bErr1 :=
      if bErr = ERRVAL_SUCCESS ∧ cntTimeout ≥ DMM_VALIDDATA_CNTTIMEOUT then
        ERRVAL_DMM_VALIDDATATIMEOUT
      else bErr
    -- compensate the not linear scale behavior
    let dVal1 :=
      if bErr1 = ERRVAL_SUCCESS ∧ DMM_GetCurrentScale s = DMMVoltageDC50Scale then
        DMM_CompensateVoltage50DCLinear dVal
      else dVal
    some (dVal1, bErr1, calls)

/-- A register snapshot with every register zero (no conversion finished). -/
def dmmstsZero : DMMSTS :=
  ⟨fun _ => 0, fun _ => 0, fun _ => 0, fun _ => 0, fun _ => 0, fun _ => 0, 0,
   fun _ => 0, fun _ => 0, fun _ => 0, 0, 0⟩

/-! ## Calibration engine: the calibration steps (calib.h, calib.cpp) -/

/-- Constant `MEASURE_CNT_AVG`: the number of samples of a calibration measurement. -/
def MEASURE_CNT_AVG : Int := 20

/-- The averaged raw measurement shared by the three `CALIB_MeasureForCalib...` functions:
calibration off, `DMM_DGetAvgValue`, calibration on again. The result is the error code,
the value written through `pMeasuredVal`, the new state of dmm.cpp and the value to
store (present only on success). -/
def CALIB_MeasureForCalib (sq : ℚ → ℚ) (dmm : DMMState) (samples : Nat → Dbl × Nat)
    (cbSamples : Int) : Nat × Dbl × DMMState × Option Dbl :=
  let idxScale := DMM_GetCurrentScale dmm
  let bResult := DMM_ERR_CheckIdxCalib idxScale
  if bResult = ERRVAL_SUCCESS then
    let dmm1 := DMM_SetUseCalib dmm 0
    let r := DMM_DGetAvgValue sq dmm1 samples cbSamples
    let dmm2 := DMM_SetUseCalib dmm1 1
    if r.2 = ERRVAL_SUCCESS then (r.2, r.1, dmm2, some r.1)
    else (r.2, Dbl.nan, dmm2, none)
  else (bResult, Dbl.nan, dmm, none)

/-- The module state with field `Calib_Ms_Zero` of scale `i` set to `v`. -/
def CalibState.setMsZero (st : CalibState) (i : Nat) (v : Dbl) : CalibState :=
  let part1 : Nat → PARTCALIB := fun j =>
    if j = i then { (st.partCalib j) with Calib_Ms_Zero := v } else st.partCalib j
  { st with partCalib := part1 }

/-- The module state with field `Calib_Ms_ValP` of scale `i` set to `v`. -/
def CalibState.setMsValP (st : CalibState) (i : Nat) (v : Dbl) : CalibState :=
  let part1 : Nat → PARTCALIB := fun j =>
    if j = i then { (st.partCalib j) with Calib_Ms_ValP := v } else st.partCalib j
  { st with partCalib := part1 }

/-- The module state with field `Calib_Ref_ValP` of scale `i` set to `v`. -/
def CalibState.setRefValP (st : CalibState) (i : Nat) (v : Dbl) : CalibState :=
  let part1 : Nat → PARTCALIB := fun j =>
    if j = i then { (st.partCalib j) with Calib_Ref_ValP := v } else st.partCalib j
  { st with partCalib := part1 }

/-- The module state with field `Calib_Ms_ValN` of scale `i` set to `v`. -/
def CalibState.setMsValN (st : CalibState) (i : Nat) (v : Dbl) : CalibState :=
  let part1 : Nat → PARTCALIB := fun j =>
    if j = i then { (st.partCalib j) with Calib_Ms_ValN := v } else st.partCalib j
  { st with partCalib := part1 }

/-- The module state with field `Calib_Ref_ValN` of scale `i` set to `v`. -/
def CalibState.setRefValN (st : CalibState) (i : Nat) (v : Dbl) : CalibState :=
  let part1 : Nat → PARTCALIB := fun j =>
    if j = i then { (st.partCalib j) with Calib_Ref_ValN := v } else st.partCalib j
  { st with partCalib := part1 }

/-- Function `CALIB_MeasureForCalibZeroVal`: the error code, the value written through
`pMeasuredVal`, and the new states. -/
def CALIB_MeasureForCalibZeroVal (sq : ℚ → ℚ) (dmm : DMMState) (st : CalibState)
    (samples : Nat → Dbl × Nat) : Nat × Dbl × DMMState × CalibState :=
  let m := CALIB_MeasureForCalib sq dmm samples MEASURE_CNT_AVG
  match m.2.2.2 with
  | some dVal => (m.1, m.2.1, m.2.2.1, st.setMsZero (DMM_GetCurrentScale dmm).toNat dVal)
  | none => (m.1, m.2.1, m.2.2.1, st)

/-- Function `CALIB_MeasureForCalibPositiveVal`. -/
def CALIB_MeasureForCalibPositiveVal (sq : ℚ → ℚ) (dmm : DMMState) (st : CalibState)
    (samples : Nat → Dbl × Nat) : Nat × Dbl × DMMState × CalibState :=
  let m := CALIB_MeasureForCalib sq dmm samples MEASURE_CNT_AVG
  match m.2.2.2 with
  | some dVal => (m.1, m.2.1, m.2.2.1, st.setMsValP (DMM_GetCurrentScale dmm).toNat dVal)
  | none => (m.1, m.2.1, m.2.2.1, st)

/-- Function `CALIB_MeasureForCalibNegativeVal` (the sample count is the literal 20). -/
def CALIB_MeasureForCalibNegativeVal (sq : ℚ → ℚ) (dmm : DMMState) (st : CalibState)
    (samples : Nat → Dbl × Nat) : Nat × Dbl × DMMState × CalibState :=
  let m := CALIB_MeasureForCalib sq dmm samples 20
  match m.2.2.2 with
  | some dVal => (m.1, m.2.1, m.2.2.1, st.setMsValN (DMM_GetCurrentScale dmm).toNat dVal)
  | none => (m.1, m.2.1, m.2.2.1, st)

/-- Function `CALIB_CalibOnZero`. -/
def CALIB_CalibOnZero (toFloat : Dbl → Nat) (sq : ℚ → ℚ) (dmm : DMMState) (st : CalibState)
    (samples : Nat → Dbl × Nat) : Nat × Option Dbl × DMMState × CalibState :=
  let idxScale := DMM_GetCurrentScale dmm
  let bResult := DMM_ERR_CheckIdxCalib idxScale
  -- do the measurement now
  if bResult = ERRVAL_SUCCESS then
    let m := CALIB_MeasureForCalibZeroVal sq dmm st samples
    if m.1 = ERRVAL_SUCCESS then
      -- check if the calibration data is complete
      (m.1, some m.2.1, m.2.2.1, (CALIB_CheckCompleteCalib toFloat sq m.2.2.1 m.2.2.2).2)
    else (m.1, some m.2.1, m.2.2.1, m.2.2.2)
  else (bResult, none, dmm, st)

/-- The first part of `CALIB_CalibOnPositive`: the measurement taken now
(`bEarlyMeasurement` is 0), or the report of the earlier one, which must be present. -/
def CALIB_CalibOnPositive_measure (sq : ℚ → ℚ) (dmm : DMMState) (st : CalibState)
    (samples : Nat → Dbl × Nat) (bEarlyMeasurement : Nat) : Nat × Dbl × DMMState × CalibState :=
  let idxScale := DMM_GetCurrentScale dmm
  let bResult := DMM_ERR_CheckIdxCalib idxScale
  if bEarlyMeasurement = 0 then
    -- no early measurement has been done, do the measurement now
    CALIB_MeasureForCalibPositiveVal sq dmm st samples
  else
    -- just inform the caller about the existing measurement
    let ms := (st.partCalib idxScale.toNat).Calib_Ms_ValP
    (if DMM_IsNotANumber ms then ERRVAL_CALIB_MISSINGMEASUREMENT else bResult, ms, dmm, st)

/-- Function `CALIB_CalibOnPositive`: the error code, the value written through
`pMeasuredVal`, and the new states. -/
def CALIB_CalibOnPositive (toFloat : Dbl → Nat) (sq : ℚ → ℚ) (dmm : DMMState)
    (st : CalibState) (samples : Nat → Dbl × Nat) (dRefVal : Dbl) (bEarlyMeasurement : Nat) :
    Nat × Dbl × DMMState × CalibState :=
  let idxScale := DMM_GetCurrentScale dmm
  let m := CALIB_CalibOnPositive_measure sq dmm st samples bEarlyMeasurement
  if m.1 = ERRVAL_SUCCESS then
    let bResult := CALIB_ERR_CheckDoubleVal dRefVal
    if bResult = ERRVAL_SUCCESS then
      let st1 := m.2.2.2.setRefValP idxScale.toNat dRefVal
      -- check if the calibration data is complete
      (bResult, m.2.1, m.2.2.1, (CALIB_CheckCompleteCalib toFloat sq m.2.2.1 st1).2)
    else
      -- remove the reference data
      (bResult, m.2.1, m.2.2.1, m.2.2.2.setRefValP idxScale.toNat Dbl.nan)
  else m

/-- The first part of `CALIB_CalibOnNegative`. -/
def CALIB_CalibOnNegative_measure (sq : ℚ → ℚ) (dmm : DMMState) (st : CalibState)
    (samples : Nat → Dbl × Nat) (bEarlyMeasurement : Nat) : Nat × Dbl × DMMState × CalibState :=
  let idxScale := DMM_GetCurrentScale dmm
  let bResult := DMM_ERR_CheckIdxCalib idxScale
  if bEarlyMeasurement = 0 then
    CALIB_MeasureForCalibNegativeVal sq dmm st samples
  else
    let ms := (st.partCalib idxScale.toNat).Calib_Ms_ValN
    (if DMM_IsNotANumber ms then ERRVAL_CALIB_MISSINGMEASUREMENT else bResult, ms, dmm, st)

/-- Function `CALIB_CalibOnNegative`. -/
def CALIB_CalibOnNegative (toFloat : Dbl → Nat) (sq : ℚ → ℚ) (dmm : DMMState)
    (st : CalibState) (samples : Nat → Dbl × Nat) (dRefVal : Dbl) (bEarlyMeasurement : Nat) :
    Nat × Dbl × DMMState × CalibState :=
  let idxScale := DMM_GetCurrentScale dmm
  let m := CALIB_CalibOnNegative_measure sq dmm st samples bEarlyMeasurement
  if m.1 = ERRVAL_SUCCESS then
    let bResult := CALIB_ERR_CheckDoubleVal dRefVal
    if bResult = ERRVAL_SUCCESS then
      let st1 := m.2.2.2.setRefValN idxScale.toNat dRefVal
      (bResult, m.2.1, m.2.2.1, (CALIB_CheckCompleteCalib toFloat sq m.2.2.1 st1).2)
    else
      (bResult, m.2.1, m.2.2.1, m.2.2.2.setRefValN idxScale.toNat Dbl.nan)
  else m

/-- Function `CALIB_ImportCalibCoefficients`; `fMult` and `fAdd` are `float` patterns. -/
def CALIB_ImportCalibCoefficients (st : CalibState) (idxScale : Int) (fMult fAdd : Nat) :
    Nat × CalibState :=
  let bResult := DMM_ERR_CheckIdxCalib idxScale
  if bResult = ERRVAL_SUCCESS then
    let Dmm1 : Nat → CALIB := fun i =>
      if i = idxScale.toNat then ⟨fMult, fAdd⟩ else st.calib.Dmm i
    let part1 : Nat → PARTCALIB := fun i =>
      if i = idxScale.toNat then { (st.partCalib i) with fCalibDirty := 1 }
      else st.partCalib i
    (bResult, { st with calib := ⟨st.calib.magic, Dmm1, st.calib.crc⟩, partCalib := part1 })
  else (bResult, st)

/-- A module state in which scale 11 has the zero measurement `Z = 0` and an earlier
positive and negative measurement (1000 and -1000), no reference yet. -/
def calibStateEarlyMeasured : CalibState :=
  ⟨⟨0, fun _ => ⟨0, 0⟩, 0⟩,
   fun i => if i = 11 then ⟨Dbl.fin 0, Dbl.fin 1000, Dbl.nan, Dbl.fin (-1000), Dbl.nan, 0⟩
     else ⟨Dbl.nan, Dbl.nan, Dbl.nan, Dbl.nan, Dbl.nan, 0⟩,
   epromZero, none⟩

/-- Function `CALIB_RestoreAllCalibsFromEPROM_Factory`: the result of the write to the
user area is not used. -/
def CALIB_RestoreAllCalibsFromEPROM_Factory (st : CalibState) : Nat × CalibState :=
  let r := CALIB_ReadAllCalibsFromEPROM_Factory st
  if r.1 = 0 then (r.1, (CALIB_WriteAllCalibsToEPROM_User r.2).2) else r

/-- A chip whose factory area holds the valid record of the all-zero table (as
`CALIB_WriteAllCalibsToEPROM_Raw` writes it at address `ADR_EPROM_FACTCALIB`), and whose
next write cycle keeps MISO low for `EPROM_CNTTIMEOUT` polls. -/
def epromFactoryValid : EPROM :=
  ⟨(CALIB_WriteAllCalibsToEPROM_Raw calibStateZero ADR_EPROM_FACTCALIB).2.eprom.mem, false,
   [EPROM_CNTTIMEOUT]⟩

/-- The all-zero module state on the chip `epromFactoryValid`. -/
def calibStateFactory : CalibState :=
  ⟨⟨0, fun _ => ⟨0, 0⟩, 0⟩, fun _ => ⟨Dbl.nan, Dbl.nan, Dbl.nan, Dbl.nan, Dbl.nan, 0⟩,
   epromFactoryValid, none⟩

/-- A module state whose `Mult` coefficient of scale 0 is `1.0f` (`0x3F800000`), on the
zeroed chip (no valid record in either area). -/
def calibStateOne : CalibState :=
  ⟨⟨0, fun i => if i = 0 then ⟨0x3F800000, 0⟩ else ⟨0, 0⟩, 0⟩,
   fun _ => ⟨Dbl.nan, Dbl.nan, Dbl.nan, Dbl.nan, Dbl.nan, 0⟩, epromZero, none⟩

/-- Function `CALIB_ExportCalibs_Raw`: the error code and the text written to `szLine`.
The index `idxScale` is a `uint8_t` (below 256) and is not checked: entry `idxScale` is
read from the memory image of the local record `calib1`, whose bytes past the end of
the record (offset `sizeofCALIBDATA` onwards, reached for `idxScale ≥ 27`) are the input
`beyond`. The value returned by `SPrintfDouble` is the length of its text, so the
second coefficient follows the first one and the separator. -/
def CALIB_ExportCalibs_Raw (t : Target) (dev : EPROM) (baseAddr : Nat) (idxScale : Nat)
    (beyond : Nat → Nat) : Nat × List Char :=
  -- 1. Read data from eprom to calib1
  let r := CALIB_ReadAllCalibsFromEPROM_Raw dev baseAddr
  let img : Nat → Nat := fun k =>
    if k < sizeofCALIBDATA then r.2.byte k else beyond (k - sizeofCALIBDATA)
  let e := (CALIBDATA.ofBytes img).Dmm idxScale
  -- 2. Build the export string
  let sMult := SPrintfDouble t (f32ToDbl e.Mult) 6
  let sAdd := SPrintfDouble t (f32ToDbl e.Add) 6
  (r.1, [Char.ofNat (48 + idxScale / 10), Char.ofNat (48 + idxScale % 10), ',', ' ']
    ++ sMult.1 ++ [',', ' '] ++ sAdd.1)

/-- Function `CALIB_ExportCalibs_User`. -/
def CALIB_ExportCalibs_User (t : Target) (dev : EPROM) (idxScale : Nat)
    (beyond : Nat → Nat) : Nat × List Char :=
  CALIB_ExportCalibs_Raw t dev ADR_EPROM_CALIB idxScale beyond

/-- Function `CALIB_ExportCalibs_Factory`. -/
def CALIB_ExportCalibs_Factory (t : Target) (dev : EPROM) (idxScale : Nat)
    (beyond : Nat → Nat) : Nat × List Char :=
  CALIB_ExportCalibs_Raw t dev ADR_EPROM_FACTCALIB idxScale beyond

/-- A chip whose user area holds the valid record of the all-zero table, as
`CALIB_WriteAllCalibsToEPROM_Raw` writes it at address `ADR_EPROM_CALIB`. -/
def epromUserValid : EPROM :=
  (CALIB_WriteAllCalibsToEPROM_Raw calibStateZero ADR_EPROM_CALIB).2.eprom

/-! ## Specification-side rendering of a value -/

/-- The unit prefix the specification gives for a nominal range `r`. -/
def specPrefix (r : ℚ) : List Char :=
  if r < 1e-3 then ['u']
  else if 1e-3 ≤ r ∧ r < 1 then ['m']
  else if 1 ≤ r ∧ r < 1e3 then []
  else if 1e3 ≤ r ∧ r < 1e6 then ['k']
  else ['M']

/-- The scale factor the specification gives for a nominal range `r`. -/
def specFactor (r : ℚ) : ℚ :=
  if r < 1e-3 then 1e6
  else if 1e-3 ≤ r ∧ r < 1 then 1e3
  else if 1 ≤ r ∧ r < 1e3 then 1
  else if 1e3 ≤ r ∧ r < 1e6 then 1e-3
  else 1e-6

/-- The base unit the specification gives for a mode: V for the two voltage modes and
the diode mode, A for the four current modes, Ohm for resistance and continuity. -/
def specUnit (mode : Nat) : List Char :=
  if mode = DmmDCVoltage ∨ mode = DmmACVoltage ∨ mode = DmmDiode then ['V']
  else if mode = DmmDCCurrent ∨ mode = DmmACCurrent ∨ mode = DmmDCLowCurrent ∨
    mode = DmmACLowCurrent then ['A']
  else ['O', 'h', 'm']

/-- The product of the fraction of `|q|` and 10^6 as the arithmetic with the rounding
`rnd` computes it: the fraction is rounded, then the product. -/
def specFract6 (rnd : ℚ → ℚ) (q : ℚ) : ℚ :=
  let a : ℚ := if q < 0 then -q else q
  rnd (rnd (a - ⌊a⌋) * 1000000)

/-- The decimal text of a number as the specification describes the rendering: sign,
integer part, point, six digits; the six digits are those of the integer part of
`specFract6`. -/
def specFixed6 (rnd : ℚ → ℚ) (q : ℚ) : List Char :=
  let a : ℚ := if q < 0 then -q else q
  let ip : Nat := ⌊a⌋.toNat
  let fp : Nat := ⌊specFract6 rnd q⌋.toNat
  (if q < 0 then ['-'] else []) ++ Nat.toDigits 10 ip ++ ['.'] ++
    [Nat.digitChar (fp / 100000 % 10), Nat.digitChar (fp / 10000 % 10),
     Nat.digitChar (fp / 1000 % 10), Nat.digitChar (fp / 100 % 10),
     Nat.digitChar (fp / 10 % 10), Nat.digitChar (fp % 10)]

/-- The binary64 number nearest to 0.3 (it lies below 0.3). -/
def dbl_0_3 : ℚ := 5404319552844595 / 18014398509481984

/-- The state after `DMM_SetScale 18` (diode) succeeded on the initial state. -/
def scale18Selected : DMMState :=
  (DMM_SetScale DMMState.init 18 (fun i => (dmmcfg.getD 18 default).cfg.getD i 0)).2

/-- The multiplier the specification gives for the character before the unit. -/
def specMultiplier (c : Char) : ℚ :=
  if c = 'u' then 1e-6
  else if c = 'm' then 1e-3
  else if c = 'k' then 1e3
  else if c = 'M' then 1e6
  else 1

/-- The numeric text of an input `body ++ unit`: `body` without its last character when
that character is one of the four prefixes, without trailing blanks. -/
def specNumberText (body : List Char) : List Char :=
  let c := body.getLastD ' '
  trimTrailingBlanks (if c = 'u' ∨ c = 'm' ∨ c = 'k' ∨ c = 'M' then body.dropLast else body)

/-- Every call of `DMM_DGetValue` fails with the measurement-timeout error. -/
def samplesTimeout : Nat → Dbl × Nat := fun _ => (Dbl.nan, ERRVAL_DMM_VALIDDATATIMEOUT)

/-- A module state in which scale 8 holds the earlier zero measurement 1.0. -/
def calibStateZeroMeasured : CalibState :=
  ⟨⟨0, fun _ => ⟨0, 0⟩, 0⟩,
   fun i => if i = 8 then ⟨Dbl.fin 1, Dbl.nan, Dbl.nan, Dbl.nan, Dbl.nan, 0⟩
     else ⟨Dbl.nan, Dbl.nan, Dbl.nan, Dbl.nan, Dbl.nan, 0⟩,
   epromZero, none⟩

/-- A register snapshot with the conversion-done flag of the AD1 converter set and the
code `0x7FFFFF` (beyond `+0x7FFFFE`). -/
def dmmstsOverRange : DMMSTS :=
  ⟨fun i => if i = 2 then 0x7F else 0xFF, fun _ => 0, fun _ => 0, fun _ => 0, fun _ => 0,
   fun _ => 0, 0, fun _ => 0, fun _ => 0, fun _ => 0, 0x04, 0⟩

/-- A register snapshot with the conversion-done flag of the AD1 converter set and the
code `0x800001`, that is `-0x7FFFFF` (beyond `-0x7FFFFE`). -/
def dmmstsUnderRange : DMMSTS :=
  ⟨fun i => if i = 2 then 0x80 else if i = 0 then 0x01 else 0, fun _ => 0, fun _ => 0,
   fun _ => 0, fun _ => 0, fun _ => 0, 0, fun _ => 0, fun _ => 0, fun _ => 0, 0x04, 0⟩

/-- A register snapshot whose RMS accumulator has the lowest and the highest byte 1. -/
def dmmstsRmsEnds : DMMSTS :=
  ⟨fun _ => 0, fun _ => 0, fun _ => 0, fun i => if i = 0 ∨ i = 4 then 1 else 0, fun _ => 0,
   fun _ => 0, 0, fun _ => 0, fun _ => 0, fun _ => 0, 0x10, 0⟩

/-- A module state in which the DC scale 8 has the complete data `Z = 0`, `P = 1`,
`Pref = 1`, `N = 1`, `Nref = -1`: the two measurements are equal, the references are not. -/
def calibStateDCEqual : CalibState :=
  ⟨⟨0, fun _ => ⟨0, 0⟩, 0⟩,
   fun i => if i = 8 then ⟨Dbl.fin 0, Dbl.fin 1, Dbl.fin 1, Dbl.fin 1, Dbl.fin (-1), 0⟩
     else ⟨Dbl.nan, Dbl.nan, Dbl.nan, Dbl.nan, Dbl.nan, 0⟩,
   epromZero, none⟩

/-- The statement `v = v*(1.0+calib.Dmm[idxCurrentScale].Mult) + calib.Dmm[idxCurrentScale].Add`
of `DMM_DGetStatus`: the calibrated value of the raw value `v` under the coefficients `c`. -/
def DMM_applyCalib (v : Dbl) (c : CALIB) : Dbl :=
  Dbl.add (Dbl.mul v (Dbl.add (Dbl.fin 1) (f32ToDbl c.Mult))) (f32ToDbl c.Add)

/-- The calibrated AC value in the words of the specification:
`sqrt(|u² − Add²|) * (1 + Mult)` for the uncalibrated value `u`. -/
def specACCalibrated (sq : ℚ → ℚ) (u : Dbl) (c : CALIB) : Dbl :=
  Dbl.mul (Dbl.sqrt sq (Dbl.abs (Dbl.sub (Dbl.mul u u)
    (Dbl.mul (f32ToDbl c.Add) (f32ToDbl c.Add))))) (Dbl.add (Dbl.fin 1) (f32ToDbl c.Mult))

/-- A conversion to `float` for the examples, exact on the numbers 0, 1, 2, 1/2, -1/2, 1/4
and -1/4 (patterns `0x00000000`, `0x3F800000`, `0x40000000`, `0x3F000000`, `0xBF000000`,
`0x3E800000`, `0xBE800000`); other numbers are not used and are sent to `0x00000000`. -/
def toFloatDyadic : Dbl → Nat
  | Dbl.nan => 0x7FC00000
  | Dbl.pinf => 0x7F800000
  | Dbl.ninf => 0xFF800000
  | Dbl.fin q =>
    if q = 1 then 0x3F800000 else if q = 2 then 0x40000000
    else if q = 1 / 2 then 0x3F000000 else if q = -1 / 2 then 0xBF000000
    else if q = 1 / 4 then 0x3E800000 else if q = -1 / 4 then 0xBE800000 else 0

/-- The state after `DMM_SetScale 6` (resistance, 50 Ohm) succeeded on the initial state. -/
def scale6Selected : DMMState :=
  (DMM_SetScale DMMState.init 6 (fun i => (dmmcfg.getD 6 default).cfg.getD i 0)).2

/-- A module state in which the resistance scale 6 has the complete data `Z = 0.25`,
`P = 10.25`, `Pref = 8` (three values of the type `double`). -/
def calibStateResDouble : CalibState :=
  ⟨⟨0, fun _ => ⟨0, 0⟩, 0⟩,
   fun i => if i = 6 then ⟨Dbl.fin (1 / 4), Dbl.fin (41 / 4), Dbl.fin 8, Dbl.nan, Dbl.nan, 0⟩
     else ⟨Dbl.nan, Dbl.nan, Dbl.nan, Dbl.nan, Dbl.nan, 0⟩,
   epromZero, none⟩

/-- A conversion to `float` for the example `calibStateResDouble`: the round-to-nearest
patterns of NaN, the infinities, and the three numbers met there, `-0.205`
(`0xBE51EB85`), `-0.2` (`0xBE4CCCCD`) and the product of the `float` value of `-0.2` and
one plus the `float` value of `-0.205` (`0xBE22D0E6`); other numbers are not used and
are sent to `0x00000000`. -/
def toFloatResExample : Dbl → Nat
  | Dbl.nan => 0x7FC00000
  | Dbl.pinf => 0x7F800000
  | Dbl.ninf => 0xFF800000
  | Dbl.fin q =>
    if q = -41 / 200 then 0xBE51EB85
    else if q = -1 / 5 then 0xBE4CCCCD
    else if q = -13421773 / 67108864 * (1 + -13757317 / 67108864) then 0xBE22D0E6
    else 0

/-- A module state in which the resistance scale 6 has the complete data `Z = 0.3`,
`P = 1.3`, `Pref = 2.05`. -/
def calibStateResExample : CalibState :=
  ⟨⟨0, fun _ => ⟨0, 0⟩, 0⟩,
   fun i => if i = 6 then ⟨Dbl.fin (3 / 10), Dbl.fin (13 / 10), Dbl.fin (41 / 20), Dbl.nan,
       Dbl.nan, 0⟩
     else ⟨Dbl.nan, Dbl.nan, Dbl.nan, Dbl.nan, Dbl.nan, 0⟩,
   epromZero, none⟩

/-- A module state in which the DC scale 8 has the complete data `Z = 1/4`, `P = 1`,
`Pref = 2`, `N = -1`, `Nref = -2`. -/
def calibStateDCExample : CalibState :=
  ⟨⟨0, fun _ => ⟨0, 0⟩, 0⟩,
   fun i => if i = 8 then ⟨Dbl.fin (1 / 4), Dbl.fin 1, Dbl.fin 2, Dbl.fin (-1), Dbl.fin (-2), 0⟩
     else ⟨Dbl.nan, Dbl.nan, Dbl.nan, Dbl.nan, Dbl.nan, 0⟩,
   epromZero, none⟩

/-- A module state in which the AC scale 11 has the complete data `Z = 0`, `P = 1000`,
`Pref = 2000`. -/
def calibStateACExact : CalibState :=
  ⟨⟨0, fun _ => ⟨0, 0⟩, 0⟩,
   fun i => if i = 11 then ⟨Dbl.fin 0, Dbl.fin 1000, Dbl.fin 2000, Dbl.nan, Dbl.nan, 0⟩
     else ⟨Dbl.nan, Dbl.nan, Dbl.nan, Dbl.nan, Dbl.nan, 0⟩,
   epromZero, none⟩

/-! # Properties -/

/-! ## The arithmetic of the board -/

/-- The wrap-around yields a value of `int`. -/
theorem wrapInt_range (bits : Nat) (z : Int) (hb : 1 ≤ bits) :
    -(2 ^ (bits - 1) : Int) ≤ wrapInt bits z ∧ wrapInt bits z < 2 ^ (bits - 1) := by
  have hp : (2 : Int) ^ bits = 2 * 2 ^ (bits - 1) := by
    obtain ⟨k, rfl⟩ : ∃ k, bits = k + 1 := ⟨bits - 1, by omega⟩
    rw [Nat.add_sub_cancel, pow_succ]
    ring
  have hpos : (0 : Int) < 2 ^ (bits - 1) := by positivity
  unfold wrapInt
  rw [hp]
  generalize (2 : Int) ^ (bits - 1) = P at hpos
  have h1 := Int.emod_nonneg (z + P) (show (2 * P) ≠ 0 by omega)
  have h2 := Int.emod_lt_of_pos (z + P) (show 0 < 2 * P by omega)
  constructor <;> omega

theorem Int_log_two_eq (q : ℚ) (L : Int) (hq : 0 < q) (hlo : (2 : ℚ) ^ L ≤ q)
    (hhi : q < (2 : ℚ) ^ (L + 1)) : Int.log 2 q = L := by
  have h2 : ((2 : ℕ) : ℚ) = 2 := by norm_num
  have h1 : L ≤ Int.log 2 q := by
    rw [← Int.zpow_le_iff_le_log (by norm_num) hq, h2]; exact hlo
  have h3 : Int.log 2 q < L + 1 := by
    rw [← Int.lt_zpow_iff_log_lt (by norm_num) hq, h2]; exact hhi
  omega

/-- The rounding is symmetric about zero. -/
theorem roundNE_neg (p : Nat) (q : ℚ) : roundNE p (-q) = -roundNE p q := by
  unfold roundNE
  by_cases h0 : q = 0
  · simp [h0]
  · have h0n : ¬ (-q = 0) := by simpa using h0
    rw [if_neg h0, if_neg h0n, abs_neg]
    rcases lt_or_gt_of_ne h0 with h | h
    · have h1 : ¬ (-q < 0) := by linarith
      simp only [h1, h, if_true, if_false]
      ring
    · have h1 : -q < 0 := by linarith
      have h2 : ¬ (q < 0) := by linarith
      simp only [h1, h2, if_true, if_false]
      ring

theorem roundNE_zero (p : Nat) : roundNE p 0 = 0 := by
  unfold roundNE
  rw [if_pos rfl]

/-- The rounding of a positive number `q` of the binade `2^(p-1+e) ≤ q < 2^(p+e)` is
`n * 2^e` for the integer `n` within one half of `q / 2^e`. -/
theorem roundNE_eval (p : Nat) (q : ℚ) (e n : Int) (hq : 0 < q)
    (hlo : (2 : ℚ) ^ ((p : Int) - 1 + e) ≤ q) (hhi : q < (2 : ℚ) ^ ((p : Int) + e))
    (hn : |q / 2 ^ e - n| < 1 / 2) : roundNE p q = n * 2 ^ e := by
  have hL : Int.log 2 q = (p : Int) - 1 + e :=
    Int_log_two_eq q _ hq hlo
      (by rw [show (p : Int) - 1 + e + 1 = (p : Int) + e by ring]; exact hhi)
  have he : Int.log 2 q - ((p : Int) - 1) = e := by rw [hL]; ring
  unfold roundNE
  rw [if_neg (ne_of_gt hq), abs_of_pos hq, he, if_neg (not_lt.mpr (le_of_lt hq))]
  simp only [one_mul]
  congr 1
  rw [abs_lt] at hn
  obtain ⟨hn1, hn2⟩ := hn
  by_cases hle : (n : ℚ) ≤ q / 2 ^ e
  · have hf : ⌊q / (2 : ℚ) ^ e⌋ = n := by
      rw [Int.floor_eq_iff]; constructor
      · exact hle
      · linarith
    rw [hf, if_pos (by linarith)]
  · have hf : ⌊q / (2 : ℚ) ^ e⌋ = n - 1 := by
      rw [Int.floor_eq_iff]; push_cast; constructor
      · linarith
      · push_neg at hle; linarith
    rw [hf]
    push_cast
    rw [if_neg (by linarith), if_pos (by linarith)]
    ring

theorem truncQ_nonneg (q : ℚ) (h : 0 ≤ q) : truncQ q = ⌊q⌋ := by
  unfold truncQ
  rw [if_neg (not_lt.mpr h)]

theorem truncQ_neg (q : ℚ) (h : q < 0) : truncQ q = -⌊-q⌋ := by
  unfold truncQ
  rw [if_pos h]

/-- The conversion `int(dVal)` of a number inside the range of `int` is its truncation. -/
theorem Dbl_toInt_fin (t : Target) (q : ℚ)
    (h : -(2 ^ (t.intBits - 1) : Int) ≤ truncQ q ∧ truncQ q < 2 ^ (t.intBits - 1)) :
    Dbl.toInt t (Dbl.fin q) = truncQ q := by
  simp only [Dbl.toInt]
  rw [if_pos h]

/-- The conversion to `uint32_t` of a number inside the range of `uint32_t` cuts its
fraction. -/
theorem Dbl_toUInt32_fin (t : Target) (x : ℚ) (h0 : 0 ≤ x) (h1 : x < 2 ^ 32) :
    Dbl.toUInt32 t (Dbl.fin x) = ⌊x⌋.toNat := by
  have hf0 : 0 ≤ ⌊x⌋ := Int.floor_nonneg.mpr h0
  have hf1 : ⌊x⌋ < 2 ^ 32 := by
    rw [Int.floor_lt]
    push_cast
    exact h1
  simp only [Dbl.toUInt32]
  rw [truncQ_nonneg x h0, if_pos ⟨hf0, hf1⟩]

/-- The numbers 1, 1/2, 7/2 and 500000 are values of the `double` of both boards. -/
theorem roundNE_53_values :
    roundNE 53 1 = 1 ∧ roundNE 53 (1 / 2) = 1 / 2 ∧ roundNE 53 500000 = 500000 ∧
    roundNE 53 (7 / 2) = 7 / 2 := by
  refine ⟨?_, ?_, ?_, ?_⟩
  · rw [roundNE_eval 53 _ (-52) (2 ^ 52) (by norm_num) (by norm_num) (by norm_num)
      (by rw [abs_lt]; constructor <;> norm_num)]
    norm_num
  · rw [roundNE_eval 53 _ (-53) (2 ^ 52) (by norm_num) (by norm_num) (by norm_num)
      (by rw [abs_lt]; constructor <;> norm_num)]
    norm_num
  · rw [roundNE_eval 53 _ (-34) (500000 * 2 ^ 34) (by norm_num) (by norm_num) (by norm_num)
      (by rw [abs_lt]; constructor <;> norm_num)]
    norm_num
  · rw [roundNE_eval 53 _ (-51) (7 * 2 ^ 50) (by norm_num) (by norm_num) (by norm_num)
      (by rw [abs_lt]; constructor <;> norm_num)]
    norm_num

theorem roundNE_24_values :
    roundNE 24 1 = 1 ∧ roundNE 24 (1 / 2) = 1 / 2 ∧ roundNE 24 500000 = 500000 ∧
    roundNE 24 (7 / 2) = 7 / 2 := by
  refine ⟨?_, ?_, ?_, ?_⟩
  · rw [roundNE_eval 24 _ (-23) (2 ^ 23) (by norm_num) (by norm_num) (by norm_num)
      (by rw [abs_lt]; constructor <;> norm_num)]
    norm_num
  · rw [roundNE_eval 24 _ (-24) (2 ^ 23) (by norm_num) (by norm_num) (by norm_num)
      (by rw [abs_lt]; constructor <;> norm_num)]
    norm_num
  · rw [roundNE_eval 24 _ (-5) (500000 * 2 ^ 5) (by norm_num) (by norm_num) (by norm_num)
      (by rw [abs_lt]; constructor <;> norm_num)]
    norm_num
  · rw [roundNE_eval 24 _ (-22) (7 * 2 ^ 21) (by norm_num) (by norm_num) (by norm_num)
      (by rw [abs_lt]; constructor <;> norm_num)]
    norm_num

/-- A number inside the range of `int` has its truncation inside the range of `int`. -/
theorem truncQ_range (bits : Nat) (q : ℚ)
    (h1 : -(2 ^ (bits - 1) : ℚ) ≤ q) (h2 : q < 2 ^ (bits - 1)) :
    -(2 ^ (bits - 1) : Int) ≤ truncQ q ∧ truncQ q < 2 ^ (bits - 1) := by
  have hpos : (0 : Int) < 2 ^ (bits - 1) := by positivity
  by_cases h : q < 0
  · rw [truncQ_neg q h]
    have hf0 : 0 ≤ ⌊-q⌋ := Int.floor_nonneg.mpr (by linarith)
    have hf1 : ⌊-q⌋ ≤ 2 ^ (bits - 1) := by
      have : ((⌊-q⌋ : Int) : ℚ) ≤ ((2 ^ (bits - 1) : Int) : ℚ) := by
        push_cast
        linarith [Int.floor_le (-q)]
      exact_mod_cast this
    constructor <;> omega
  · rw [truncQ_nonneg q (not_lt.mp h)]
    have hf0 : 0 ≤ ⌊q⌋ := Int.floor_nonneg.mpr (not_lt.mp h)
    have hf1 : ⌊q⌋ < 2 ^ (bits - 1) := by
      rw [Int.floor_lt]
      push_cast
      exact h2
    constructor <;> omega

/-! ## Scale selection -/

theorem DMM_ERR_CheckIdxCalib_eq_success (idxScale : Int) :
    DMM_ERR_CheckIdxCalib idxScale = ERRVAL_SUCCESS ↔ 0 ≤ idxScale ∧ idxScale ≤ 26 := by
  unfold DMM_ERR_CheckIdxCalib DMM_CNTSCALES ERRVAL_SUCCESS ERRVAL_DMM_IDXCONFIG
  split <;> constructor <;> intro h <;> omega

theorem DMM_SetScale_verify_iff (cfg : List Nat) (rgIn : Nat → Nat) :
    DMM_SetScale_verify cfg rgIn = true ↔
      ∀ i, i < 24 → rgIn i &&& dmmcfgmask.getD i 0 = cfg.getD i 0 &&& dmmcfgmask.getD i 0 := by
  simp [DMM_SetScale_verify, List.all_eq_true]

theorem DMM_SetScale_invalid (s : DMMState) (idxScale : Int) (rgIn : Nat → Nat)
    (h : ¬ (0 ≤ idxScale ∧ idxScale ≤ 26)) :
    DMM_SetScale s idxScale rgIn = (ERRVAL_DMM_IDXCONFIG, s) := by
  have hbad : DMM_ERR_CheckIdxCalib idxScale = ERRVAL_DMM_IDXCONFIG := by
    unfold DMM_ERR_CheckIdxCalib DMM_CNTSCALES
    rw [if_neg]; intro h'; apply h; omega
  have hne : ERRVAL_DMM_IDXCONFIG ≠ ERRVAL_SUCCESS := by decide
  unfold DMM_SetScale
  simp only [hbad]
  rw [if_pos hne]

theorem DMM_SetScale_match (s : DMMState) (idxScale : Int) (rgIn : Nat → Nat)
    (h : 0 ≤ idxScale ∧ idxScale ≤ 26)
    (hm : DMM_SetScale_verify (dmmcfg.getD idxScale.toNat default).cfg rgIn = true) :
    (DMM_SetScale s idxScale rgIn).1 = ERRVAL_SUCCESS ∧
    (DMM_SetScale s idxScale rgIn).2.idxCurrentScale = idxScale ∧
    (DMM_SetScale s idxScale rgIn).2.curCfg = dmmcfg.getD idxScale.toNat default := by
  have hok := (DMM_ERR_CheckIdxCalib_eq_success idxScale).2 h
  unfold DMM_SetScale
  simp only [hok, ne_eq, not_true_eq_false, if_false, DMM_SendCmdSPI, DMM_ConfigSwitches, hm,
    if_true, and_self]

theorem DMM_SetScale_mismatch (s : DMMState) (idxScale : Int) (rgIn : Nat → Nat)
    (h : 0 ≤ idxScale ∧ idxScale ≤ 26)
    (hm : ¬ DMM_SetScale_verify (dmmcfg.getD idxScale.toNat default).cfg rgIn = true) :
    (DMM_SetScale s idxScale rgIn).1 = ERRVAL_DMM_CFGVERIFY ∧
    (DMM_SetScale s idxScale rgIn).2.idxCurrentScale = s.idxCurrentScale ∧
    (DMM_SetScale s idxScale rgIn).2.curCfg = dmmcfg.getD idxScale.toNat default := by
  have hok := (DMM_ERR_CheckIdxCalib_eq_success idxScale).2 h
  unfold DMM_SetScale
  simp only [hok, ne_eq, not_true_eq_false, if_false, DMM_SendCmdSPI, DMM_ConfigSwitches, hm,
    Bool.false_eq_true, and_self]

/-- C1: `DMM_SetScale idxScale` returns the invalid-index error exactly when `idxScale` is
outside [0,26]; for an index in [0,26] it returns success exactly when each of the 24
bytes read back equals the byte of the scale's register image under `dmmcfgmask`, and the
configuration-verify error otherwise; after a success `DMM_GetCurrentScale` is `idxScale`. -/
theorem DMM_SetScale_result (s : DMMState) (idxScale : Int) (rgIn : Nat → Nat) :
    ((DMM_SetScale s idxScale rgIn).1 = ERRVAL_DMM_IDXCONFIG ↔ ¬ (0 ≤ idxScale ∧ idxScale ≤ 26)) ∧
    ((0 ≤ idxScale ∧ idxScale ≤ 26) →
      (((DMM_SetScale s idxScale rgIn).1 = ERRVAL_SUCCESS ↔
          ∀ i, i < 24 → rgIn i &&& dmmcfgmask.getD i 0 =
            (dmmcfg.getD idxScale.toNat default).cfg.getD i 0 &&& dmmcfgmask.getD i 0) ∧
       ((DMM_SetScale s idxScale rgIn).1 ≠ ERRVAL_SUCCESS →
          (DMM_SetScale s idxScale rgIn).1 = ERRVAL_DMM_CFGVERIFY))) ∧
    ((DMM_SetScale s idxScale rgIn).1 = ERRVAL_SUCCESS →
      DMM_GetCurrentScale (DMM_SetScale s idxScale rgIn).2 = idxScale) := by
  have hver := DMM_SetScale_verify_iff (dmmcfg.getD idxScale.toNat default).cfg rgIn
  by_cases hv : 0 ≤ idxScale ∧ idxScale ≤ 26
  · by_cases hm : DMM_SetScale_verify (dmmcfg.getD idxScale.toNat default).cfg rgIn = true
    · obtain ⟨h1, h2, _⟩ := DMM_SetScale_match s idxScale rgIn hv hm
      refine ⟨?_, fun _ => ⟨?_, ?_⟩, fun _ => h2⟩
      · rw [h1]; exact ⟨fun h => absurd h (by decide), fun h => absurd hv h⟩
      · rw [h1]; exact ⟨fun _ => hver.1 hm, fun _ => rfl⟩
      · intro h; exact absurd h1 h
    · obtain ⟨h1, _, _⟩ := DMM_SetScale_mismatch s idxScale rgIn hv hm
      refine ⟨?_, fun _ => ⟨?_, fun _ => h1⟩, ?_⟩
      · rw [h1]; exact ⟨fun h => absurd h (by decide), fun h => absurd hv h⟩
      · rw [h1]; exact ⟨fun h => absurd h (by decide), fun h => absurd (hver.2 h) hm⟩
      · rw [h1]; intro h; exact absurd h (by decide)
  · rw [DMM_SetScale_invalid s idxScale rgIn hv]
    refine ⟨⟨fun _ => hv, fun _ => rfl⟩, fun h => absurd h hv, ?_⟩
    intro h
    have hne : ERRVAL_DMM_IDXCONFIG ≠ ERRVAL_SUCCESS := by decide
    exact absurd h hne

/-- C2: a call of `DMM_SetScale` that fails the read-back verification keeps
`DMM_GetCurrentScale` but replaces the cached scale definition: with the 50 V DC scale 7
selected, `DMM_SetScale 11` answered by an all-zero read-back returns the verify error,
the current index is still 7, and the cached mode is now that of the AC scale 11, so
`DMM_FACScale` answers true for the DC scale 7. -/
theorem DMM_SetScale_cfgverify_replaces_curCfg :
    (DMM_SetScale scale7Selected 11 (fun _ => 0)).1 = ERRVAL_DMM_CFGVERIFY ∧
    DMM_GetCurrentScale scale7Selected = 7 ∧
    DMM_GetCurrentScale (DMM_SetScale scale7Selected 11 (fun _ => 0)).2 = 7 ∧
    scale7Selected.curCfg.mode = DmmDCVoltage ∧
    (DMM_SetScale scale7Selected 11 (fun _ => 0)).2.curCfg.mode = DmmACVoltage ∧
    (DMM_SetScale scale7Selected 11 (fun _ => 0)).2.curCfg ≠ scale7Selected.curCfg ∧
    DMM_FACScale scale7Selected 7 = false ∧
    DMM_FACScale (DMM_SetScale scale7Selected 11 (fun _ => 0)).2 7 = true := by
  decide

/-! ## Averaging -/

/-- C3: with the non-AC scale 8 (5 V DC) selected, `DMM_DGetAvgValue 2` whose first sample
is 1.0 and whose second sample is `+∞` (both reported with success) returns the finite
number 1.0, the sum of the samples before the bad one, with the success code; it does
not return NaN. -/
theorem DMM_DGetAvgValue_overrange_returns_partial_sum (sq : ℚ → ℚ) :
    DMM_DGetAvgValue sq scale8Selected samplesOverRange 2 = (Dbl.fin 1, ERRVAL_SUCCESS) := by
  have h1 : DMM_ERR_CheckIdxCalib (DMM_GetCurrentScale scale8Selected) = ERRVAL_SUCCESS := by
    decide
  have h2 : DMM_FACScale scale8Selected (DMM_GetCurrentScale scale8Selected) = false := by
    decide
  simp [DMM_DGetAvgValue, DMM_DGetAvgValue_loop, DMM_DGetAvgValue_valid, samplesOverRange,
    h1, h2, Dbl.ne, Dbl.eq, DMM_IsNotANumber, Dbl.isNaN, Dbl.add]

theorem DMM_DGetAvgValue_valid_fin (q : ℚ) :
    DMM_DGetAvgValue_valid (Dbl.fin q) ERRVAL_SUCCESS = true := by
  simp [DMM_DGetAvgValue_valid, Dbl.ne, Dbl.eq, DMM_IsNotANumber, Dbl.isNaN]

/-- The sampling loop over samples that are all finite and reported with success adds up
the terms of all remaining samples and stays valid. -/
theorem DMM_DGetAvgValue_loop_finite (term : Dbl → Dbl) (tq : ℚ → ℚ)
    (hterm : ∀ q, term (Dbl.fin q) = Dbl.fin (tq q))
    (samples : Nat → Dbl × Nat) (v : Nat → ℚ) (n : Nat)
    (hs : ∀ i, i < n → samples i = (Dbl.fin (v i), ERRVAL_SUCCESS)) :
    ∀ (fuel k : Nat) (acc : ℚ), k + fuel = n →
      DMM_DGetAvgValue_loop term samples (n : Int) fuel k (true, Dbl.fin acc, ERRVAL_SUCCESS) =
        (true, Dbl.fin (acc + ∑ i ∈ Finset.range fuel, tq (v (k + i))), ERRVAL_SUCCESS) := by
  intro fuel
  induction fuel with
  | zero => intro k acc _; simp [DMM_DGetAvgValue_loop]
  | succ fuel ih =>
    intro k acc hk
    have hlt : k < n := by omega
    have hcond : ((k : Int) < (n : Int) ∧ true = true) := ⟨by exact_mod_cast hlt, rfl⟩
    unfold DMM_DGetAvgValue_loop
    rw [if_pos hcond]
    simp only [hs k hlt, DMM_DGetAvgValue_valid_fin, if_true, hterm, Dbl.add]
    rw [ih (k + 1) (acc + tq (v k)) (by omega), Finset.sum_range_succ']
    congr 2
    have : ∀ i, k + 1 + i = k + (i + 1) := fun i => by omega
    simp only [this, Nat.add_zero]
    congr 1
    ring

/-- C10: with a valid current scale and `n ≥ 1`, when all `n` samples are finite values
`v 0 .. v (n-1)` reported with success, `DMM_DGetAvgValue n` reports success and returns
the quadratic mean `sqrt((v0² + ... + v(n-1)²) / n)` on an AC scale and the arithmetic
mean `(v0 + ... + v(n-1)) / n` on every other scale. -/
theorem DMM_DGetAvgValue_mean (sq : ℚ → ℚ) (s : DMMState) (samples : Nat → Dbl × Nat)
    (v : Nat → ℚ) (n : Nat)
    (hidx : 0 ≤ DMM_GetCurrentScale s ∧ DMM_GetCurrentScale s ≤ 26) (hn : 1 ≤ n)
    (hs : ∀ i, i < n → samples i = (Dbl.fin (v i), ERRVAL_SUCCESS)) :
    DMM_DGetAvgValue sq s samples n =
      if DMM_FACScale s (DMM_GetCurrentScale s) = true then
        (Dbl.fin (sq ((∑ i ∈ Finset.range n, v i ^ 2) / n)), ERRVAL_SUCCESS)
      else (Dbl.fin ((∑ i ∈ Finset.range n, v i) / n), ERRVAL_SUCCESS) := by
  have hok := (DMM_ERR_CheckIdxCalib_eq_success _).2 hidx
  have hn0 : (n : Int) ≠ 0 := by omega
  have hnq : (n : ℚ) ≠ 0 := by exact_mod_cast (by omega : n ≠ 0)
  have hsucc : ¬ (ERRVAL_SUCCESS ≠ ERRVAL_SUCCESS) := fun h => h rfl
  unfold DMM_DGetAvgValue
  simp only [hok, if_true, Int.toNat_ofNat]
  by_cases hac : DMM_FACScale s (DMM_GetCurrentScale s) = true
  · have hl := DMM_DGetAvgValue_loop_finite Dbl.pow2 (fun q => q * q)
      (fun q => by simp [Dbl.pow2, Dbl.mul]) samples v n hs n 0 0 (by omega)
    simp only [hac, if_true, hl, hn0, ne_eq, not_false_eq_true, and_self, Dbl.ofInt, Dbl.div,
      Dbl.sqrt]
    have hnn : ¬ ((0 + ∑ i ∈ Finset.range n, v (0 + i) * v (0 + i)) / (((n : Int) : ℚ)) < 0) := by
      rw [not_lt]
      apply div_nonneg
      · rw [zero_add]; apply Finset.sum_nonneg; intro i _; exact mul_self_nonneg _
      · exact_mod_cast Nat.zero_le n
    have hq : (((n : Int) : ℚ)) ≠ 0 := by exact_mod_cast hnq
    simp only [hq, if_false, hnn, hsucc]
    simp [pow_two]
  · have hl := DMM_DGetAvgValue_loop_finite id (fun q => q) (fun q => rfl) samples v n hs n 0 0
      (by omega)
    have hq : (((n : Int) : ℚ)) ≠ 0 := by exact_mod_cast hnq
    simp only [hac, if_false, hl, hn0, ne_eq, not_false_eq_true, and_self, Dbl.ofInt, Dbl.div,
      hq, hsucc, Bool.false_eq_true]
    simp

/-- Witness of C10: the mean of the two samples 1.0 and 3.0 on the DC scale 7. -/
theorem DMM_DGetAvgValue_mean_witness :
    (0 ≤ DMM_GetCurrentScale scale7Selected ∧ DMM_GetCurrentScale scale7Selected ≤ 26) ∧
    DMM_DGetAvgValue (fun q => q) scale7Selected samplesOneThree ((2 : Nat) : Int) =
      if DMM_FACScale scale7Selected (DMM_GetCurrentScale scale7Selected) = true then
        (Dbl.fin ((fun q => q) ((∑ i ∈ Finset.range 2, valuesOneThree i ^ 2) / (2 : Nat))),
          ERRVAL_SUCCESS)
      else (Dbl.fin ((∑ i ∈ Finset.range 2, valuesOneThree i) / (2 : Nat)), ERRVAL_SUCCESS) :=
  ⟨by decide,
   DMM_DGetAvgValue_mean (fun q => q) scale7Selected samplesOneThree valuesOneThree 2
     (by decide) (by decide)
     (fun i hi => by
       have h : i = 0 ∨ i = 1 := by omega
       rcases h with h | h <;> subst h <;> rfl)⟩

/-! ## Storage protocol -/

theorem bytesOfWords_lt (w : Nat → Nat) (k : Nat) : bytesOfWords w k < 256 := by
  unfold bytesOfWords; split <;> exact Nat.mod_lt _ (by decide)

theorem byteLE_ofBytesLE (b0 b1 b2 b3 : Nat) (h0 : b0 < 256) (h1 : b1 < 256) (h2 : b2 < 256)
    (h3 : b3 < 256) :
    byteLE (ofBytesLE b0 b1 b2 b3) 0 = b0 ∧ byteLE (ofBytesLE b0 b1 b2 b3) 1 = b1 ∧
    byteLE (ofBytesLE b0 b1 b2 b3) 2 = b2 ∧ byteLE (ofBytesLE b0 b1 b2 b3) 3 = b3 := by
  unfold byteLE ofBytesLE
  norm_num
  omega

theorem ofBytesLE_byteLE (x : Nat) (hx : x < 2 ^ 32) :
    ofBytesLE (byteLE x 0) (byteLE x 1) (byteLE x 2) (byteLE x 3) = x := by
  unfold byteLE ofBytesLE
  norm_num at hx ⊢
  omega

theorem byteLE_lt (x j : Nat) : byteLE x j < 256 := Nat.mod_lt _ (by decide)

/-- The memory image of the record built from a byte sequence is that sequence. -/
theorem CALIBDATA_byte_ofBytes (b : Nat → Nat) (hb : ∀ k, b k < 256) (crc : Nat) (k : Nat)
    (hk : k < 217) : ({ CALIBDATA.ofBytes b with crc := crc } : CALIBDATA).byte k = b k := by
  unfold CALIBDATA.byte
  by_cases h0 : k = 0
  · subst h0; simp [CALIBDATA.ofBytes, Nat.mod_eq_of_lt (hb 0)]
  · rw [if_neg h0, if_pos hk]
    obtain ⟨e0, e1, e2, e3⟩ := byteLE_ofBytesLE _ _ _ _ (hb (1 + 8 * ((k - 1) / 8)))
      (hb (2 + 8 * ((k - 1) / 8))) (hb (3 + 8 * ((k - 1) / 8))) (hb (4 + 8 * ((k - 1) / 8)))
    obtain ⟨f0, f1, f2, f3⟩ := byteLE_ofBytesLE _ _ _ _ (hb (5 + 8 * ((k - 1) / 8)))
      (hb (6 + 8 * ((k - 1) / 8))) (hb (7 + 8 * ((k - 1) / 8))) (hb (8 + 8 * ((k - 1) / 8)))
    have hj : (k - 1) % 8 < 8 := Nat.mod_lt _ (by decide)
    have hk' : k = 1 + 8 * ((k - 1) / 8) + (k - 1) % 8 := by omega
    generalize (k - 1) % 8 = j at hj hk' ⊢
    generalize (k - 1) / 8 = i at e0 e1 e2 e3 f0 f1 f2 f3 hk' ⊢
    simp only [CALIBDATA.ofBytes]
    interval_cases j <;> simp only [Nat.reduceLT, if_true, if_false, Nat.reduceSub] <;>
      first
      | (rw [e0]; congr 1; omega) | (rw [e1]; congr 1; omega) | (rw [e2]; congr 1; omega)
      | (rw [e3]; congr 1; omega) | (rw [f0]; congr 1; omega) | (rw [f1]; congr 1; omega)
      | (rw [f2]; congr 1; omega) | (rw [f3]; congr 1; omega)

theorem GetBufferChecksum_eq_sum (pBuf : Nat → Nat) (len : Nat) :
    GetBufferChecksum pBuf len = (∑ k ∈ Finset.range len, pBuf k) % 256 := by
  unfold GetBufferChecksum
  induction len with
  | zero => simp
  | succ n ih =>
    rw [List.range_succ, List.foldl_append, ih, Finset.sum_range_succ]
    simp [Nat.add_mod]

/-- The checksum `CALIB_ReadAllCalibsFromEPROM_Raw` computes over the record with its
checksum field zeroed is the sum modulo 256 of the other 217 bytes read. -/
theorem GetBufferChecksum_record (b : Nat → Nat) (hb : ∀ k, b k < 256) :
    GetBufferChecksum ({ CALIBDATA.ofBytes b with crc := 0 } : CALIBDATA).byte sizeofCALIBDATA =
      (∑ k ∈ Finset.range 217, b k) % 256 := by
  have hsz : sizeofCALIBDATA = 217 + 1 := rfl
  rw [hsz, GetBufferChecksum_eq_sum, Finset.sum_range_succ]
  have h217 : ({ CALIBDATA.ofBytes b with crc := 0 } : CALIBDATA).byte 217 = 0 := by
    simp [CALIBDATA.byte]
  rw [h217, Nat.add_zero]
  rw [Finset.sum_congr rfl (fun k hk => CALIBDATA_byte_ofBytes b hb 0 k (Finset.mem_range.1 hk))]

/-- C5: for the 218-byte record `r` read from storage, `CALIB_ReadAllCalibsFromEPROM_Raw`
returns the bad-magic error whenever byte 0 is not 0x23 (whatever the checksum byte),
the bad-checksum error when byte 0 is 0x23 and byte 217 differs from the sum modulo 256
of bytes 0..216, and success otherwise; the record it leaves holds the magic and the
checksum byte as read. -/
theorem CALIB_ReadAllCalibsFromEPROM_Raw_result (dev : EPROM) (baseAddr : Nat) :
    (bytesOfWords (EPROM_ReadWords dev baseAddr) 0 ≠ 0x23 →
      (CALIB_ReadAllCalibsFromEPROM_Raw dev baseAddr).1 = ERRVAL_EPROM_MAGICNO) ∧
    (bytesOfWords (EPROM_ReadWords dev baseAddr) 0 = 0x23 →
      bytesOfWords (EPROM_ReadWords dev baseAddr) 217 ≠
        (∑ k ∈ Finset.range 217, bytesOfWords (EPROM_ReadWords dev baseAddr) k) % 256 →
      (CALIB_ReadAllCalibsFromEPROM_Raw dev baseAddr).1 = ERRVAL_EPROM_CRC) ∧
    (bytesOfWords (EPROM_ReadWords dev baseAddr) 0 = 0x23 →
      bytesOfWords (EPROM_ReadWords dev baseAddr) 217 =
        (∑ k ∈ Finset.range 217, bytesOfWords (EPROM_ReadWords dev baseAddr) k) % 256 →
      (CALIB_ReadAllCalibsFromEPROM_Raw dev baseAddr).1 = ERRVAL_SUCCESS) ∧
    (CALIB_ReadAllCalibsFromEPROM_Raw dev baseAddr).2.crc =
      bytesOfWords (EPROM_ReadWords dev baseAddr) 217 ∧
    (CALIB_ReadAllCalibsFromEPROM_Raw dev baseAddr).2.magic =
      bytesOfWords (EPROM_ReadWords dev baseAddr) 0 := by
  have hsum := GetBufferChecksum_record (bytesOfWords (EPROM_ReadWords dev baseAddr))
    (bytesOfWords_lt _)
  generalize hr : bytesOfWords (EPROM_ReadWords dev baseAddr) = r at hsum ⊢
  unfold CALIB_ReadAllCalibsFromEPROM_Raw CALIBDATA.ofWords EPROM_MAGIC_NO
  simp only [hr, hsum]
  have hm : (CALIBDATA.ofBytes r).magic = r 0 := rfl
  have hc : (CALIBDATA.ofBytes r).crc = r 217 := rfl
  simp only [hm, hc]
  refine ⟨?_, ?_, ?_, ?_, ?_⟩
  · intro h; rw [if_pos h]
  · intro h1 h2; rw [if_neg (not_not.2 h1), if_pos h2]
  · intro h1 h2; rw [if_neg (not_not.2 h1), if_neg (not_not.2 h2)]; rfl
  · split
    · rfl
    · split <;> rfl
  · split
    · rfl
    · split <;> rfl

theorem EPROM_WaitUntilReady_loop_ready (p : Nat) (hp : p < EPROM_CNTTIMEOUT) :
    ∀ fuel cnt : Nat, cnt ≤ p → p - cnt < fuel → EPROM_WaitUntilReady_loop p fuel cnt = p := by
  intro fuel
  induction fuel with
  | zero => intro cnt _ h; omega
  | succ fuel ih =>
    intro cnt hc hf
    unfold EPROM_WaitUntilReady_loop
    by_cases h : cnt < p
    · rw [if_pos h, if_pos (by omega)]
      exact ih (cnt + 1) (by omega) (by omega)
    · rw [if_neg h]; omega

theorem EPROM_WaitUntilReady_Raw_ready (p : Nat) (hp : p < EPROM_CNTTIMEOUT) :
    EPROM_WaitUntilReady_Raw p = ERRVAL_SUCCESS := by
  unfold EPROM_WaitUntilReady_Raw
  rw [EPROM_WaitUntilReady_loop_ready p hp _ 0 (Nat.zero_le _) (by omega)]
  simp only [ge_iff_le]
  rw [if_neg (by omega)]

theorem EPROM_AllComplete_headD (dev : EPROM) (h : dev.AllComplete) :
    dev.busy.headD 0 < EPROM_CNTTIMEOUT := by
  unfold EPROM.AllComplete at h
  cases hb : dev.busy with
  | nil => simp [EPROM_CNTTIMEOUT]
  | cons p t => rw [hb] at h; simpa using h p (List.mem_cons_self p t)

/-- One word write on a chip with writes enabled whose write cycles complete. -/
theorem EPROM_Write_Raw_complete (dev : EPROM) (a w : Nat) (hw : dev.wen = true)
    (hc : dev.AllComplete) :
    (EPROM_Write_Raw dev a w).1 = 0 ∧ (EPROM_Write_Raw dev a w).2.wen = true ∧
    (EPROM_Write_Raw dev a w).2.AllComplete ∧
    ∀ x, (EPROM_Write_Raw dev a w).2.mem x = if x = a % 256 then w % 65536 else dev.mem x := by
  unfold EPROM_Write_Raw
  refine ⟨EPROM_WaitUntilReady_Raw_ready _ (EPROM_AllComplete_headD dev hc), hw, ?_, ?_⟩
  · intro p hp
    exact hc p (List.mem_of_mem_tail hp)
  · intro x
    simp only [hw, if_true]
    split
    · omega
    · rfl

/-- Function `EPROM_WriteWords_loop` on a chip with writes enabled whose write cycles complete:
every word is written and the loop ends with success. -/
theorem EPROM_WriteWords_loop_complete (base : Nat) (vals : Nat → Nat) (n : Nat)
    (hbn : base + n ≤ 256) :
    ∀ (fuel i : Nat) (dev : EPROM), i + fuel = n → dev.wen = true → dev.AllComplete →
      (EPROM_WriteWords_loop base vals (n : Int) fuel i (0, dev)).1 = 0 ∧
      (EPROM_WriteWords_loop base vals (n : Int) fuel i (0, dev)).2.wen = true ∧
      (EPROM_WriteWords_loop base vals (n : Int) fuel i (0, dev)).2.AllComplete ∧
      ∀ x, (EPROM_WriteWords_loop base vals (n : Int) fuel i (0, dev)).2.mem x =
        if base + i ≤ x ∧ x < base + n then vals (x - base) % 65536 else dev.mem x := by
  intro fuel
  induction fuel with
  | zero =>
    intro i dev hi hw hc
    refine ⟨rfl, hw, hc, fun x => ?_⟩
    rw [if_neg (by omega)]; rfl
  | succ fuel ih =>
    intro i dev hi hw hc
    have hcond : ((i : Int) < (n : Int) ∧ (0 : Nat) = 0) := ⟨by omega, rfl⟩
    obtain ⟨w1, w2, w3, w4⟩ := EPROM_Write_Raw_complete dev ((base + i) % 256) (vals i) hw hc
    unfold EPROM_WriteWords_loop
    rw [if_pos hcond]
    generalize hr : EPROM_Write_Raw dev ((base + i) % 256) (vals i) = r at w1 w2 w3 w4
    obtain ⟨r1, dev1⟩ := r
    simp only at w1 w2 w3 w4
    subst w1
    obtain ⟨h1, h2, h3, h4⟩ := ih (i + 1) dev1 (by omega) w2 w3
    refine ⟨h1, h2, h3, fun x => ?_⟩
    rw [h4 x, w4 x]
    have hmod : (base + i) % 256 % 256 = base + i := by omega
    rw [hmod]
    by_cases hx : x = base + i
    · subst hx
      rw [if_neg (by omega), if_pos rfl, if_pos (by omega)]
      congr 2; omega
    · rw [if_neg hx]
      by_cases hx2 : base + (i + 1) ≤ x ∧ x < base + n
      · rw [if_pos hx2, if_pos (by omega)]
      · rw [if_neg hx2, if_neg (by omega)]

theorem CALIBDATA_byte_lt (c : CALIBDATA) (k : Nat) : c.byte k < 256 := by
  unfold CALIBDATA.byte
  split
  · exact Nat.mod_lt _ (by decide)
  · split
    · split <;> exact byteLE_lt _ _
    · split
      · exact Nat.mod_lt _ (by decide)
      · decide

theorem CALIBDATA_word_lt (c : CALIBDATA) (i : Nat) : c.word i < 65536 := by
  unfold CALIBDATA.word
  have h1 := CALIBDATA_byte_lt c (2 * i)
  have h2 := CALIBDATA_byte_lt c (2 * i + 1)
  omega

theorem bytesOfWords_word (c : CALIBDATA) (w : Nat → Nat) (k : Nat)
    (hw : w (k / 2) = c.word (k / 2)) : bytesOfWords w k = c.byte k := by
  unfold bytesOfWords
  rw [hw]
  unfold CALIBDATA.word
  have h1 := CALIBDATA_byte_lt c (2 * (k / 2))
  have h2 := CALIBDATA_byte_lt c (2 * (k / 2) + 1)
  by_cases hk : k % 2 = 0
  · rw [if_pos hk]
    have : 2 * (k / 2) = k := by omega
    rw [this] at h1 ⊢
    omega
  · rw [if_neg hk]
    have : 2 * (k / 2) + 1 = k := by omega
    rw [this] at h2 ⊢
    omega

/-- The bytes of entry `i` in the memory image of a record. -/
theorem CALIBDATA_byte_entry (c : CALIBDATA) (i : Nat) (hi : i < 27) :
    c.byte (1 + 8 * i) = byteLE (c.Dmm i).Mult 0 ∧ c.byte (2 + 8 * i) = byteLE (c.Dmm i).Mult 1 ∧
    c.byte (3 + 8 * i) = byteLE (c.Dmm i).Mult 2 ∧ c.byte (4 + 8 * i) = byteLE (c.Dmm i).Mult 3 ∧
    c.byte (5 + 8 * i) = byteLE (c.Dmm i).Add 0 ∧ c.byte (6 + 8 * i) = byteLE (c.Dmm i).Add 1 ∧
    c.byte (7 + 8 * i) = byteLE (c.Dmm i).Add 2 ∧ c.byte (8 + 8 * i) = byteLE (c.Dmm i).Add 3 := by
  have key : ∀ j, j < 8 → c.byte (1 + 8 * i + j) =
      if j < 4 then byteLE (c.Dmm i).Mult j else byteLE (c.Dmm i).Add (j - 4) := by
    intro j hj
    unfold CALIBDATA.byte
    have h1 : (1 + 8 * i + j - 1) / 8 = i := by omega
    have h2 : (1 + 8 * i + j - 1) % 8 = j := by omega
    rw [if_neg (by omega), if_pos (by omega), h1, h2]
  have k0 := key 0 (by decide)
  have k1 := key 1 (by decide)
  have k2 := key 2 (by decide)
  have k3 := key 3 (by decide)
  have k4 := key 4 (by decide)
  have k5 := key 5 (by decide)
  have k6 := key 6 (by decide)
  have k7 := key 7 (by decide)
  simp only [Nat.reduceLT, if_true, if_false, Nat.reduceSub, Nat.add_zero] at k0 k1 k2 k3 k4 k5 k6 k7
  have e : ∀ a b : Nat, a + 8 * i + b = (a + b) + 8 * i := fun a b => by omega
  simp only [e, Nat.reduceAdd] at k1 k2 k3 k4 k5 k6 k7
  exact ⟨k0, k1, k2, k3, k4, k5, k6, k7⟩

/-- Reading a well-formed record back from its memory image gives its entries. -/
theorem CALIBDATA_ofBytes_entry (c : CALIBDATA) (b : Nat → Nat) (i : Nat) (hi : i < 27)
    (hwf : c.WellFormed) (hb : ∀ k, k < 218 → b k = c.byte k) :
    (CALIBDATA.ofBytes b).Dmm i = c.Dmm i := by
  obtain ⟨e0, e1, e2, e3, e4, e5, e6, e7⟩ := CALIBDATA_byte_entry c i hi
  obtain ⟨w1, w2⟩ := hwf i hi
  simp only [CALIBDATA.ofBytes]
  rw [hb _ (by omega), hb _ (by omega), hb _ (by omega), hb _ (by omega), hb _ (by omega),
    hb _ (by omega), hb _ (by omega), hb _ (by omega), e0, e1, e2, e3, e4, e5, e6, e7,
    ofBytesLE_byteLE _ w1, ofBytesLE_byteLE _ w2]

theorem CALIBDATA_seal_byte (c : CALIBDATA) (k : Nat) (hk : k < 217) :
    c.seal.byte k = ({ c with magic := EPROM_MAGIC_NO, crc := 0 } : CALIBDATA).byte k := by
  unfold CALIBDATA.seal CALIBDATA.byte
  simp only
  by_cases h0 : k = 0
  · rw [if_pos h0, if_pos h0]
  · rw [if_neg h0, if_neg h0, if_pos hk, if_pos hk]

theorem CALIBDATA_seal_crc (c : CALIBDATA) :
    c.seal.crc = (∑ k ∈ Finset.range 217, c.seal.byte k) % 256 := by
  have hsz : sizeofCALIBDATA = 217 + 1 := rfl
  have h217 : ({ c with magic := EPROM_MAGIC_NO, crc := 0 } : CALIBDATA).byte 217 = 0 := by
    simp [CALIBDATA.byte]
  have hcrc : c.seal.crc = GetBufferChecksum
      ({ c with magic := EPROM_MAGIC_NO, crc := 0 } : CALIBDATA).byte sizeofCALIBDATA := rfl
  rw [Finset.sum_congr rfl (fun k hk => CALIBDATA_seal_byte c k (Finset.mem_range.1 hk)),
    hcrc, hsz, GetBufferChecksum_eq_sum, Finset.sum_range_succ, h217, Nat.add_zero]

/-- Reading back a record that `CALIB_WriteAllCalibsToEPROM_Raw` prepared and that the
chip returns unchanged: the magic number and the checksum are accepted and the entries
are those of the table. -/
theorem CALIB_ReadAllCalibsFromEPROM_Raw_sealed (c : CALIBDATA) (dev : EPROM) (base : Nat)
    (hwf : c.WellFormed)
    (hrd : ∀ i, i < 109 → EPROM_ReadWords dev base i = c.seal.word i) :
    (CALIB_ReadAllCalibsFromEPROM_Raw dev base).1 = ERRVAL_SUCCESS ∧
    ∀ i, i < 27 → (CALIB_ReadAllCalibsFromEPROM_Raw dev base).2.Dmm i = c.Dmm i := by
  have hb : ∀ k, k < 218 → bytesOfWords (EPROM_ReadWords dev base) k = c.seal.byte k :=
    fun k hk => bytesOfWords_word c.seal _ k (hrd (k / 2) (by omega))
  have hsum := GetBufferChecksum_record (bytesOfWords (EPROM_ReadWords dev base))
    (bytesOfWords_lt _)
  rw [Finset.sum_congr rfl (fun k hk => hb k (by have := Finset.mem_range.1 hk; omega)),
    ← CALIBDATA_seal_crc] at hsum
  have hcrc : c.seal.crc < 256 := by rw [CALIBDATA_seal_crc]; exact Nat.mod_lt _ (by decide)
  have h0 : bytesOfWords (EPROM_ReadWords dev base) 0 = EPROM_MAGIC_NO := by
    rw [hb 0 (by decide)]; rfl
  have h217 : bytesOfWords (EPROM_ReadWords dev base) 217 = c.seal.crc := by
    rw [hb 217 (by decide)]
    show c.seal.crc % 256 = _
    exact Nat.mod_eq_of_lt hcrc
  have hentry : ∀ i, i < 27 →
      (CALIBDATA.ofBytes (bytesOfWords (EPROM_ReadWords dev base))).Dmm i = c.Dmm i := by
    intro i hi
    have hs : c.seal.WellFormed := hwf
    exact CALIBDATA_ofBytes_entry c.seal _ i hi hs hb
  generalize hr : bytesOfWords (EPROM_ReadWords dev base) = r at hsum h0 h217 hentry
  unfold CALIB_ReadAllCalibsFromEPROM_Raw CALIBDATA.ofWords
  simp only [hr, hsum]
  have hm : (CALIBDATA.ofBytes r).magic = r 0 := rfl
  have hc : (CALIBDATA.ofBytes r).crc = r 217 := rfl
  simp only [hm, hc, h0, h217, ne_eq, not_true_eq_false, if_false]
  exact ⟨rfl, hentry⟩

/-- Function `CALIB_WriteAllCalibsToEPROM_Raw` on a chip whose write cycles complete: success, and
the chip returns the prepared record. -/
theorem CALIB_WriteAllCalibsToEPROM_Raw_complete (st : CalibState) (base : Nat)
    (hb : base + 109 ≤ 256) (hdev : st.eprom.AllComplete) :
    (CALIB_WriteAllCalibsToEPROM_Raw st base).1 = ERRVAL_SUCCESS ∧
    (CALIB_WriteAllCalibsToEPROM_Raw st base).2.calib = st.calib.seal ∧
    (CALIB_WriteAllCalibsToEPROM_Raw st base).2.partCalib = st.partCalib ∧
    (CALIB_WriteAllCalibsToEPROM_Raw st base).2.eprom.AllComplete ∧
    ∀ i, i < 109 →
      EPROM_ReadWords (CALIB_WriteAllCalibsToEPROM_Raw st base).2.eprom base i =
        st.calib.seal.word i := by
  have hsz : ((sizeofCALIBDATA / 2 : Nat) : Int) = ((109 : Nat) : Int) := rfl
  obtain ⟨h1, _, h3, h4⟩ := EPROM_WriteWords_loop_complete base st.calib.seal.word 109 hb 109 0
    (EPROM_WriteEnable st.eprom) rfl rfl hdev
  unfold CALIB_WriteAllCalibsToEPROM_Raw EPROM_WriteWords_Raw
  simp only [hsz, Int.toNat_ofNat]
  refine ⟨h1, trivial, trivial, h3, fun i hi => ?_⟩
  unfold EPROM_ReadWords EPROM_Read_Raw EPROM_WriteDisable
  simp only [h4]
  have hmod : (base + i) % 256 % 256 = base + i := by omega
  rw [hmod, if_pos (by omega)]
  have hw := CALIBDATA_word_lt st.calib.seal i
  have : base + i - base = i := by omega
  rw [this]
  omega

theorem CALIB_ReplaceCalibNullValues_entry (st : CalibState) (i : Nat) (hi : i < 27) :
    (CALIB_ReplaceCalibNullValues st).calib.Dmm i = (st.calib.Dmm i).replaceNull := by
  unfold CALIB_ReplaceCalibNullValues CALIB.replaceNull
  simp only [hi, if_true]

/-- Function `CALIB_WriteAllCalibsToEPROM_User` on a chip whose write cycles complete: the chip
then returns the prepared record, and the in-memory table holds the entries read back
with every NaN replaced by 0. -/
theorem CALIB_WriteAllCalibsToEPROM_User_complete (st : CalibState)
    (hdev : st.eprom.AllComplete) (hwf : st.calib.WellFormed) :
    (∀ i, i < 109 →
      EPROM_ReadWords (CALIB_WriteAllCalibsToEPROM_User st).2.eprom ADR_EPROM_CALIB i =
        st.calib.seal.word i) ∧
    (∀ i, i < 27 → (CALIB_WriteAllCalibsToEPROM_User st).2.calib.Dmm i =
      (st.calib.Dmm i).replaceNull) := by
  obtain ⟨h1, _, _, _, h5⟩ :=
    CALIB_WriteAllCalibsToEPROM_Raw_complete st ADR_EPROM_CALIB (by decide) hdev
  unfold CALIB_WriteAllCalibsToEPROM_User
  simp only [h1, if_true]
  generalize CALIB_WriteAllCalibsToEPROM_Raw st ADR_EPROM_CALIB = r at h5
  have he : (CALIB_Init (CALIB_CntCalibDirty r.2).2).2.eprom = r.2.eprom := rfl
  refine ⟨fun i hi => by rw [he]; exact h5 i hi, fun i hi => ?_⟩
  have hrd := CALIB_ReadAllCalibsFromEPROM_Raw_sealed st.calib r.2.eprom ADR_EPROM_CALIB hwf h5
  unfold CALIB_Init CALIB_ReadAllCalibsFromEPROM_User
  simp only
  rw [CALIB_ReplaceCalibNullValues_entry _ i hi]
  have he2 : (CALIB_InitPartCalibData (CALIB_CntCalibDirty r.2).2).eprom = r.2.eprom := rfl
  simp only [he2]
  rw [hrd.2 i hi]

theorem CALIB_replaceNull_of_not_nan (e : CALIB)
    (h : DMM_IsNotANumber (f32ToDbl e.Mult) = false ∧ DMM_IsNotANumber (f32ToDbl e.Add) = false) :
    e.replaceNull = e := by
  unfold CALIB.replaceNull
  simp [h.1, h.2]

theorem Dbl_ne_self (x : Dbl) (h : DMM_IsNotANumber x = false) : Dbl.ne x x = false := by
  cases x <;> simp_all [Dbl.ne, Dbl.eq, DMM_IsNotANumber, Dbl.isNaN]

/-- The comparison loop of `CALIB_VerifyEPROM_Raw`: a mismatch if and only if some entry
fails the test. -/
theorem CALIB_VerifyEPROM_fold (test : Nat → Bool) (l : List Nat) :
    l.foldl (fun bResult i =>
        if bResult = ERRVAL_SUCCESS then (if test i then ERRVAL_EPROM_VERIFY else bResult)
        else bResult) ERRVAL_SUCCESS =
      if l.any test then ERRVAL_EPROM_VERIFY else ERRVAL_SUCCESS := by
  have hstay : ∀ l : List Nat, l.foldl (fun bResult i =>
        if bResult = ERRVAL_SUCCESS then (if test i then ERRVAL_EPROM_VERIFY else bResult)
        else bResult) ERRVAL_EPROM_VERIFY = ERRVAL_EPROM_VERIFY := by
    intro l
    induction l with
    | nil => rfl
    | cons a t ih =>
      rw [List.foldl_cons, if_neg (by decide)]
      exact ih
  induction l with
  | nil => rfl
  | cons a t ih =>
    rw [List.foldl_cons, if_pos rfl, List.any_cons]
    cases ha : test a
    · simp only [Bool.false_eq_true, if_false, Bool.false_or]
      exact ih
    · simp only [if_true, Bool.true_or]
      exact hstay t

theorem f32ToDbl_zero : f32ToDbl 0 = Dbl.fin 0 := by
  simp [f32ToDbl]

theorem f32ToDbl_qnan : f32ToDbl 0x7FC00000 = Dbl.nan := by decide

/-- C4 (amended): on a chip whose write cycles complete, for every in-memory table of
32-bit coefficients none of which is a NaN, `CALIB_WriteAllCalibsToEPROM_User` followed
by `CALIB_ReadAllCalibsFromEPROM_User` succeeds and leaves the table holding exactly the
27 (Mult, Add) pairs it held before the write, and `CALIB_VerifyEPROM` after the write
succeeds. -/
theorem CALIB_write_read_verify (st : CalibState) (hdev : st.eprom.AllComplete)
    (hwf : st.calib.WellFormed) (hnn : st.calib.NoNaN) :
    (CALIB_ReadAllCalibsFromEPROM_User (CALIB_WriteAllCalibsToEPROM_User st).2).1 =
      ERRVAL_SUCCESS ∧
    (∀ i, i < 27 →
      (CALIB_ReadAllCalibsFromEPROM_User (CALIB_WriteAllCalibsToEPROM_User st).2).2.calib.Dmm i =
        st.calib.Dmm i) ∧
    CALIB_VerifyEPROM (CALIB_WriteAllCalibsToEPROM_User st).2 = ERRVAL_SUCCESS := by
  obtain ⟨g1, g2⟩ := CALIB_WriteAllCalibsToEPROM_User_complete st hdev hwf
  generalize CALIB_WriteAllCalibsToEPROM_User st = w at g1 g2
  obtain ⟨r1, r2⟩ := CALIB_ReadAllCalibsFromEPROM_Raw_sealed st.calib w.2.eprom ADR_EPROM_CALIB
    hwf g1
  refine ⟨r1, fun i hi => ?_, ?_⟩
  · unfold CALIB_ReadAllCalibsFromEPROM_User
    simp only
    rw [CALIB_ReplaceCalibNullValues_entry _ i hi]
    simp only
    rw [r2 i hi]
    exact CALIB_replaceNull_of_not_nan _ (hnn i hi)
  · unfold CALIB_VerifyEPROM CALIB_VerifyEPROM_Raw
    simp only [r1, if_true]
    rw [CALIB_VerifyEPROM_fold (fun i =>
      Dbl.ne (f32ToDbl ((CALIB_ReadAllCalibsFromEPROM_Raw w.2.eprom ADR_EPROM_CALIB).2.Dmm i).Add)
          (f32ToDbl (w.2.calib.Dmm i).Add) ||
        Dbl.ne (f32ToDbl ((CALIB_ReadAllCalibsFromEPROM_Raw w.2.eprom ADR_EPROM_CALIB).2.Dmm i).Mult)
          (f32ToDbl (w.2.calib.Dmm i).Mult))]
    have hany : (List.range 27).any (fun i =>
      Dbl.ne (f32ToDbl ((CALIB_ReadAllCalibsFromEPROM_Raw w.2.eprom ADR_EPROM_CALIB).2.Dmm i).Add)
          (f32ToDbl (w.2.calib.Dmm i).Add) ||
        Dbl.ne (f32ToDbl ((CALIB_ReadAllCalibsFromEPROM_Raw w.2.eprom ADR_EPROM_CALIB).2.Dmm i).Mult)
          (f32ToDbl (w.2.calib.Dmm i).Mult)) = false := by
      rw [List.any_eq_false]
      intro i hi
      have hi' : i < 27 := List.mem_range.1 hi
      rw [r2 i hi', g2 i hi', CALIB_replaceNull_of_not_nan _ (hnn i hi'),
        Dbl_ne_self _ (hnn i hi').1, Dbl_ne_self _ (hnn i hi').2]
      simp
    rw [hany]
    rfl

/-- Witness of C4 (amended): the all-zero table on the zeroed chip. -/
theorem CALIB_write_read_verify_witness :
    calibStateZero.eprom.AllComplete ∧ calibStateZero.calib.WellFormed ∧
    calibStateZero.calib.NoNaN ∧
    ((CALIB_ReadAllCalibsFromEPROM_User (CALIB_WriteAllCalibsToEPROM_User calibStateZero).2).1 =
      ERRVAL_SUCCESS ∧
    (∀ i, i < 27 →
      (CALIB_ReadAllCalibsFromEPROM_User
        (CALIB_WriteAllCalibsToEPROM_User calibStateZero).2).2.calib.Dmm i =
        calibStateZero.calib.Dmm i) ∧
    CALIB_VerifyEPROM (CALIB_WriteAllCalibsToEPROM_User calibStateZero).2 = ERRVAL_SUCCESS) :=
  have h1 : calibStateZero.eprom.AllComplete := fun p hp => absurd hp (List.not_mem_nil p)
  have h2 : calibStateZero.calib.WellFormed :=
    fun _ _ => ⟨(by decide : (0 : Nat) < 2 ^ 32), (by decide : (0 : Nat) < 2 ^ 32)⟩
  have h3 : calibStateZero.calib.NoNaN :=
    fun _ _ => ⟨(by decide : DMM_IsNotANumber (f32ToDbl 0) = false),
      (by decide : DMM_IsNotANumber (f32ToDbl 0) = false)⟩
  ⟨h1, h2, h3, CALIB_write_read_verify calibStateZero h1 h2 h3⟩

/-- C4 (as stated) fails on a table that holds a NaN: with `Mult` of scale 0 a NaN, on a
chip whose write cycles complete, the table after `CALIB_WriteAllCalibsToEPROM_User` and
`CALIB_ReadAllCalibsFromEPROM_User` no longer holds the pair of scale 0 it held before,
and `CALIB_VerifyEPROM` after the write reports a mismatch. -/
theorem CALIB_write_read_verify_nan_table :
    calibStateNaN.eprom.AllComplete ∧ calibStateNaN.calib.WellFormed ∧
    (CALIB_ReadAllCalibsFromEPROM_User
      (CALIB_WriteAllCalibsToEPROM_User calibStateNaN).2).2.calib.Dmm 0 ≠
        calibStateNaN.calib.Dmm 0 ∧
    CALIB_VerifyEPROM (CALIB_WriteAllCalibsToEPROM_User calibStateNaN).2 =
      ERRVAL_EPROM_VERIFY := by
  have hdev : calibStateNaN.eprom.AllComplete := fun p hp => absurd hp (List.not_mem_nil p)
  have hwf : calibStateNaN.calib.WellFormed := by
    intro i _
    show (if i = 0 then (⟨0x7FC00000, 0⟩ : CALIB) else ⟨0, 0⟩).Mult < 2 ^ 32 ∧
      (if i = 0 then (⟨0x7FC00000, 0⟩ : CALIB) else ⟨0, 0⟩).Add < 2 ^ 32
    split <;> exact ⟨by decide, by decide⟩
  obtain ⟨g1, g2⟩ := CALIB_WriteAllCalibsToEPROM_User_complete calibStateNaN hdev hwf
  generalize CALIB_WriteAllCalibsToEPROM_User calibStateNaN = w at g1 g2
  obtain ⟨r1, r2⟩ := CALIB_ReadAllCalibsFromEPROM_Raw_sealed calibStateNaN.calib w.2.eprom
    ADR_EPROM_CALIB hwf g1
  have h0 : calibStateNaN.calib.Dmm 0 = ⟨0x7FC00000, 0⟩ := rfl
  have hn0 : (⟨0x7FC00000, 0⟩ : CALIB).replaceNull = ⟨0, 0⟩ := by decide
  refine ⟨hdev, hwf, ?_, ?_⟩
  · unfold CALIB_ReadAllCalibsFromEPROM_User
    simp only
    rw [CALIB_ReplaceCalibNullValues_entry _ 0 (by decide)]
    simp only
    rw [r2 0 (by decide), h0, hn0]
    decide
  · unfold CALIB_VerifyEPROM CALIB_VerifyEPROM_Raw
    simp only [r1, if_true]
    rw [CALIB_VerifyEPROM_fold (fun i =>
      Dbl.ne (f32ToDbl ((CALIB_ReadAllCalibsFromEPROM_Raw w.2.eprom ADR_EPROM_CALIB).2.Dmm i).Add)
          (f32ToDbl (w.2.calib.Dmm i).Add) ||
        Dbl.ne (f32ToDbl ((CALIB_ReadAllCalibsFromEPROM_Raw w.2.eprom ADR_EPROM_CALIB).2.Dmm i).Mult)
          (f32ToDbl (w.2.calib.Dmm i).Mult))]
    have hany : (List.range 27).any (fun i =>
      Dbl.ne (f32ToDbl ((CALIB_ReadAllCalibsFromEPROM_Raw w.2.eprom ADR_EPROM_CALIB).2.Dmm i).Add)
          (f32ToDbl (w.2.calib.Dmm i).Add) ||
        Dbl.ne (f32ToDbl ((CALIB_ReadAllCalibsFromEPROM_Raw w.2.eprom ADR_EPROM_CALIB).2.Dmm i).Mult)
          (f32ToDbl (w.2.calib.Dmm i).Mult)) = true := by
      rw [List.any_eq_true]
      refine ⟨0, List.mem_range.2 (by decide), ?_⟩
      rw [r2 0 (by decide), g2 0 (by decide), h0, hn0]
      simp only [f32ToDbl_qnan, f32ToDbl_zero, Dbl.ne, Dbl.eq]
      decide
    rw [hany]
    rfl

/-! ## Calibration engine -/

theorem DMM_IsNotANumber_eq_false (x : Dbl) : DMM_IsNotANumber x = false ↔ x ≠ Dbl.nan := by
  cases x <;> simp [DMM_IsNotANumber, Dbl.eq, Dbl.isNaN]

theorem DMM_IsNotANumber_eq_true (x : Dbl) : DMM_IsNotANumber x = true ↔ x = Dbl.nan := by
  cases x <;> simp [DMM_IsNotANumber, Dbl.eq, Dbl.isNaN]

/-- The flag `fResult` of `CALIB_CheckCompleteCalib` is the completeness condition of the
specification. -/
theorem CALIB_fResult_iff (dmm : DMMState) (idxScale : Int) (pc : PARTCALIB) :
    ((DMM_FDCScale dmm idxScale && !DMM_IsNotANumber pc.Calib_Ms_Zero &&
        (!DMM_IsNotANumber pc.Calib_Ms_ValP && !DMM_IsNotANumber pc.Calib_Ref_ValP) &&
        (!DMM_IsNotANumber pc.Calib_Ms_ValN && !DMM_IsNotANumber pc.Calib_Ref_ValN)) ||
      ((DMM_FACScale dmm idxScale || DMM_FResistorScale dmm idxScale ||
          DMM_FDiodeScale dmm idxScale) && !DMM_IsNotANumber pc.Calib_Ms_Zero &&
        (!DMM_IsNotANumber pc.Calib_Ms_ValP && !DMM_IsNotANumber pc.Calib_Ref_ValP))) = true ↔
      calibrationComplete dmm.curCfg.mode pc := by
  unfold calibrationComplete
  simp only [DMM_FDCScale, DMM_FACScale, DMM_FResistorScale, DMM_FDiodeScale, Bool.or_eq_true,
    Bool.and_eq_true, Bool.not_eq_true', DMM_IsNotANumber_eq_false, beq_iff_eq]
  tauto

/-- C7: for a valid current scale, `CALIB_CheckCompleteCalib` computes the coefficients of
that scale and sets its dirty flag if and only if the completeness condition holds (DC
type with zero, positive and negative data present; or AC, resistance, continuity or
diode type with zero and positive data present, whatever the negative fields); in every
other case the whole module state, coefficients and dirty flags included, is unchanged. -/
theorem CALIB_CheckCompleteCalib_iff (toFloat : Dbl → Nat) (sq : ℚ → ℚ) (dmm : DMMState)
    (st : CalibState)
    (hidx : 0 ≤ DMM_GetCurrentScale dmm ∧ DMM_GetCurrentScale dmm ≤ 26) :
    ((CALIB_CheckCompleteCalib toFloat sq dmm st).1 = 1 ↔
      calibrationComplete dmm.curCfg.mode (st.partCalib (DMM_GetCurrentScale dmm).toNat)) ∧
    (calibrationComplete dmm.curCfg.mode (st.partCalib (DMM_GetCurrentScale dmm).toNat) →
      (CALIB_CheckCompleteCalib toFloat sq dmm st).2.calib.Dmm (DMM_GetCurrentScale dmm).toNat =
        ⟨CALIB_ComputeMult toFloat sq dmm st (DMM_GetCurrentScale dmm),
         CALIB_ComputeAdd toFloat sq dmm st (DMM_GetCurrentScale dmm)⟩ ∧
      ((CALIB_CheckCompleteCalib toFloat sq dmm st).2.partCalib
        (DMM_GetCurrentScale dmm).toNat).fCalibDirty = 1 ∧
      (∀ i, i ≠ (DMM_GetCurrentScale dmm).toNat →
        (CALIB_CheckCompleteCalib toFloat sq dmm st).2.calib.Dmm i = st.calib.Dmm i ∧
        (CALIB_CheckCompleteCalib toFloat sq dmm st).2.partCalib i = st.partCalib i)) ∧
    (¬ calibrationComplete dmm.curCfg.mode (st.partCalib (DMM_GetCurrentScale dmm).toNat) →
      CALIB_CheckCompleteCalib toFloat sq dmm st = (0, st)) := by
  have hv : DMM_GetCurrentScale dmm ≥ 0 ∧ DMM_GetCurrentScale dmm < DMM_CNTSCALES := by
    unfold DMM_CNTSCALES; omega
  have hiff := CALIB_fResult_iff dmm (DMM_GetCurrentScale dmm)
    (st.partCalib (DMM_GetCurrentScale dmm).toNat)
  unfold CALIB_CheckCompleteCalib
  simp only [hv, and_self, if_true]
  by_cases hc : calibrationComplete dmm.curCfg.mode (st.partCalib (DMM_GetCurrentScale dmm).toNat)
  · rw [if_pos (hiff.2 hc)]
    refine ⟨⟨fun _ => hc, fun _ => rfl⟩, fun _ => ⟨?_, ?_, ?_⟩, fun h => absurd hc h⟩
    · simp only [if_true]
      rfl
    · simp only [if_true]
    · intro i hi
      simp only [if_neg hi, and_self]
  · rw [if_neg (fun h => hc (hiff.1 h))]
    have h01 : ¬ ((0 : Nat) = 1) := by decide
    exact ⟨⟨fun h => absurd h h01, fun h => absurd h hc⟩, fun h => absurd h hc,
      fun _ => rfl⟩

theorem Dbl_sub_zero_left (z : Dbl) : Dbl.sub (Dbl.fin 0) z = Dbl.neg z := by
  cases z <;> simp [Dbl.sub, Dbl.add, Dbl.neg]

/-- Function `CALIB_ComputeMult` is the documented formula of the scale's type, converted to
`float`, with a NaN replaced by 0. -/
theorem CALIB_ComputeMult_eq_spec (toFloat : Dbl → Nat) (sq : ℚ → ℚ) (dmm : DMMState)
    (st : CalibState) (idxScale : Int)
    (hmode : 1 ≤ dmm.curCfg.mode ∧ dmm.curCfg.mode ≤ 9) :
    CALIB_ComputeMult toFloat sq dmm st idxScale =
      CALIB_clampNaN (toFloat (specMult sq dmm.curCfg.mode (st.partCalib idxScale.toNat))) := by
  unfold CALIB_ComputeMult CALIB_clampNaN specMult specZeroRef CALIB_zeroRef
    CALIB_RES_ZERO_REFVAL DMM_FACScale DMM_FDCScale DMM_FResistorScale DMM_FDiodeScale
    DMM_FContinuityScale Dbl.pow2
  generalize dmm.curCfg.mode = mode at hmode
  obtain ⟨h1, h9⟩ := hmode
  interval_cases mode <;> simp [DmmResistance, DmmContinuity, DmmDiode, DmmDCVoltage,
    DmmACVoltage, DmmDCCurrent, DmmACCurrent, DmmDCLowCurrent, DmmACLowCurrent]

/-- Function `CALIB_ComputeAdd` is the documented formula of the scale's type applied to the value
of `CALIB_ComputeMult`, with the first factor converted to `float` before the product
(AC: `Z` alone), with a NaN replaced by 0. -/
theorem CALIB_ComputeAdd_eq_spec (toFloat : Dbl → Nat) (sq : ℚ → ℚ) (dmm : DMMState)
    (st : CalibState) (idxScale : Int)
    (hmode : 1 ≤ dmm.curCfg.mode ∧ dmm.curCfg.mode ≤ 9) :
    CALIB_ComputeAdd toFloat sq dmm st idxScale =
      CALIB_clampNaN (toFloat
        (if dmm.curCfg.mode = DmmACVoltage ∨ dmm.curCfg.mode = DmmACCurrent ∨
            dmm.curCfg.mode = DmmACLowCurrent then (st.partCalib idxScale.toNat).Calib_Ms_Zero
         else Dbl.mul
          (f32ToDbl (toFloat (specAddFactor dmm.curCfg.mode (st.partCalib idxScale.toNat))))
          (Dbl.add (Dbl.fin 1)
            (f32ToDbl (CALIB_ComputeMult toFloat sq dmm st idxScale))))) := by
  unfold CALIB_ComputeAdd CALIB_clampNaN specAddFactor specZeroRef CALIB_zeroRef
    CALIB_RES_ZERO_REFVAL DMM_FACScale DMM_FDCScale DMM_FResistorScale DMM_FDiodeScale
    DMM_FContinuityScale
  generalize CALIB_ComputeMult toFloat sq dmm st idxScale = m
  generalize dmm.curCfg.mode = mode at hmode
  obtain ⟨h1, h9⟩ := hmode
  interval_cases mode <;> simp [DmmResistance, DmmContinuity, DmmDiode, DmmDCVoltage,
    DmmACVoltage, DmmDCCurrent, DmmACCurrent, DmmDCLowCurrent, DmmACLowCurrent,
    Dbl_sub_zero_left]

/-- Witness of C7: the AC scale 11 with the zero and the positive data present. -/
theorem CALIB_CheckCompleteCalib_iff_witness :
    (0 ≤ DMM_GetCurrentScale scale11Selected ∧ DMM_GetCurrentScale scale11Selected ≤ 26) ∧
    ((CALIB_CheckCompleteCalib toFloatExample sqExample scale11Selected calibStateACExample).1 = 1
      ↔ calibrationComplete scale11Selected.curCfg.mode
        (calibStateACExample.partCalib (DMM_GetCurrentScale scale11Selected).toNat)) :=
  ⟨by decide,
   (CALIB_CheckCompleteCalib_iff toFloatExample sqExample scale11Selected calibStateACExample
     (by decide)).1⟩

/-- What `CALIB_CheckCompleteCalib` stores when it reports completion. -/
theorem CALIB_CheckCompleteCalib_done (toFloat : Dbl → Nat) (sq : ℚ → ℚ) (dmm : DMMState)
    (st : CalibState)
    (hdone : (CALIB_CheckCompleteCalib toFloat sq dmm st).1 = 1) :
    (1 ≤ dmm.curCfg.mode ∧ dmm.curCfg.mode ≤ 9) ∧
    (CALIB_CheckCompleteCalib toFloat sq dmm st).2.calib.Dmm (DMM_GetCurrentScale dmm).toNat =
      ⟨CALIB_ComputeMult toFloat sq dmm st (DMM_GetCurrentScale dmm),
       CALIB_ComputeAdd toFloat sq dmm st (DMM_GetCurrentScale dmm)⟩ := by
  have hiff := CALIB_fResult_iff dmm (DMM_GetCurrentScale dmm)
    (st.partCalib (DMM_GetCurrentScale dmm).toNat)
  have h01 : ¬ ((0 : Nat) = 1) := by decide
  unfold CALIB_CheckCompleteCalib at hdone ⊢
  by_cases hv : DMM_GetCurrentScale dmm ≥ 0 ∧ DMM_GetCurrentScale dmm < DMM_CNTSCALES
  · simp only [hv, and_self, if_true] at hdone ⊢
    split at hdone
    · rename_i hres
      rw [if_pos hres]
      have hc := hiff.1 hres
      refine ⟨?_, ?_⟩
      · unfold calibrationComplete DmmResistance DmmContinuity DmmDiode DmmDCVoltage
          DmmACVoltage DmmDCCurrent DmmACCurrent DmmDCLowCurrent DmmACLowCurrent at hc
        omega
      · simp only [if_true]
        rfl
    · exact absurd hdone h01
  · rw [if_neg hv] at hdone
    exact absurd hdone h01

/-- C8: when `CALIB_CheckCompleteCalib` reports completion, the stored coefficients are
the documented formulas of the scale's type evaluated in `float`: `Mult` is the `float`
value of `Pref / sqrt(P² − Z²) − 1` (AC), `(Pref − Nref) / (P − N) − 1` (DC) or
`(R0 − Pref) / (Z − P) − 1` (resistance, continuity, diode; `R0` is 0.05, 0 for diode),
and `Add` is the `float` value of `Z` (AC), `−Z * (1 + Mult)` (DC) or
`(R0 − Z) * (1 + Mult)`, the first factor of the product being converted to `float`
first; this for formula values that are numbers. For an AC scale, and whenever the
first factor is a `float` value, `Add` is the `float` value of the formula itself. -/
theorem CALIB_CheckCompleteCalib_formulas (toFloat : Dbl → Nat) (sq : ℚ → ℚ) (dmm : DMMState)
    (st : CalibState)
    (hdone : (CALIB_CheckCompleteCalib toFloat sq dmm st).1 = 1)
    (hM : f32ToDbl (toFloat (specMult sq dmm.curCfg.mode
      (st.partCalib (DMM_GetCurrentScale dmm).toNat))) ≠ Dbl.nan)
    (hA : f32ToDbl (toFloat (specAddFloat toFloat dmm.curCfg.mode
      (st.partCalib (DMM_GetCurrentScale dmm).toNat)
      (f32ToDbl (toFloat (specMult sq dmm.curCfg.mode
        (st.partCalib (DMM_GetCurrentScale dmm).toNat)))))) ≠ Dbl.nan) :
    ((CALIB_CheckCompleteCalib toFloat sq dmm st).2.calib.Dmm
        (DMM_GetCurrentScale dmm).toNat).Mult =
      toFloat (specMult sq dmm.curCfg.mode (st.partCalib (DMM_GetCurrentScale dmm).toNat)) ∧
    ((CALIB_CheckCompleteCalib toFloat sq dmm st).2.calib.Dmm
        (DMM_GetCurrentScale dmm).toNat).Add =
      toFloat (specAddFloat toFloat dmm.curCfg.mode
        (st.partCalib (DMM_GetCurrentScale dmm).toNat)
        (f32ToDbl ((CALIB_CheckCompleteCalib toFloat sq dmm st).2.calib.Dmm
          (DMM_GetCurrentScale dmm).toNat).Mult)) ∧
    ((dmm.curCfg.mode = DmmACVoltage ∨ dmm.curCfg.mode = DmmACCurrent ∨
        dmm.curCfg.mode = DmmACLowCurrent) ∨
      f32ToDbl (toFloat (specAddFactor dmm.curCfg.mode
        (st.partCalib (DMM_GetCurrentScale dmm).toNat))) =
        specAddFactor dmm.curCfg.mode (st.partCalib (DMM_GetCurrentScale dmm).toNat) →
      ((CALIB_CheckCompleteCalib toFloat sq dmm st).2.calib.Dmm
          (DMM_GetCurrentScale dmm).toNat).Add =
        toFloat (specAdd dmm.curCfg.mode (st.partCalib (DMM_GetCurrentScale dmm).toNat)
          (f32ToDbl ((CALIB_CheckCompleteCalib toFloat sq dmm st).2.calib.Dmm
            (DMM_GetCurrentScale dmm).toNat).Mult))) := by
  obtain ⟨hmode, hst⟩ := CALIB_CheckCompleteCalib_done toFloat sq dmm st hdone
  have hmult : CALIB_ComputeMult toFloat sq dmm st (DMM_GetCurrentScale dmm) =
      toFloat (specMult sq dmm.curCfg.mode (st.partCalib (DMM_GetCurrentScale dmm).toNat)) := by
    rw [CALIB_ComputeMult_eq_spec toFloat sq dmm st _ hmode]
    unfold CALIB_clampNaN
    rw [if_neg]
    rw [Bool.not_eq_true, DMM_IsNotANumber_eq_false]
    exact hM
  have hadd : CALIB_ComputeAdd toFloat sq dmm st (DMM_GetCurrentScale dmm) =
      toFloat (specAddFloat toFloat dmm.curCfg.mode
        (st.partCalib (DMM_GetCurrentScale dmm).toNat)
        (f32ToDbl (toFloat (specMult sq dmm.curCfg.mode
          (st.partCalib (DMM_GetCurrentScale dmm).toNat))))) := by
    rw [CALIB_ComputeAdd_eq_spec toFloat sq dmm st _ hmode, hmult]
    unfold CALIB_clampNaN
    rw [if_neg]
    · rfl
    · rw [Bool.not_eq_true, DMM_IsNotANumber_eq_false]
      exact hA
  rw [hst]
  refine ⟨hmult, ?_, ?_⟩
  · show CALIB_ComputeAdd toFloat sq dmm st (DMM_GetCurrentScale dmm) = _
    rw [hadd]
    show _ = toFloat (specAddFloat toFloat dmm.curCfg.mode _
      (f32ToDbl (CALIB_ComputeMult toFloat sq dmm st (DMM_GetCurrentScale dmm))))
    rw [hmult]
  · intro hZ
    show CALIB_ComputeAdd toFloat sq dmm st (DMM_GetCurrentScale dmm) =
      toFloat (specAdd dmm.curCfg.mode _
        (f32ToDbl (CALIB_ComputeMult toFloat sq dmm st (DMM_GetCurrentScale dmm))))
    rw [hadd, hmult]
    congr 1
    unfold specAddFloat specAdd
    by_cases hac : dmm.curCfg.mode = DmmACVoltage ∨ dmm.curCfg.mode = DmmACCurrent ∨
        dmm.curCfg.mode = DmmACLowCurrent
    · rw [if_pos hac, if_pos hac]
    · rw [if_neg hac, if_neg hac]
      rcases hZ with h | h
      · exact absurd h hac
      · rw [h]

/-- The patterns of `toFloatResExample` are the `float` values nearest to the three
numbers of the example. -/
theorem toFloatResExample_nearest :
    f32ToDbl 0xBE51EB85 = Dbl.fin (-13757317 / 67108864) ∧
    roundNE 24 (-41 / 200) = -13757317 / 67108864 ∧
    f32ToDbl 0xBE4CCCCD = Dbl.fin (-13421773 / 67108864) ∧
    roundNE 24 (-1 / 5) = -13421773 / 67108864 ∧
    f32ToDbl 0xBE22D0E6 = Dbl.fin (-5335155 / 33554432) ∧
    roundNE 24 (-13421773 / 67108864 * (1 + -13757317 / 67108864)) =
      -5335155 / 33554432 := by
  refine ⟨?_, ?_, ?_, ?_, ?_, ?_⟩
  · simp [f32ToDbl]; norm_num
  · rw [show (-41 / 200 : ℚ) = -(41 / 200) by norm_num, roundNE_neg,
      roundNE_eval 24 _ (-26) 13757317 (by norm_num) (by norm_num) (by norm_num)
        (by rw [abs_lt]; constructor <;> norm_num)]
    norm_num
  · simp [f32ToDbl]; norm_num
  · rw [show (-1 / 5 : ℚ) = -(1 / 5) by norm_num, roundNE_neg,
      roundNE_eval 24 _ (-26) 13421773 (by norm_num) (by norm_num) (by norm_num)
        (by rw [abs_lt]; constructor <;> norm_num)]
    norm_num
  · simp [f32ToDbl]; norm_num
  · rw [show (-13421773 / 67108864 * (1 + -13757317 / 67108864) : ℚ) =
        -(716072353032831 / 4503599627370496) by norm_num, roundNE_neg,
      roundNE_eval 24 _ (-26) 10670310 (by norm_num) (by norm_num) (by norm_num)
        (by rw [abs_lt]; constructor <;> norm_num)]
    norm_num

/-- Witness of C8. The example of the specification: an AC scale with `Z = 0`,
`P = 1000`, `Pref = 1.0` gets `mult = -0.999` and `add = 0` (as `float` values). A
resistance scale with the `double` values `Z = 0.25`, `P = 10.25`, `Pref = 8`: `Mult` is
the `float` value of `(0.05 − 8) / (0.25 − 10.25) − 1 = -0.205`, and `Add` the `float`
value of the product of the `float` value of `0.05 − 0.25 = -0.2` and one plus `Mult`. -/
theorem CALIB_CheckCompleteCalib_formulas_witness :
    ((CALIB_CheckCompleteCalib toFloatExample sqExample scale11Selected
        calibStateACExample).1 = 1 ∧
      specMult sqExample scale11Selected.curCfg.mode (calibStateACExample.partCalib 11) =
        Dbl.fin (-999 / 1000) ∧
      ((CALIB_CheckCompleteCalib toFloatExample sqExample scale11Selected
        calibStateACExample).2.calib.Dmm 11).Mult = toFloatExample (Dbl.fin (-999 / 1000)) ∧
      ((CALIB_CheckCompleteCalib toFloatExample sqExample scale11Selected
        calibStateACExample).2.calib.Dmm 11).Add = toFloatExample (Dbl.fin 0)) ∧
    ((CALIB_CheckCompleteCalib toFloatResExample sqExample scale6Selected
        calibStateResDouble).1 = 1 ∧
      scale6Selected.curCfg.mode = DmmResistance ∧
      specMult sqExample scale6Selected.curCfg.mode (calibStateResDouble.partCalib 6) =
        Dbl.fin (-41 / 200) ∧
      specAddFactor scale6Selected.curCfg.mode (calibStateResDouble.partCalib 6) =
        Dbl.fin (-1 / 5) ∧
      ((CALIB_CheckCompleteCalib toFloatResExample sqExample scale6Selected
        calibStateResDouble).2.calib.Dmm 6).Mult = 0xBE51EB85 ∧
      ((CALIB_CheckCompleteCalib toFloatResExample sqExample scale6Selected
        calibStateResDouble).2.calib.Dmm 6).Add = 0xBE22D0E6) := by
  constructor
  · have hdone : (CALIB_CheckCompleteCalib toFloatExample sqExample scale11Selected
        calibStateACExample).1 = 1 := by decide
    have hmode : scale11Selected.curCfg.mode = DmmACVoltage := by decide
    have hidx : (DMM_GetCurrentScale scale11Selected).toNat = 11 := by decide
    have hpc : calibStateACExample.partCalib 11 =
        ⟨Dbl.fin 0, Dbl.fin 1000, Dbl.fin 1, Dbl.nan, Dbl.nan, 0⟩ := rfl
    have hsm : specMult sqExample scale11Selected.curCfg.mode
        (calibStateACExample.partCalib 11) = Dbl.fin (-999 / 1000) := by
      rw [hmode, hpc]
      simp [specMult, DmmACVoltage, Dbl.sub, Dbl.div, Dbl.mul, Dbl.sqrt, Dbl.add, Dbl.neg,
        sqExample]
      norm_num
    have hsa : ∀ m, specAddFloat toFloatExample scale11Selected.curCfg.mode
        (calibStateACExample.partCalib 11) m = Dbl.fin 0 := by
      intro m
      rw [hmode, hpc]
      simp [specAddFloat, DmmACVoltage]
    have hf1 : toFloatExample (Dbl.fin (-999 / 1000)) = 0xBF7FBE77 := by
      simp [toFloatExample]
    have hf0 : toFloatExample (Dbl.fin 0) = 0 := by
      simp only [toFloatExample]
      rw [if_neg (by norm_num)]
    have h := CALIB_CheckCompleteCalib_formulas toFloatExample sqExample scale11Selected
      calibStateACExample hdone
      (by rw [hidx, hsm, hf1]; decide)
      (by rw [hidx, hsa, hf0]; decide)
    rw [hidx, hsm, hsa] at h
    exact ⟨hdone, hsm, h.1, h.2.1⟩
  · have hdone : (CALIB_CheckCompleteCalib toFloatResExample sqExample scale6Selected
        calibStateResDouble).1 = 1 := by decide
    have hmode : scale6Selected.curCfg.mode = DmmResistance := by decide
    have hidx : (DMM_GetCurrentScale scale6Selected).toNat = 6 := by decide
    have hpc : calibStateResDouble.partCalib 6 =
        ⟨Dbl.fin (1 / 4), Dbl.fin (41 / 4), Dbl.fin 8, Dbl.nan, Dbl.nan, 0⟩ := rfl
    obtain ⟨p1, _, p2, _, p3, _⟩ := toFloatResExample_nearest
    have hsm : specMult sqExample scale6Selected.curCfg.mode
        (calibStateResDouble.partCalib 6) = Dbl.fin (-41 / 200) := by
      rw [hmode, hpc]
      simp [specMult, specZeroRef, DmmResistance, DmmACVoltage, DmmACCurrent, DmmACLowCurrent,
        DmmDCVoltage, DmmDCCurrent, DmmDCLowCurrent, Dbl.sub, Dbl.div, Dbl.add, Dbl.neg]
      norm_num
    have hsf : specAddFactor scale6Selected.curCfg.mode (calibStateResDouble.partCalib 6) =
        Dbl.fin (-1 / 5) := by
      rw [hmode, hpc]
      simp [specAddFactor, specZeroRef, DmmResistance, DmmDCVoltage, DmmDCCurrent,
        DmmDCLowCurrent, Dbl.sub, Dbl.add, Dbl.neg]
      norm_num
    have hf1 : toFloatResExample (Dbl.fin (-41 / 200)) = 0xBE51EB85 := by
      simp [toFloatResExample]
    have hf2 : toFloatResExample (Dbl.fin (-1 / 5)) = 0xBE4CCCCD := by
      simp only [toFloatResExample]
      rw [if_neg (by norm_num), if_pos trivial]
    have hsa : specAddFloat toFloatResExample scale6Selected.curCfg.mode
        (calibStateResDouble.partCalib 6) (f32ToDbl 0xBE51EB85) =
        Dbl.fin (-13421773 / 67108864 * (1 + -13757317 / 67108864)) := by
      unfold specAddFloat
      rw [hsf, hf2, p1, p2, hmode]
      simp [DmmResistance, DmmACVoltage, DmmACCurrent, DmmACLowCurrent, Dbl.mul, Dbl.add]
    have hf3 : toFloatResExample
        (Dbl.fin (-13421773 / 67108864 * (1 + -13757317 / 67108864))) = 0xBE22D0E6 := by
      simp only [toFloatResExample]
      rw [if_neg (by norm_num), if_neg (by norm_num), if_pos trivial]
    have h := CALIB_CheckCompleteCalib_formulas toFloatResExample sqExample scale6Selected
      calibStateResDouble hdone
      (by rw [hidx, hsm, hf1, p1]; exact fun h => Dbl.noConfusion h)
      (by rw [hidx, hsm, hf1, hsa, hf3, p3]; exact fun h => Dbl.noConfusion h)
    rw [hidx, hsm, hf1] at h
    obtain ⟨h1, h2, _⟩ := h
    rw [h1, hsa, hf3] at h2
    exact ⟨hdone, hmode, hsm, hsf, h1, h2⟩

/-! ## Value formatting and parsing -/

theorem scale8Selected_unit :
    DMM_GetScaleUnit scale8Selected scale8Selected.idxCurrentScale =
      (ERRVAL_SUCCESS, Dbl.fin 1, [], ['V']) := by
  have hidx : DMM_ERR_CheckIdxCalib scale8Selected.idxCurrentScale = ERRVAL_SUCCESS := by decide
  have hr : scale8Selected.curCfg.range = Dbl.fin 5e0 := rfl
  have hm : scale8Selected.curCfg.mode = DmmDCVoltage := by decide
  unfold DMM_GetScaleUnit
  simp only [hidx, hr, hm, if_true, Dbl.lt, Dbl.ge]
  norm_num

theorem Char_ofNat_digit : ∀ d : Nat, d < 10 → Char.ofNat (48 + d) = Nat.digitChar d := by
  decide

theorem SPrintfDouble_digits (n : Nat) :
    ((List.range 6).map fun j => Char.ofNat (48 + n / 10 ^ (6 - 1 - j) % 10)) =
      [Nat.digitChar (n / 100000 % 10), Nat.digitChar (n / 10000 % 10),
       Nat.digitChar (n / 1000 % 10), Nat.digitChar (n / 100 % 10),
       Nat.digitChar (n / 10 % 10), Nat.digitChar (n % 10)] := by
  have h : List.range 6 = [0, 1, 2, 3, 4, 5] := by decide
  rw [h]
  simp only [List.map_cons, List.map_nil]
  rw [← Char_ofNat_digit _ (Nat.mod_lt _ (by decide)),
    ← Char_ofNat_digit (n / 10000 % 10) (Nat.mod_lt _ (by decide)),
    ← Char_ofNat_digit (n / 1000 % 10) (Nat.mod_lt _ (by decide)),
    ← Char_ofNat_digit (n / 100 % 10) (Nat.mod_lt _ (by decide)),
    ← Char_ofNat_digit (n / 10 % 10) (Nat.mod_lt _ (by decide)),
    ← Char_ofNat_digit (n % 10) (Nat.mod_lt _ (by decide))]
  norm_num

/-- Function `SPrintfDouble` with six digits on a finite number: the text of the integer part
`ip`, the point, and the six digits of the integer `fr` that the conversion to `uint32_t`
makes of the rounded product. -/
theorem SPrintfDouble_fin (t : Target) (q : ℚ) (ip : Int) (fr : Nat)
    (hip : Dbl.toInt t (Dbl.fin q) = ip)
    (hfr : Dbl.toUInt32 t (Dbl.fin (t.rnd (t.rnd (if 0 ≤ q then q - ip else ip - q) *
      1000000))) = fr) :
    (SPrintfDouble t (Dbl.fin q) 6).1 = itoa ip ++ '.' ::
      [Nat.digitChar (fr / 100000 % 10), Nat.digitChar (fr / 10000 % 10),
       Nat.digitChar (fr / 1000 % 10), Nat.digitChar (fr / 100 % 10),
       Nat.digitChar (fr / 10 % 10), Nat.digitChar (fr % 10)] := by
  unfold SPrintfDouble
  simp only [SPrintfDouble_digits, hip]
  by_cases h : 0 ≤ q
  · have hge : Dbl.ge (Dbl.fin q) (Dbl.fin 0) = true := by simp [Dbl.ge, h]
    have hmul : Dbl.round t (Dbl.mul (Dbl.round t (Dbl.sub (Dbl.fin q) (Dbl.ofInt ip)))
        (Dbl.ofInt (10 ^ 6 % 2 ^ 32 : Int))) = Dbl.fin (t.rnd (t.rnd (q - ip) * 1000000)) := by
      simp [Dbl.round, Dbl.mul, Dbl.sub, Dbl.add, Dbl.neg, Dbl.ofInt, sub_eq_add_neg]
    rw [if_pos h] at hfr
    simp only [hge, if_true, hmul, hfr, List.append_assoc, List.singleton_append]
  · have hge : Dbl.ge (Dbl.fin q) (Dbl.fin 0) = false := by simp [Dbl.ge, h]
    have hmul : Dbl.round t (Dbl.mul (Dbl.round t (Dbl.sub (Dbl.ofInt ip) (Dbl.fin q)))
        (Dbl.ofInt (10 ^ 6 % 2 ^ 32 : Int))) = Dbl.fin (t.rnd (t.rnd (ip - q) * 1000000)) := by
      simp [Dbl.round, Dbl.mul, Dbl.sub, Dbl.add, Dbl.neg, Dbl.ofInt, sub_eq_add_neg]
    rw [if_neg h] at hfr
    simp only [hge, Bool.false_eq_true, if_false, hmul, hfr, List.append_assoc,
      List.singleton_append]

/-- On a board whose `double` holds 1/2 and 500000, `SPrintfDouble` prints 0.5 and -0.5
by the same text. -/
theorem SPrintfDouble_half (t : Target) (hh : t.rnd (1 / 2) = 1 / 2)
    (h5 : t.rnd 500000 = 500000) :
    (SPrintfDouble t (Dbl.fin (1 / 2)) 6).1 = "0.500000".toList ∧
    (SPrintfDouble t (Dbl.fin (-1 / 2)) 6).1 = "0.500000".toList := by
  have hpos : (0 : Int) < 2 ^ (t.intBits - 1) := by positivity
  have ht1 : truncQ (1 / 2) = 0 := by
    rw [truncQ_nonneg _ (by norm_num)]; norm_num
  have ht2 : truncQ (-1 / 2) = 0 := by
    rw [truncQ_neg _ (by norm_num)]; norm_num
  have hi1 : Dbl.toInt t (Dbl.fin (1 / 2)) = 0 := by
    rw [Dbl_toInt_fin t _ (by rw [ht1]; omega), ht1]
  have hi2 : Dbl.toInt t (Dbl.fin (-1 / 2)) = 0 := by
    rw [Dbl_toInt_fin t _ (by rw [ht2]; omega), ht2]
  have hu : Dbl.toUInt32 t (Dbl.fin 500000) = 500000 := by
    rw [Dbl_toUInt32_fin t _ (by norm_num) (by norm_num)]; norm_num; rfl
  constructor
  · rw [SPrintfDouble_fin t _ 0 500000 hi1
      (by rw [if_pos (by norm_num)]; norm_num [hh, h5]; exact hu)]
    decide
  · rw [SPrintfDouble_fin t _ 0 500000 hi2
      (by rw [if_neg (by norm_num)]; norm_num [hh, h5]; exact hu)]
    decide

/-- On a board whose `double` holds 1, 1/2, -1/2 and 500000, `DMM_FormatValue` renders
-0.5 and +0.5 on the 5 V DC scale by the same text. -/
theorem DMM_FormatValue_half (t : Target) (h1 : t.rnd 1 = 1)
    (hh : t.rnd (1 / 2) = 1 / 2) (hm : t.rnd (-1 / 2) = -1 / 2)
    (h5 : t.rnd 500000 = 500000) :
    DMM_FormatValue t scale8Selected (Dbl.fin (-1 / 2)) [] 1 =
      (ERRVAL_SUCCESS, "0.500000 V".toList) ∧
    DMM_FormatValue t scale8Selected (Dbl.fin (1 / 2)) [] 1 =
      (ERRVAL_SUCCESS, "0.500000 V".toList) := by
  have hidx : DMM_ERR_CheckIdxCalib scale8Selected.idxCurrentScale = ERRVAL_SUCCESS := by decide
  have hmode : scale8Selected.curCfg.mode = DmmDCVoltage := by decide
  have hnd : ¬ (DmmDCVoltage = DmmDiode) := by decide
  have hmul1 : ∀ q : ℚ, Dbl.round t (Dbl.mul (Dbl.fin q) (Dbl.round t (Dbl.fin 1))) =
      Dbl.fin (t.rnd q) := by
    intro q; simp [Dbl.mul, Dbl.round, h1]
  obtain ⟨hp, hn⟩ := SPrintfDouble_half t hh h5
  refine ⟨?_, ?_⟩
  · unfold DMM_FormatValue
    simp only [hidx, if_true, scale8Selected_unit, Dbl.eq, hmul1, hm, hn, hmode,
      hnd, false_and, if_false, Bool.false_eq_true]
    decide
  · unfold DMM_FormatValue
    simp only [hidx, if_true, scale8Selected_unit, Dbl.eq, hmul1, hh, hp, hmode,
      hnd, false_and, if_false, Bool.false_eq_true]
    decide

/-- C6: on the 5 V DC scale, on either board, `DMM_FormatValue` renders the values -0.5
and +0.5 by the same text "0.500000 V" (the sign of a value between -1 and 0 is lost
with the integer part 0), and `DMM_InterpretValue` of that text returns what `atof` makes
of "0.500000": the round trip of -0.5 returns the result of the round trip of +0.5. -/
theorem DMM_FormatValue_loses_sign (atof : List Char → Dbl) (intUndef : Dbl → Int) :
    DMM_FormatValue (targetDue intUndef) scale8Selected (Dbl.fin (-1 / 2)) [] 1 =
      (ERRVAL_SUCCESS, "0.500000 V".toList) ∧
    DMM_FormatValue (targetDue intUndef) scale8Selected (Dbl.fin (1 / 2)) [] 1 =
      (ERRVAL_SUCCESS, "0.500000 V".toList) ∧
    DMM_FormatValue (targetAVR intUndef) scale8Selected (Dbl.fin (-1 / 2)) [] 1 =
      (ERRVAL_SUCCESS, "0.500000 V".toList) ∧
    DMM_FormatValue (targetAVR intUndef) scale8Selected (Dbl.fin (1 / 2)) [] 1 =
      (ERRVAL_SUCCESS, "0.500000 V".toList) ∧
    DMM_InterpretValue atof scale8Selected "0.500000 V".toList =
      (ERRVAL_SUCCESS, some (Dbl.div (atof "0.500000".toList) (Dbl.fin 1))) := by
  obtain ⟨a1, a2, a3, _⟩ := roundNE_53_values
  obtain ⟨b1, b2, b3, _⟩ := roundNE_24_values
  have a4 : roundNE 53 (-1 / 2) = -1 / 2 := by
    rw [show (-1 / 2 : ℚ) = -(1 / 2) by norm_num, roundNE_neg, a2]
  have b4 : roundNE 24 (-1 / 2) = -1 / 2 := by
    rw [show (-1 / 2 : ℚ) = -(1 / 2) by norm_num, roundNE_neg, b2]
  obtain ⟨d1, d2⟩ := DMM_FormatValue_half (targetDue intUndef) a1 a2 a4 a3
  obtain ⟨e1, e2⟩ := DMM_FormatValue_half (targetAVR intUndef) b1 b2 b4 b3
  refine ⟨d1, d2, e1, e2, ?_⟩
  · have ht : trimTrailingBlanks "0.500000 V".toList = "0.500000 V".toList := by decide
    have hno : ¬ ("0.500000 V".toList = "OVERLOAD".toList ∨
        "0.500000 V".toList = "OPEN".toList) := by decide
    have hlast : ("0.500000 V".toList).getLastD ' ' = 'V' := by decide
    have hdig : ¬ ('0' ≤ 'V' ∧ 'V' ≤ '9') := by decide
    have hsuf : ("0.500000 V".toList).drop (("0.500000 V".toList).length - ['V'].length) =
        ['V'] := by decide
    have htake : ("0.500000 V".toList).take (("0.500000 V".toList).length - ['V'].length) =
        "0.500000 ".toList := by decide
    have hc : ("0.500000 ".toList).getLastD ' ' = ' ' := by decide
    have ht2 : trimTrailingBlanks "0.500000 ".toList = "0.500000".toList := by decide
    unfold DMM_InterpretValue
    simp only [ht, hno, if_false, scale8Selected_unit, if_true, hlast, hdig, not_false_eq_true,
      hsuf, htake, hc]
    simp only [show ¬ (' ' = 'u') by decide, show ¬ (' ' = 'm') by decide,
      show ¬ (' ' = 'k') by decide, show ¬ (' ' = 'M') by decide, if_false, if_true, ht2]

/-! ## Reading the converter -/

/-- The retry loop of `DMM_DGetValue` ends within the fuel of the model and makes at most
`DMM_VALIDDATA_CNTTIMEOUT - cntTimeout + 1` further calls of `DMM_DGetStatus`. -/
theorem DMM_DGetValue_loop_bound (status : Nat → Dbl × Nat) :
    ∀ (fuel calls cnt : Nat), cnt ≤ DMM_VALIDDATA_CNTTIMEOUT →
      DMM_VALIDDATA_CNTTIMEOUT - cnt < fuel →
      ∃ v e c k, DMM_DGetValue_loop status fuel calls cnt = some (v, e, c, k) ∧
        calls + 1 ≤ k ∧ k ≤ calls + (DMM_VALIDDATA_CNTTIMEOUT - cnt) + 1 := by
  intro fuel
  induction fuel with
  | zero => intro calls cnt _ h; omega
  | succ fuel ih =>
    intro calls cnt hc hf
    unfold DMM_DGetValue_loop
    simp only
    by_cases hn : DMM_IsNotANumber (status calls).1 = true
    · rw [if_pos hn]
      by_cases hlt : cnt < DMM_VALIDDATA_CNTTIMEOUT
      · rw [if_pos hlt]
        by_cases he : (status calls).2 = ERRVAL_SUCCESS
        · rw [if_pos he]
          obtain ⟨v, e, c, k, h1, h2, h3⟩ := ih (calls + 1) (cnt + 1) (by omega) (by omega)
          exact ⟨v, e, c, k, h1, by omega, by omega⟩
        · rw [if_neg he]
          exact ⟨_, _, _, _, rfl, by omega, by omega⟩
      · rw [if_neg hlt]
        exact ⟨_, _, _, _, rfl, by omega, by omega⟩
    · rw [if_neg hn]
      exact ⟨_, _, _, _, rfl, by omega, by omega⟩

/-- The retry loop of `DMM_DGetValue` when every call of `DMM_DGetStatus` answers NaN with
success: it runs until `cntTimeout` has passed `DMM_VALIDDATA_CNTTIMEOUT`. -/
theorem DMM_DGetValue_loop_never_ready (status : Nat → Dbl × Nat)
    (hs : ∀ k, status k = (Dbl.nan, ERRVAL_SUCCESS)) :
    ∀ (fuel calls cnt : Nat), cnt ≤ DMM_VALIDDATA_CNTTIMEOUT →
      DMM_VALIDDATA_CNTTIMEOUT - cnt < fuel →
      DMM_DGetValue_loop status fuel calls cnt =
        some (Dbl.nan, ERRVAL_SUCCESS, DMM_VALIDDATA_CNTTIMEOUT + 1,
          calls + (DMM_VALIDDATA_CNTTIMEOUT - cnt) + 1) := by
  intro fuel
  induction fuel with
  | zero => intro calls cnt _ h; omega
  | succ fuel ih =>
    intro calls cnt hc hf
    have hnan : DMM_IsNotANumber Dbl.nan = true := by decide
    unfold DMM_DGetValue_loop
    simp only [hs calls, hnan, if_true]
    by_cases hlt : cnt < DMM_VALIDDATA_CNTTIMEOUT
    · rw [if_pos hlt, ih (calls + 1) (cnt + 1) (by omega) (by omega)]
      congr 4
      omega
    · rw [if_neg hlt]
      have : cnt = DMM_VALIDDATA_CNTTIMEOUT := by omega
      subst this
      simp

/-- A status read while the conversion-done flag of the scale's type is clear answers
NaN with success. -/
theorem DMM_DGetStatus_not_ready (sq : ℚ → ℚ) (rms32 : Bool) (s : DMMState)
    (calib : CALIBDATA) (dmmsts : DMMSTS)
    (hidx : 0 ≤ s.idxCurrentScale ∧ s.idxCurrentScale ≤ 26)
    (hflag : if DMM_FACScale s s.idxCurrentScale = true then dmmsts.intf &&& 0x10 = 0
      else dmmsts.intf &&& 0x04 = 0) :
    DMM_DGetStatus sq rms32 s calib dmmsts = (Dbl.nan, ERRVAL_SUCCESS) := by
  have hok := (DMM_ERR_CheckIdxCalib_eq_success _).2 hidx
  unfold DMM_DGetStatus
  simp only [hok, ne_eq, not_true_eq_false, if_false]
  by_cases hac : DMM_FACScale s s.idxCurrentScale = true
  · rw [if_pos hac] at hflag
    simp only [hac, if_true, hflag, not_true_eq_false, if_false]
  · rw [if_neg hac] at hflag
    simp only [hac, hflag, not_true_eq_false, if_false, Bool.false_eq_true]

/-- `DMM_DGetValue` on a chip that never reports a finished conversion: 257 calls of
`DMM_DGetStatus`, then the timeout error. -/
theorem DMM_DGetValue_never_ready (sq : ℚ → ℚ) (rms32 : Bool) (s : DMMState)
    (calib : CALIBDATA) (sts : Nat → DMMSTS)
    (hidx : 0 ≤ s.idxCurrentScale ∧ s.idxCurrentScale ≤ 26)
    (hflag : ∀ k, if DMM_FACScale s s.idxCurrentScale = true then (sts k).intf &&& 0x10 = 0
      else (sts k).intf &&& 0x04 = 0) :
    DMM_DGetValue sq rms32 s calib sts = some (Dbl.nan, ERRVAL_DMM_VALIDDATATIMEOUT, 257) := by
  have hl := DMM_DGetValue_loop_never_ready
    (fun k => DMM_DGetStatus sq rms32 s calib (sts k))
    (fun k => DMM_DGetStatus_not_ready sq rms32 s calib (sts k) hidx (hflag k))
    (DMM_VALIDDATA_CNTTIMEOUT + 1) 0 0 (Nat.zero_le _) (by omega)
  unfold DMM_DGetValue
  rw [hl]
  simp [DMM_VALIDDATA_CNTTIMEOUT, ERRVAL_SUCCESS, ERRVAL_DMM_VALIDDATATIMEOUT]

/-- C11 (amended): for every sequence of status snapshots, one call of `DMM_DGetValue`
returns after at most 257 calls of `DMM_DGetStatus` (the first read and 256 retries);
when a scale is selected and the chip never reports a finished conversion it makes
exactly 257 calls and reports the measurement-timeout error with the value NaN. -/
theorem DMM_DGetValue_status_reads (sq : ℚ → ℚ) (rms32 : Bool) (s : DMMState)
    (calib : CALIBDATA) (sts : Nat → DMMSTS) :
    (∃ v e k, DMM_DGetValue sq rms32 s calib sts = some (v, e, k) ∧ 1 ≤ k ∧ k ≤ 257) ∧
    ((0 ≤ s.idxCurrentScale ∧ s.idxCurrentScale ≤ 26) →
      (∀ k, if DMM_FACScale s s.idxCurrentScale = true then (sts k).intf &&& 0x10 = 0
        else (sts k).intf &&& 0x04 = 0) →
      DMM_DGetValue sq rms32 s calib sts =
        some (Dbl.nan, ERRVAL_DMM_VALIDDATATIMEOUT, 257)) := by
  refine ⟨?_, fun hidx hflag => DMM_DGetValue_never_ready sq rms32 s calib sts hidx hflag⟩
  obtain ⟨v, e, c, k, h1, h2, h3⟩ := DMM_DGetValue_loop_bound
    (fun k => DMM_DGetStatus sq rms32 s calib (sts k))
    (DMM_VALIDDATA_CNTTIMEOUT + 1) 0 0 (Nat.zero_le _) (by omega)
  unfold DMM_DGetValue
  rw [h1]
  refine ⟨_, _, k, rfl, by omega, ?_⟩
  unfold DMM_VALIDDATA_CNTTIMEOUT at h3
  omega

/-- C11 (as stated) fails: with the 5 V DC scale selected and a chip whose registers stay
zero (the conversion-done flag never set), one call of `DMM_DGetValue` makes 257 calls
of `DMM_DGetStatus`, one more than 256, before it reports the timeout. -/
theorem DMM_DGetValue_257_status_reads :
    DMM_DGetValue sqExample false scale8Selected calibStateZero.calib (fun _ => dmmstsZero) =
      some (Dbl.nan, ERRVAL_DMM_VALIDDATATIMEOUT, 257) ∧ ¬ (257 ≤ 256) :=
  ⟨DMM_DGetValue_never_ready sqExample false scale8Selected calibStateZero.calib
    (fun _ => dmmstsZero) (by decide)
    (fun _ => (by decide : if DMM_FACScale scale8Selected scale8Selected.idxCurrentScale = true
      then dmmstsZero.intf &&& 0x10 = 0 else dmmstsZero.intf &&& 0x04 = 0)), by decide⟩

/-! ## Calibration steps -/

theorem CALIB_CalibOnPositive_measure_frame (sq : ℚ → ℚ) (dmm : DMMState) (st : CalibState)
    (samples : Nat → Dbl × Nat) (bEarlyMeasurement : Nat) :
    (CALIB_CalibOnPositive_measure sq dmm st samples bEarlyMeasurement).2.2.2.calib = st.calib ∧
    ∀ i, ((CALIB_CalibOnPositive_measure sq dmm st samples
      bEarlyMeasurement).2.2.2.partCalib i).fCalibDirty = (st.partCalib i).fCalibDirty := by
  unfold CALIB_CalibOnPositive_measure CALIB_MeasureForCalibPositiveVal
  by_cases hb : bEarlyMeasurement = 0
  · simp only [hb, if_true]
    split
    · refine ⟨rfl, fun i => ?_⟩
      simp only [CalibState.setMsValP]
      split <;> rfl
    · exact ⟨rfl, fun _ => rfl⟩
  · simp only [hb, if_false]
    exact ⟨trivial, fun _ => trivial⟩

theorem CALIB_CalibOnNegative_measure_frame (sq : ℚ → ℚ) (dmm : DMMState) (st : CalibState)
    (samples : Nat → Dbl × Nat) (bEarlyMeasurement : Nat) :
    (CALIB_CalibOnNegative_measure sq dmm st samples bEarlyMeasurement).2.2.2.calib = st.calib ∧
    ∀ i, ((CALIB_CalibOnNegative_measure sq dmm st samples
      bEarlyMeasurement).2.2.2.partCalib i).fCalibDirty = (st.partCalib i).fCalibDirty := by
  unfold CALIB_CalibOnNegative_measure CALIB_MeasureForCalibNegativeVal
  by_cases hb : bEarlyMeasurement = 0
  · simp only [hb, if_true]
    split
    · refine ⟨rfl, fun i => ?_⟩
      simp only [CalibState.setMsValN]
      split <;> rfl
    · exact ⟨rfl, fun _ => rfl⟩
  · simp only [hb, if_false]
    exact ⟨trivial, fun _ => trivial⟩

/-- C12 (amended): for a NaN reference value, whenever the measurement step succeeded
(a measurement taken now, or an earlier one that is present), `CALIB_CalibOnPositive`
and `CALIB_CalibOnNegative` fail with the invalid-reference error
(`ERRVAL_CALIB_NANDOUBLE`), leave the matching reference field NaN, and compute no
coefficient: the coefficient table and every dirty flag are as before the call. -/
theorem CALIB_CalibOn_nan_reference (toFloat : Dbl → Nat) (sq : ℚ → ℚ) (dmm : DMMState)
    (st : CalibState) (samples : Nat → Dbl × Nat) (bEarlyMeasurement : Nat) :
    ((CALIB_CalibOnPositive_measure sq dmm st samples bEarlyMeasurement).1 = ERRVAL_SUCCESS →
      (CALIB_CalibOnPositive toFloat sq dmm st samples Dbl.nan bEarlyMeasurement).1 =
        ERRVAL_CALIB_NANDOUBLE ∧
      ((CALIB_CalibOnPositive toFloat sq dmm st samples Dbl.nan
        bEarlyMeasurement).2.2.2.partCalib (DMM_GetCurrentScale dmm).toNat).Calib_Ref_ValP =
        Dbl.nan ∧
      (CALIB_CalibOnPositive toFloat sq dmm st samples Dbl.nan bEarlyMeasurement).2.2.2.calib =
        st.calib ∧
      ∀ i, ((CALIB_CalibOnPositive toFloat sq dmm st samples Dbl.nan
        bEarlyMeasurement).2.2.2.partCalib i).fCalibDirty = (st.partCalib i).fCalibDirty) ∧
    ((CALIB_CalibOnNegative_measure sq dmm st samples bEarlyMeasurement).1 = ERRVAL_SUCCESS →
      (CALIB_CalibOnNegative toFloat sq dmm st samples Dbl.nan bEarlyMeasurement).1 =
        ERRVAL_CALIB_NANDOUBLE ∧
      ((CALIB_CalibOnNegative toFloat sq dmm st samples Dbl.nan
        bEarlyMeasurement).2.2.2.partCalib (DMM_GetCurrentScale dmm).toNat).Calib_Ref_ValN =
        Dbl.nan ∧
      (CALIB_CalibOnNegative toFloat sq dmm st samples Dbl.nan bEarlyMeasurement).2.2.2.calib =
        st.calib ∧
      ∀ i, ((CALIB_CalibOnNegative toFloat sq dmm st samples Dbl.nan
        bEarlyMeasurement).2.2.2.partCalib i).fCalibDirty = (st.partCalib i).fCalibDirty) := by
  have hnan : CALIB_ERR_CheckDoubleVal Dbl.nan = ERRVAL_CALIB_NANDOUBLE := by decide
  have hne : ¬ (ERRVAL_CALIB_NANDOUBLE = ERRVAL_SUCCESS) := by decide
  constructor
  · intro hm
    obtain ⟨f1, f2⟩ := CALIB_CalibOnPositive_measure_frame sq dmm st samples bEarlyMeasurement
    unfold CALIB_CalibOnPositive
    simp only [hm, if_true, hnan, hne, if_false]
    refine ⟨trivial, ?_, f1, fun i => ?_⟩
    · simp [CalibState.setRefValP]
    · rw [← f2 i]
      simp only [CalibState.setRefValP]
      split <;> rfl
  · intro hm
    obtain ⟨f1, f2⟩ := CALIB_CalibOnNegative_measure_frame sq dmm st samples bEarlyMeasurement
    unfold CALIB_CalibOnNegative
    simp only [hm, if_true, hnan, hne, if_false]
    refine ⟨trivial, ?_, f1, fun i => ?_⟩
    · simp [CalibState.setRefValN]
    · rw [← f2 i]
      simp only [CalibState.setRefValN]
      split <;> rfl

/-- C12 (as stated) fails for an infinite reference value: on the AC scale 11 with the
zero and an earlier positive measurement present, `CALIB_CalibOnPositive` with the
reference `+∞` returns success, stores `+∞` as the positive reference and completes the
calibration (the dirty flag of the scale is set); `CALIB_CalibOnNegative` with `-∞`
returns success and stores `-∞`. -/
theorem CALIB_CalibOn_infinite_reference_accepted :
    (CALIB_CalibOnPositive toFloatExample sqExample scale11Selected calibStateEarlyMeasured
      samplesOneThree Dbl.pinf 1).1 = ERRVAL_SUCCESS ∧
    ((CALIB_CalibOnPositive toFloatExample sqExample scale11Selected calibStateEarlyMeasured
      samplesOneThree Dbl.pinf 1).2.2.2.partCalib 11).Calib_Ref_ValP = Dbl.pinf ∧
    ((CALIB_CalibOnPositive toFloatExample sqExample scale11Selected calibStateEarlyMeasured
      samplesOneThree Dbl.pinf 1).2.2.2.partCalib 11).fCalibDirty = 1 ∧
    (CALIB_CalibOnNegative toFloatExample sqExample scale11Selected calibStateEarlyMeasured
      samplesOneThree Dbl.ninf 1).1 = ERRVAL_SUCCESS ∧
    ((CALIB_CalibOnNegative toFloatExample sqExample scale11Selected calibStateEarlyMeasured
      samplesOneThree Dbl.ninf 1).2.2.2.partCalib 11).Calib_Ref_ValN = Dbl.ninf := by
  decide

/-! ## Saving the calibration -/

theorem EPROM_WaitUntilReady_Raw_cases (p : Nat) :
    EPROM_WaitUntilReady_Raw p = ERRVAL_SUCCESS ∨
    EPROM_WaitUntilReady_Raw p = ERRVAL_EPROM_WRTIMEOUT := by
  unfold EPROM_WaitUntilReady_Raw
  simp only
  split
  · exact Or.inr rfl
  · exact Or.inl rfl

/-- The result of `EPROM_WriteWords_loop` is success or the write-timeout error. -/
theorem EPROM_WriteWords_loop_cases (bAddress : Nat) (prgVals : Nat → Nat) (cwVals : Int) :
    ∀ (fuel i : Nat) (st : Nat × EPROM),
      (st.1 = ERRVAL_SUCCESS ∨ st.1 = ERRVAL_EPROM_WRTIMEOUT) →
      (EPROM_WriteWords_loop bAddress prgVals cwVals fuel i st).1 = ERRVAL_SUCCESS ∨
      (EPROM_WriteWords_loop bAddress prgVals cwVals fuel i st).1 = ERRVAL_EPROM_WRTIMEOUT := by
  intro fuel
  induction fuel with
  | zero => intro i st h; exact h
  | succ fuel ih =>
    intro i st h
    obtain ⟨bResult, dev⟩ := st
    unfold EPROM_WriteWords_loop
    by_cases hc : (i : Int) < cwVals ∧ bResult = 0
    · rw [if_pos hc]
      exact ih _ _ (EPROM_WaitUntilReady_Raw_cases _)
    · rw [if_neg hc]; exact h

theorem CALIB_WriteAllCalibsToEPROM_Raw_cases (st : CalibState) (baseAddr : Nat) :
    (CALIB_WriteAllCalibsToEPROM_Raw st baseAddr).1 = ERRVAL_SUCCESS ∨
    (CALIB_WriteAllCalibsToEPROM_Raw st baseAddr).1 = ERRVAL_EPROM_WRTIMEOUT := by
  unfold CALIB_WriteAllCalibsToEPROM_Raw EPROM_WriteWords_Raw
  exact EPROM_WriteWords_loop_cases _ _ _ _ _ _ (Or.inl rfl)

/-- The value of `CALIB_CntCalibDirty` when every dirty flag is 0 or 1: the number of
scales whose flag is 1. -/
theorem CALIB_CntCalibDirty_count (st : CalibState)
    (hflags : ∀ i, i < 27 → (st.partCalib i).fCalibDirty ≤ 1) :
    (CALIB_CntCalibDirty st).1 =
      ((Finset.range 27).filter (fun i => (st.partCalib i).fCalibDirty = 1)).card ∧
    (CALIB_CntCalibDirty st).1 ≤ 27 := by
  have h1 : (CALIB_CntCalibDirty st).1 =
      GetBufferChecksum (fun i => (st.partCalib i).fCalibDirty) 27 := rfl
  have h2 : ∑ i ∈ Finset.range 27, (st.partCalib i).fCalibDirty =
      ((Finset.range 27).filter (fun i => (st.partCalib i).fCalibDirty = 1)).card := by
    rw [Finset.card_filter]
    apply Finset.sum_congr rfl
    intro i hi
    have := hflags i (Finset.mem_range.1 hi)
    by_cases h : (st.partCalib i).fCalibDirty = 1
    · rw [if_pos h, h]
    · rw [if_neg h]; omega
  have h3 : ((Finset.range 27).filter (fun i => (st.partCalib i).fCalibDirty = 1)).card ≤ 27 := by
    calc _ ≤ (Finset.range 27).card := Finset.card_filter_le _ _
      _ = 27 := Finset.card_range 27
  rw [h1, GetBufferChecksum_eq_sum, h2]
  constructor
  · exact Nat.mod_eq_of_lt (by omega)
  · rw [Nat.mod_eq_of_lt (by omega)]; exact h3

/-- C13: when every dirty flag is 0 or 1 (the only values the module assigns) and the
write to the user area succeeds, `CALIB_WriteAllCalibsToEPROM_User` returns the number
of scales whose dirty flag is set; that number is at most 27, below every error code
(the smallest is 0xF0), and after the call every dirty flag is clear. When the write
fails it returns the write-timeout error. -/
theorem CALIB_WriteAllCalibsToEPROM_User_result (st : CalibState)
    (hflags : ∀ i, i < 27 → (st.partCalib i).fCalibDirty ≤ 1) :
    ((CALIB_WriteAllCalibsToEPROM_Raw st ADR_EPROM_CALIB).1 = ERRVAL_SUCCESS →
      (CALIB_WriteAllCalibsToEPROM_User st).1 =
        ((Finset.range 27).filter (fun i => (st.partCalib i).fCalibDirty = 1)).card ∧
      (CALIB_WriteAllCalibsToEPROM_User st).1 ≤ 27 ∧
      (CALIB_WriteAllCalibsToEPROM_User st).1 < ERRVAL_CALIB_MISSINGMEASUREMENT ∧
      ∀ i, i < 27 → ((CALIB_WriteAllCalibsToEPROM_User st).2.partCalib i).fCalibDirty = 0) ∧
    ((CALIB_WriteAllCalibsToEPROM_Raw st ADR_EPROM_CALIB).1 ≠ ERRVAL_SUCCESS →
      (CALIB_WriteAllCalibsToEPROM_User st).1 = ERRVAL_EPROM_WRTIMEOUT) := by
  constructor
  · intro hw
    have hpc : (CALIB_WriteAllCalibsToEPROM_Raw st ADR_EPROM_CALIB).2.partCalib = st.partCalib :=
      rfl
    obtain ⟨c1, c2⟩ := CALIB_CntCalibDirty_count
      (CALIB_WriteAllCalibsToEPROM_Raw st ADR_EPROM_CALIB).2 (by rw [hpc]; exact hflags)
    rw [hpc] at c1
    unfold CALIB_WriteAllCalibsToEPROM_User
    simp only [hw, if_true]
    refine ⟨c1, c2, ?_, fun i hi => ?_⟩
    · unfold ERRVAL_CALIB_MISSINGMEASUREMENT; omega
    · simp only [CALIB_Init, CALIB_ReadAllCalibsFromEPROM_User, CALIB_ReplaceCalibNullValues,
        CALIB_InitPartCalibData, hi, if_true]
  · intro hw
    rcases CALIB_WriteAllCalibsToEPROM_Raw_cases st ADR_EPROM_CALIB with h | h
    · exact absurd h hw
    · unfold CALIB_WriteAllCalibsToEPROM_User
      rw [if_neg hw]
      exact h

/-- Witness of C13: on the zeroed chip, with the dirty flags of the scales 5 and 11 set,
the write succeeds, the call returns 2, and every dirty flag is clear afterwards. -/
theorem CALIB_WriteAllCalibsToEPROM_User_result_witness :
    (∀ i, i < 27 → (calibStateTwoDirty.partCalib i).fCalibDirty ≤ 1) ∧
    (CALIB_WriteAllCalibsToEPROM_Raw calibStateTwoDirty ADR_EPROM_CALIB).1 = ERRVAL_SUCCESS ∧
    (calibStateTwoDirty.partCalib 5).fCalibDirty = 1 ∧
    (calibStateTwoDirty.partCalib 11).fCalibDirty = 1 ∧
    (CALIB_WriteAllCalibsToEPROM_User calibStateTwoDirty).1 = 2 ∧
    (∀ i, i < 27 →
      ((CALIB_WriteAllCalibsToEPROM_User calibStateTwoDirty).2.partCalib i).fCalibDirty = 0) := by
  have hflags : ∀ i, i < 27 → (calibStateTwoDirty.partCalib i).fCalibDirty ≤ 1 := by
    intro i _
    show (if i = 5 ∨ i = 11 then 1 else 0) ≤ 1
    split <;> decide
  have hdev : calibStateTwoDirty.eprom.AllComplete :=
    fun p hp => absurd hp (List.not_mem_nil p)
  have hok := (CALIB_WriteAllCalibsToEPROM_Raw_complete calibStateTwoDirty ADR_EPROM_CALIB
    (by decide) hdev).1
  have hcard : ((Finset.range 27).filter
      (fun i => (calibStateTwoDirty.partCalib i).fCalibDirty = 1)).card = 2 := by decide
  obtain ⟨h1, _, _, h4⟩ :=
    (CALIB_WriteAllCalibsToEPROM_User_result calibStateTwoDirty hflags).1 hok
  exact ⟨hflags, hok, rfl, rfl, h1.trans hcard, h4⟩

/-! ## Restoring the factory calibration -/

theorem EPROM_WaitUntilReady_loop_timeout (p : Nat) (hp : EPROM_CNTTIMEOUT ≤ p) :
    ∀ fuel cnt : Nat, cnt ≤ EPROM_CNTTIMEOUT → EPROM_CNTTIMEOUT - cnt < fuel →
      EPROM_CNTTIMEOUT ≤ EPROM_WaitUntilReady_loop p fuel cnt := by
  intro fuel
  induction fuel with
  | zero => intro cnt _ h; omega
  | succ fuel ih =>
    intro cnt hc hf
    unfold EPROM_WaitUntilReady_loop
    by_cases h : cnt < p
    · rw [if_pos h]
      by_cases h2 : cnt < EPROM_CNTTIMEOUT
      · rw [if_pos h2]
        exact ih (cnt + 1) (by omega) (by omega)
      · rw [if_neg h2]; omega
    · rw [if_neg h]; omega

theorem EPROM_WaitUntilReady_Raw_timeout (p : Nat) (hp : EPROM_CNTTIMEOUT ≤ p) :
    EPROM_WaitUntilReady_Raw p = ERRVAL_EPROM_WRTIMEOUT := by
  unfold EPROM_WaitUntilReady_Raw
  have h := EPROM_WaitUntilReady_loop_timeout p hp (EPROM_CNTTIMEOUT + 1) 0 (Nat.zero_le _)
    (by omega)
  simp only [ge_iff_le]
  rw [if_pos h]

theorem EPROM_WriteWords_loop_stop (bAddress : Nat) (prgVals : Nat → Nat) (cwVals : Int)
    (fuel i bResult : Nat) (dev : EPROM) (h : bResult ≠ 0) :
    EPROM_WriteWords_loop bAddress prgVals cwVals fuel i (bResult, dev) = (bResult, dev) := by
  cases fuel with
  | zero => rfl
  | succ fuel =>
    unfold EPROM_WriteWords_loop
    rw [if_neg (fun hc => h hc.2)]

/-- `CALIB_WriteAllCalibsToEPROM_Raw` when the first write cycle is not ready in time:
the write-timeout error. -/
theorem CALIB_WriteAllCalibsToEPROM_Raw_timeout (st : CalibState) (baseAddr : Nat)
    (h : EPROM_CNTTIMEOUT ≤ st.eprom.busy.headD 0) :
    (CALIB_WriteAllCalibsToEPROM_Raw st baseAddr).1 = ERRVAL_EPROM_WRTIMEOUT := by
  have hsz : ((sizeofCALIBDATA / 2 : Nat) : Int) = ((108 + 1 : Nat) : Int) := rfl
  have hw : EPROM_WaitUntilReady_Raw ((EPROM_WriteEnable st.eprom).busy.headD 0) =
      ERRVAL_EPROM_WRTIMEOUT := EPROM_WaitUntilReady_Raw_timeout _ h
  have hne : ERRVAL_EPROM_WRTIMEOUT ≠ 0 := by decide
  unfold CALIB_WriteAllCalibsToEPROM_Raw EPROM_WriteWords_Raw
  simp only [hsz, Int.toNat_ofNat]
  unfold EPROM_WriteWords_loop
  rw [if_pos ⟨by decide, rfl⟩]
  unfold EPROM_Write_Raw
  simp only [hw]
  rw [EPROM_WriteWords_loop_stop _ _ _ _ _ _ _ hne]

/-- The factory area of `epromFactoryValid` holds a valid record. -/
theorem epromFactoryValid_read :
    (CALIB_ReadAllCalibsFromEPROM_Raw epromFactoryValid ADR_EPROM_FACTCALIB).1 =
      ERRVAL_SUCCESS := by
  have hdev : calibStateZero.eprom.AllComplete := fun p hp => absurd hp (List.not_mem_nil p)
  have hwf : calibStateZero.calib.WellFormed :=
    fun _ _ => ⟨(by decide : (0 : Nat) < 2 ^ 32), (by decide : (0 : Nat) < 2 ^ 32)⟩
  obtain ⟨_, _, _, _, h5⟩ :=
    CALIB_WriteAllCalibsToEPROM_Raw_complete calibStateZero ADR_EPROM_FACTCALIB (by decide) hdev
  have hrd : ∀ i, i < 109 →
      EPROM_ReadWords epromFactoryValid ADR_EPROM_FACTCALIB i = calibStateZero.calib.seal.word i :=
    fun i hi => h5 i hi
  exact (CALIB_ReadAllCalibsFromEPROM_Raw_sealed calibStateZero.calib epromFactoryValid
    ADR_EPROM_FACTCALIB hwf hrd).1

/-- C14: on a chip whose factory record is valid and whose first write cycle is not
ready within the polling budget, the write of the user area fails with the write-timeout
error (`CALIB_WriteAllCalibsToEPROM_User` returns it), yet
`CALIB_RestoreAllCalibsFromEPROM_Factory` returns success. -/
theorem CALIB_RestoreAllCalibsFromEPROM_Factory_drops_write_error :
    (CALIB_ReadAllCalibsFromEPROM_Factory calibStateFactory).1 = ERRVAL_SUCCESS ∧
    (CALIB_WriteAllCalibsToEPROM_User
      (CALIB_ReadAllCalibsFromEPROM_Factory calibStateFactory).2).1 = ERRVAL_EPROM_WRTIMEOUT ∧
    (CALIB_RestoreAllCalibsFromEPROM_Factory calibStateFactory).1 = ERRVAL_SUCCESS := by
  have hfst : ∀ st : CalibState, (CALIB_ReadAllCalibsFromEPROM_Factory st).1 =
      (CALIB_ReadAllCalibsFromEPROM_Raw st.eprom ADR_EPROM_FACTCALIB).1 := fun _ => rfl
  have hdev : calibStateFactory.eprom = epromFactoryValid := rfl
  have hr : (CALIB_ReadAllCalibsFromEPROM_Factory calibStateFactory).1 = ERRVAL_SUCCESS := by
    rw [hfst, hdev]
    exact epromFactoryValid_read
  have hsnd : ∀ st : CalibState, (CALIB_ReadAllCalibsFromEPROM_Factory st).2.eprom =
      st.eprom := fun _ => rfl
  have he : (CALIB_ReadAllCalibsFromEPROM_Factory calibStateFactory).2.eprom.busy =
      [EPROM_CNTTIMEOUT] := by
    rw [hsnd, hdev]
    rfl
  have hbusy : EPROM_CNTTIMEOUT ≤
      (CALIB_ReadAllCalibsFromEPROM_Factory calibStateFactory).2.eprom.busy.headD 0 := by
    rw [he]
    exact Nat.le_refl _
  have hw := CALIB_WriteAllCalibsToEPROM_Raw_timeout
    (CALIB_ReadAllCalibsFromEPROM_Factory calibStateFactory).2 ADR_EPROM_CALIB hbusy
  have hne : ¬ (ERRVAL_EPROM_WRTIMEOUT = ERRVAL_SUCCESS) := by decide
  refine ⟨hr, ?_, ?_⟩
  · unfold CALIB_WriteAllCalibsToEPROM_User
    simp only [hw, hne, if_false]
  · unfold CALIB_RestoreAllCalibsFromEPROM_Factory
    simp only
    have hr0 : (CALIB_ReadAllCalibsFromEPROM_Factory calibStateFactory).1 = 0 := hr
    rw [if_pos hr0]
    simp only [hr]

/-- C15 (amended): whenever `CALIB_RestoreAllCalibsFromEPROM_Factory` fails (the factory
record has a bad magic number or a bad checksum), the storage chip, the user area
included, is unchanged and so is the partial-calibration table; the in-memory
coefficient record is the content read from the factory area. -/
theorem CALIB_RestoreAllCalibsFromEPROM_Factory_failure (st : CalibState)
    (hfail : (CALIB_RestoreAllCalibsFromEPROM_Factory st).1 ≠ ERRVAL_SUCCESS) :
    ((CALIB_RestoreAllCalibsFromEPROM_Factory st).1 = ERRVAL_EPROM_MAGICNO ∨
      (CALIB_RestoreAllCalibsFromEPROM_Factory st).1 = ERRVAL_EPROM_CRC) ∧
    (CALIB_RestoreAllCalibsFromEPROM_Factory st).2.eprom = st.eprom ∧
    (CALIB_RestoreAllCalibsFromEPROM_Factory st).2.partCalib = st.partCalib ∧
    (CALIB_RestoreAllCalibsFromEPROM_Factory st).2.calib =
      (CALIB_ReadAllCalibsFromEPROM_Raw st.eprom ADR_EPROM_FACTCALIB).2 := by
  unfold CALIB_RestoreAllCalibsFromEPROM_Factory at hfail ⊢
  simp only at hfail ⊢
  by_cases h0 : (CALIB_ReadAllCalibsFromEPROM_Factory st).1 = 0
  · rw [if_pos h0] at hfail
    exact absurd h0 hfail
  · rw [if_neg h0]
    refine ⟨?_, rfl, rfl, rfl⟩
    have hcases : ∀ (dev : EPROM) (b : Nat),
        (CALIB_ReadAllCalibsFromEPROM_Raw dev b).1 = ERRVAL_EPROM_MAGICNO ∨
        (CALIB_ReadAllCalibsFromEPROM_Raw dev b).1 = ERRVAL_EPROM_CRC ∨
        (CALIB_ReadAllCalibsFromEPROM_Raw dev b).1 = 0 := by
      intro dev b
      unfold CALIB_ReadAllCalibsFromEPROM_Raw
      simp only
      split
      · exact Or.inl rfl
      · split
        · exact Or.inr (Or.inl rfl)
        · exact Or.inr (Or.inr rfl)
    rcases hcases st.eprom ADR_EPROM_FACTCALIB with h | h | h
    · exact Or.inl h
    · exact Or.inr h
    · exact absurd h h0

/-- Witness of C15 (amended): the zeroed chip has no valid factory record. -/
theorem CALIB_RestoreAllCalibsFromEPROM_Factory_failure_witness :
    (CALIB_RestoreAllCalibsFromEPROM_Factory calibStateOne).1 ≠ ERRVAL_SUCCESS ∧
    (CALIB_RestoreAllCalibsFromEPROM_Factory calibStateOne).2.partCalib =
      calibStateOne.partCalib :=
  ⟨by decide, (CALIB_RestoreAllCalibsFromEPROM_Factory_failure calibStateOne (by decide)).2.2.1⟩

/-- C15 (as stated) fails: on the zeroed chip `CALIB_RestoreAllCalibsFromEPROM_Factory`
fails with the bad-magic error, and the in-memory coefficient of scale 0, `1.0f` before
the call, is afterwards the zero read from the factory area. -/
theorem CALIB_RestoreAllCalibsFromEPROM_Factory_overwrites_table :
    (CALIB_RestoreAllCalibsFromEPROM_Factory calibStateOne).1 = ERRVAL_EPROM_MAGICNO ∧
    calibStateOne.calib.Dmm 0 = ⟨0x3F800000, 0⟩ ∧
    (CALIB_RestoreAllCalibsFromEPROM_Factory calibStateOne).2.calib.Dmm 0 = ⟨0, 0⟩ := by
  decide

/-! ## Export of the calibration coefficients -/

/-- The user area of `epromUserValid` holds a valid record. -/
theorem epromUserValid_read :
    (CALIB_ReadAllCalibsFromEPROM_Raw epromUserValid ADR_EPROM_CALIB).1 = ERRVAL_SUCCESS := by
  have hdev : calibStateZero.eprom.AllComplete := fun p hp => absurd hp (List.not_mem_nil p)
  have hwf : calibStateZero.calib.WellFormed :=
    fun _ _ => ⟨(by decide : (0 : Nat) < 2 ^ 32), (by decide : (0 : Nat) < 2 ^ 32)⟩
  obtain ⟨_, _, _, _, h5⟩ :=
    CALIB_WriteAllCalibsToEPROM_Raw_complete calibStateZero ADR_EPROM_CALIB (by decide) hdev
  have hrd : ∀ i, i < 109 →
      EPROM_ReadWords epromUserValid ADR_EPROM_CALIB i = calibStateZero.calib.seal.word i :=
    fun i hi => h5 i hi
  exact (CALIB_ReadAllCalibsFromEPROM_Raw_sealed calibStateZero.calib epromUserValid
    ADR_EPROM_CALIB hwf hrd).1

/-- C16: `CALIB_ExportCalibs_User` and `CALIB_ExportCalibs_Factory` do not check the
scale index. Their result is that of reading the record, whatever the index (and the
board), so it is never the invalid-index error; and for the index 27 on a chip with a
valid user record the export succeeds with a line that starts with `27, `, rendered from
the bytes that lie at entry 27 of the record image. -/
theorem CALIB_ExportCalibs_no_index_check :
    (∀ (t : Target) (dev : EPROM) (idxScale : Nat) (beyond : Nat → Nat),
      (CALIB_ExportCalibs_User t dev idxScale beyond).1 =
        (CALIB_ReadAllCalibsFromEPROM_Raw dev ADR_EPROM_CALIB).1 ∧
      (CALIB_ExportCalibs_Factory t dev idxScale beyond).1 =
        (CALIB_ReadAllCalibsFromEPROM_Raw dev ADR_EPROM_FACTCALIB).1 ∧
      (CALIB_ExportCalibs_User t dev idxScale beyond).1 ≠ ERRVAL_DMM_IDXCONFIG ∧
      (CALIB_ExportCalibs_Factory t dev idxScale beyond).1 ≠ ERRVAL_DMM_IDXCONFIG) ∧
    DMM_ERR_CheckIdxCalib 27 = ERRVAL_DMM_IDXCONFIG ∧
    (∀ (t : Target) (beyond : Nat → Nat),
      (CALIB_ExportCalibs_User t epromUserValid 27 beyond).1 = ERRVAL_SUCCESS ∧
      (CALIB_ExportCalibs_User t epromUserValid 27 beyond).2.take 4 = ['2', '7', ',', ' ']) := by
  have h1 : ERRVAL_EPROM_MAGICNO ≠ ERRVAL_DMM_IDXCONFIG := by decide
  have h2 : ERRVAL_EPROM_CRC ≠ ERRVAL_DMM_IDXCONFIG := by decide
  have h3 : (0 : Nat) ≠ ERRVAL_DMM_IDXCONFIG := by decide
  have hcases : ∀ (dev : EPROM) (b : Nat),
      (CALIB_ReadAllCalibsFromEPROM_Raw dev b).1 ≠ ERRVAL_DMM_IDXCONFIG := by
    intro dev b
    unfold CALIB_ReadAllCalibsFromEPROM_Raw
    simp only
    split
    · exact h1
    · split
      · exact h2
      · exact h3
  have hU : ∀ (t : Target) (dev : EPROM) (idxScale : Nat) (beyond : Nat → Nat),
      (CALIB_ExportCalibs_User t dev idxScale beyond).1 =
        (CALIB_ReadAllCalibsFromEPROM_Raw dev ADR_EPROM_CALIB).1 := fun _ _ _ _ => rfl
  have hF : ∀ (t : Target) (dev : EPROM) (idxScale : Nat) (beyond : Nat → Nat),
      (CALIB_ExportCalibs_Factory t dev idxScale beyond).1 =
        (CALIB_ReadAllCalibsFromEPROM_Raw dev ADR_EPROM_FACTCALIB).1 := fun _ _ _ _ => rfl
  have hidx : DMM_ERR_CheckIdxCalib 27 = ERRVAL_DMM_IDXCONFIG := by
    unfold DMM_ERR_CheckIdxCalib DMM_CNTSCALES
    rw [if_neg (by omega)]
  have htxt : ∀ (t : Target) (dev : EPROM) (beyond : Nat → Nat),
      (CALIB_ExportCalibs_User t dev 27 beyond).2.take 4 = ['2', '7', ',', ' '] := by
    intro t dev beyond
    unfold CALIB_ExportCalibs_User CALIB_ExportCalibs_Raw
    simp only [List.append_assoc, List.cons_append, List.nil_append, List.take_succ_cons,
      List.take_zero]
  refine ⟨fun t dev idxScale beyond =>
      ⟨hU t dev idxScale beyond, hF t dev idxScale beyond, ?_, ?_⟩,
    hidx, fun t beyond => ⟨?_, htxt t _ beyond⟩⟩
  · rw [hU]
    exact hcases dev _
  · rw [hF]
    exact hcases dev _
  · rw [hU]
    exact epromUserValid_read

/-! ## Rendering of a value -/

theorem DMM_GetScaleUnit_eq_spec (s : DMMState) (idxScale : Int) (r : ℚ)
    (hidx : DMM_ERR_CheckIdxCalib idxScale = ERRVAL_SUCCESS)
    (hr : s.curCfg.range = Dbl.fin r)
    (hm : 1 ≤ s.curCfg.mode ∧ s.curCfg.mode ≤ 9) :
    DMM_GetScaleUnit s idxScale =
      (ERRVAL_SUCCESS, Dbl.fin (specFactor r), specPrefix r, specUnit s.curCfg.mode) := by
  have hu : (if s.curCfg.mode = DmmDCVoltage ∨ s.curCfg.mode = DmmACVoltage ∨
        s.curCfg.mode = DmmDiode then ['V']
      else if s.curCfg.mode = DmmDCCurrent ∨ s.curCfg.mode = DmmACCurrent ∨
        s.curCfg.mode = DmmDCLowCurrent ∨ s.curCfg.mode = DmmACLowCurrent then ['A']
      else if s.curCfg.mode = DmmResistance ∨ s.curCfg.mode = DmmContinuity then ['O', 'h', 'm']
      else []) = specUnit s.curCfg.mode := by
    unfold specUnit
    by_cases h1 : s.curCfg.mode = DmmDCVoltage ∨ s.curCfg.mode = DmmACVoltage ∨
        s.curCfg.mode = DmmDiode
    · rw [if_pos h1, if_pos h1]
    · rw [if_neg h1, if_neg h1]
      by_cases h2 : s.curCfg.mode = DmmDCCurrent ∨ s.curCfg.mode = DmmACCurrent ∨
        s.curCfg.mode = DmmDCLowCurrent ∨ s.curCfg.mode = DmmACLowCurrent
      · rw [if_pos h2, if_pos h2]
      · rw [if_neg h2, if_neg h2]
        have h3 : s.curCfg.mode = DmmResistance ∨ s.curCfg.mode = DmmContinuity := by
          unfold DmmDCVoltage DmmACVoltage DmmDiode at h1
          unfold DmmDCCurrent DmmACCurrent DmmDCLowCurrent DmmACLowCurrent at h2
          unfold DmmResistance DmmContinuity
          omega
        rw [if_pos h3]
  unfold DMM_GetScaleUnit
  simp only [hidx, if_true, hr, hu]
  unfold specFactor specPrefix
  simp only [Dbl.lt, Dbl.ge, Bool.and_eq_true, decide_eq_true_eq]
  by_cases h1 : r < 1e-3
  · simp only [h1, if_true]
  · simp only [h1, if_false]
    by_cases h2 : 1e-3 ≤ r ∧ r < 1
    · simp only [h2, and_self, if_true]
    · simp only [h2, if_false]
      by_cases h3 : 1 ≤ r ∧ r < 1e3
      · simp only [h3, and_self, if_true]
      · simp only [h3, if_false]
        by_cases h4 : 1e3 ≤ r ∧ r < 1e6
        · simp only [h4, and_self, if_true]
        · simp only [h4, if_false]

/-- Function `SPrintfDouble` with six digits renders a number that is not negative or is at
most -1, lies inside the range of `int`, and whose rounded product is a value of
`uint32_t`, as `specFixed6` describes it. -/
theorem SPrintfDouble_eq_spec (t : Target) (q : ℚ) (h : 0 ≤ q ∨ q ≤ -1)
    (hint : -(2 ^ (t.intBits - 1) : ℚ) ≤ q ∧ q < 2 ^ (t.intBits - 1))
    (hfr : 0 ≤ specFract6 t.rnd q ∧ specFract6 t.rnd q < 2 ^ 32) :
    (SPrintfDouble t (Dbl.fin q) 6).1 = specFixed6 t.rnd q := by
  have hrange := truncQ_range t.intBits q hint.1 hint.2
  have hip := Dbl_toInt_fin t q hrange
  unfold specFract6 at hfr
  unfold specFixed6 specFract6
  rcases h with h | h
  · have hnl : ¬ q < 0 := not_lt.mpr h
    have hfl : ¬ ⌊q⌋ < 0 := not_lt.mpr (Int.floor_nonneg.mpr h)
    rw [truncQ_nonneg q h] at hip
    simp only [hnl, if_false] at hfr ⊢
    rw [SPrintfDouble_fin t q ⌊q⌋ _ hip rfl, if_pos h, Dbl_toUInt32_fin t _ hfr.1 hfr.2]
    simp only [itoa, hfl, if_false, List.nil_append, List.append_assoc, List.singleton_append]
  · have hl : q < 0 := by linarith
    have hnl : ¬ 0 ≤ q := not_le.mpr hl
    rw [truncQ_neg q hl] at hip
    have h1 : 1 ≤ ⌊-q⌋ := by
      rw [Int.le_floor]
      push_cast
      linarith
    have hneg : -⌊-q⌋ < 0 := by omega
    have habs : (-⌊-q⌋).natAbs = ⌊-q⌋.toNat := by omega
    have hsub : (((-⌊-q⌋ : Int) : ℚ)) - q = -q - ⌊-q⌋ := by push_cast; ring
    simp only [hl, if_true] at hfr ⊢
    rw [SPrintfDouble_fin t q (-⌊-q⌋) _ hip rfl, if_neg hnl, hsub,
      Dbl_toUInt32_fin t _ hfr.1 hfr.2]
    simp only [itoa, hneg, if_true, habs, List.cons_append, List.nil_append,
      List.append_assoc, List.singleton_append]

theorem Dbl_gt_threshold (x : ℚ) :
    Dbl.gt (Dbl.fin x) (Dbl.ofInt DMM_DIODEOPENTHRESHOLD) = true ↔ 3 < x := by
  simp [Dbl.gt, Dbl.lt, Dbl.ofInt, DMM_DIODEOPENTHRESHOLD]

/-- Function `DMM_FormatValue` on a finite value, apart from the diode scale above 3: the text of
`SPrintfDouble` for the rounded product of the value and the factor, then the unit. -/
theorem DMM_FormatValue_number (t : Target) (s : DMMState) (v r : ℚ) (pString0 : List Char)
    (fUnit : Nat)
    (hidx : 0 ≤ s.idxCurrentScale ∧ s.idxCurrentScale ≤ 26)
    (hr : s.curCfg.range = Dbl.fin r)
    (hm : 1 ≤ s.curCfg.mode ∧ s.curCfg.mode ≤ 9)
    (hopen : ¬ (s.curCfg.mode = DmmDiode ∧ 3 < t.rnd (v * t.rnd (specFactor r)))) :
    DMM_FormatValue t s (Dbl.fin v) pString0 fUnit =
      (ERRVAL_SUCCESS, (SPrintfDouble t (Dbl.fin (t.rnd (v * t.rnd (specFactor r)))) 6).1 ++
        (if fUnit ≠ 0 then [' '] ++ specPrefix r ++ specUnit s.curCfg.mode else [])) := by
  have hidx1 := (DMM_ERR_CheckIdxCalib_eq_success s.idxCurrentScale).mpr hidx
  have hu := DMM_GetScaleUnit_eq_spec s s.idxCurrentScale r hidx1 hr hm
  have hno : ¬ (s.curCfg.mode = DmmDiode ∧
      Dbl.gt (Dbl.fin (t.rnd (v * t.rnd (specFactor r))))
        (Dbl.ofInt DMM_DIODEOPENTHRESHOLD) = true) := by
    rw [Dbl_gt_threshold]
    exact hopen
  unfold DMM_FormatValue
  simp only [hidx1, if_true, Dbl.eq, Bool.false_eq_true, if_false, hu, Dbl.mul, Dbl.round, hno]
  by_cases hf : fUnit = 0
  · simp [hf]
  · simp [hf]

theorem dmmcfg_entries (i : Nat) (hi : i < 27) :
    (∃ r : ℚ, (dmmcfg.getD i default).range = Dbl.fin r ∧ 0 < r) ∧
    1 ≤ (dmmcfg.getD i default).mode ∧ (dmmcfg.getD i default).mode ≤ 9 := by
  interval_cases i <;> exact ⟨⟨_, rfl, by norm_num⟩, by decide, by decide⟩

/-- C18 (amended): with a scale selected whose mode is one of the nine modes and whose
nominal range is the number `r`, `DMM_GetScaleUnit` gives the factor and prefix of the
class of `r` and the unit of the mode. For a finite value `v`, let `y` be the product of
`v` and the factor as the board rounds it. When `y` is not negative or at most -1, not
above 3 on the diode mode, inside the range of `int`, and the rounded product of its
fraction and 10^6 is a value of `uint32_t`, `DMM_FormatValue` succeeds with the text of
`y`: sign, integer part, point, and the six digits of the integer part of that rounded
product (the digits are cut from the product the board computes, they are not the
digits of the decimal expansion of `y` in general); then, when a unit is asked
for, a blank, the prefix and the unit. Each of the 27 table entries has a positive
finite range and one of the nine modes. -/
theorem DMM_FormatValue_finite (t : Target) (s : DMMState) (v r : ℚ) (pString0 : List Char)
    (fUnit : Nat)
    (hidx : 0 ≤ s.idxCurrentScale ∧ s.idxCurrentScale ≤ 26)
    (hr : s.curCfg.range = Dbl.fin r)
    (hm : 1 ≤ s.curCfg.mode ∧ s.curCfg.mode ≤ 9)
    (hopen : ¬ (s.curCfg.mode = DmmDiode ∧ 3 < t.rnd (v * t.rnd (specFactor r))))
    (hsign : 0 ≤ t.rnd (v * t.rnd (specFactor r)) ∨ t.rnd (v * t.rnd (specFactor r)) ≤ -1)
    (hint : -(2 ^ (t.intBits - 1) : ℚ) ≤ t.rnd (v * t.rnd (specFactor r)) ∧
      t.rnd (v * t.rnd (specFactor r)) < 2 ^ (t.intBits - 1))
    (hfr : 0 ≤ specFract6 t.rnd (t.rnd (v * t.rnd (specFactor r))) ∧
      specFract6 t.rnd (t.rnd (v * t.rnd (specFactor r))) < 2 ^ 32) :
    DMM_GetScaleUnit s s.idxCurrentScale =
      (ERRVAL_SUCCESS, Dbl.fin (specFactor r), specPrefix r, specUnit s.curCfg.mode) ∧
    DMM_FormatValue t s (Dbl.fin v) pString0 fUnit =
      (ERRVAL_SUCCESS, specFixed6 t.rnd (t.rnd (v * t.rnd (specFactor r))) ++
        (if fUnit ≠ 0 then [' '] ++ specPrefix r ++ specUnit s.curCfg.mode else [])) ∧
    (∀ i, i < 27 →
      (∃ r0 : ℚ, (dmmcfg.getD i default).range = Dbl.fin r0 ∧ 0 < r0) ∧
      1 ≤ (dmmcfg.getD i default).mode ∧ (dmmcfg.getD i default).mode ≤ 9) := by
  refine ⟨DMM_GetScaleUnit_eq_spec s s.idxCurrentScale r
    ((DMM_ERR_CheckIdxCalib_eq_success s.idxCurrentScale).mpr hidx) hr hm, ?_, dmmcfg_entries⟩
  rw [DMM_FormatValue_number t s v r pString0 fUnit hidx hr hm hopen,
    SPrintfDouble_eq_spec t _ hsign hint hfr]

/-- The rendering `specFixed6` of a number `q` of the `double` type between 0 and 1 whose
rounded product with 10^6 is `P`, with integer part `n`. -/
theorem specFixed6_small (rnd : ℚ → ℚ) (q P : ℚ) (n : Nat) (h0 : 0 ≤ q) (h1 : q < 1)
    (hq : rnd q = q) (hP : rnd (q * 1000000) = P) (hn : (n : ℚ) ≤ P ∧ P < n + 1) :
    specFract6 rnd q = P ∧
    specFixed6 rnd q = '0' :: '.' ::
      [Nat.digitChar (n / 100000 % 10), Nat.digitChar (n / 10000 % 10),
       Nat.digitChar (n / 1000 % 10), Nat.digitChar (n / 100 % 10),
       Nat.digitChar (n / 10 % 10), Nat.digitChar (n % 10)] := by
  have hfl : ⌊q⌋ = 0 := by
    rw [Int.floor_eq_iff]
    constructor
    · simpa using h0
    · simpa using h1
  have hfr : specFract6 rnd q = P := by
    unfold specFract6
    simp only [not_lt.mpr h0, if_false, hfl, Int.cast_zero, sub_zero, hq, hP]
  have hfP : ⌊P⌋ = (n : Int) := by
    rw [Int.floor_eq_iff]
    constructor
    · simpa using hn.1
    · simpa using hn.2
  have hd : Nat.toDigits 10 0 = ['0'] := by decide
  refine ⟨hfr, ?_⟩
  unfold specFixed6
  simp only [not_lt.mpr h0, if_false, hfl, hfr, hfP, Int.toNat_zero, Int.toNat_ofNat, hd,
    List.nil_append, List.cons_append]

/-- The binary64 number nearest to 0.3, its product with 10^6 as binary64 arithmetic
rounds it (300000, although the number lies below 0.3), and its rendering. -/
theorem dbl_0_3_rendering :
    roundNE 53 dbl_0_3 = dbl_0_3 ∧ roundNE 53 (dbl_0_3 * 1000000) = 300000 ∧
    dbl_0_3 * 1000000 < 300000 ∧
    specFract6 (roundNE 53) dbl_0_3 = 300000 ∧
    specFixed6 (roundNE 53) dbl_0_3 = "0.300000".toList := by
  have h1 : roundNE 53 dbl_0_3 = dbl_0_3 := by
    unfold dbl_0_3
    rw [roundNE_eval 53 _ (-54) 5404319552844595 (by norm_num) (by norm_num) (by norm_num)
      (by rw [abs_lt]; constructor <;> norm_num)]
    norm_num
  have h2 : roundNE 53 (dbl_0_3 * 1000000) = 300000 := by
    unfold dbl_0_3
    rw [roundNE_eval 53 _ (-34) 5153960755200000 (by norm_num) (by norm_num) (by norm_num)
      (by rw [abs_lt]; constructor <;> norm_num)]
    norm_num
  have h3 : dbl_0_3 * 1000000 < 300000 := by unfold dbl_0_3; norm_num
  obtain ⟨h4, h5⟩ := specFixed6_small (roundNE 53) dbl_0_3 300000 300000
    (by unfold dbl_0_3; norm_num) (by unfold dbl_0_3; norm_num) h1 h2 (by norm_num)
  refine ⟨h1, h2, h3, h4, ?_⟩
  rw [h5]
  decide

/-- The product of the binary64 number nearest to 0.3 and 1000 is rounded to 300 by
binary64 arithmetic (the real product lies below 300), and 300 is rendered with the
digits 000000. -/
theorem dbl_0_3_scaled :
    roundNE 53 1000 = 1000 ∧ dbl_0_3 * 1000 < 300 ∧ roundNE 53 (dbl_0_3 * 1000) = 300 ∧
    specFract6 (roundNE 53) 300 = 0 ∧
    specFixed6 (roundNE 53) 300 = "300.000000".toList := by
  have h1 : roundNE 53 1000 = 1000 := by
    rw [roundNE_eval 53 _ (-43) (1000 * 2 ^ 43) (by norm_num) (by norm_num) (by norm_num)
      (by rw [abs_lt]; constructor <;> norm_num)]
    norm_num
  have h2 : dbl_0_3 * 1000 < 300 := by unfold dbl_0_3; norm_num
  have h3 : roundNE 53 (dbl_0_3 * 1000) = 300 := by
    unfold dbl_0_3
    rw [roundNE_eval 53 _ (-44) (300 * 2 ^ 44) (by norm_num) (by norm_num) (by norm_num)
      (by rw [abs_lt]; constructor <;> norm_num)]
    norm_num
  have hfl : ⌊(300 : ℚ)⌋ = 300 := by
    rw [Int.floor_eq_iff]; constructor <;> norm_num
  have h4 : specFract6 (roundNE 53) 300 = 0 := by
    unfold specFract6
    simp only [show ¬ ((300 : ℚ) < 0) by norm_num, if_false, hfl]
    norm_num [roundNE_zero]
  refine ⟨h1, h2, h3, h4, ?_⟩
  unfold specFixed6
  simp only [show ¬ ((300 : ℚ) < 0) by norm_num, if_false, hfl, h4]
  norm_num
  decide

/-- Witness of C18 (amended), on the Arduino Due: the `double` nearest to 0.3 is rendered
as "0.300000 V" on the 5 V DC scale (factor 1) and as "300.000000 mV" on the 500 mV DC
scale (factor 1e3), the board rounding both products up to 300000 and to 300. -/
theorem DMM_FormatValue_finite_witness :
    ((0 ≤ scale8Selected.idxCurrentScale ∧ scale8Selected.idxCurrentScale ≤ 26) ∧
      scale8Selected.curCfg.range = Dbl.fin 5e0 ∧
      (targetDue (fun _ => 0)).rnd (dbl_0_3 * (targetDue (fun _ => 0)).rnd (specFactor 5e0)) =
        dbl_0_3 ∧
      specFract6 (targetDue (fun _ => 0)).rnd dbl_0_3 = 300000 ∧
      DMM_FormatValue (targetDue (fun _ => 0)) scale8Selected (Dbl.fin dbl_0_3) [] 1 =
        (ERRVAL_SUCCESS, "0.300000 V".toList)) ∧
    ((0 ≤ scale9Selected.idxCurrentScale ∧ scale9Selected.idxCurrentScale ≤ 26) ∧
      scale9Selected.curCfg.range = Dbl.fin 5e-1 ∧
      (targetDue (fun _ => 0)).rnd (dbl_0_3 * (targetDue (fun _ => 0)).rnd (specFactor 5e-1)) =
        300 ∧
      DMM_FormatValue (targetDue (fun _ => 0)) scale9Selected (Dbl.fin dbl_0_3) [] 1 =
        (ERRVAL_SUCCESS, "300.000000 mV".toList)) := by
  have hrnd : (targetDue (fun _ => 0)).rnd = roundNE 53 := rfl
  have hbits : (targetDue (fun _ => 0)).intBits = 32 := rfl
  have hun : specUnit DmmDCVoltage = ['V'] := by decide
  constructor
  · have hf : specFactor 5e0 = 1 := by unfold specFactor; norm_num
    have hp : specPrefix 5e0 = [] := by unfold specPrefix; norm_num
    have hmode : scale8Selected.curCfg.mode = DmmDCVoltage := by decide
    obtain ⟨r1, r2, _, r4, r5⟩ := dbl_0_3_rendering
    have hy : (targetDue (fun _ => 0)).rnd
        (dbl_0_3 * (targetDue (fun _ => 0)).rnd (specFactor 5e0)) = dbl_0_3 := by
      rw [hrnd, hf, roundNE_53_values.1, mul_one, r1]
    have hpos : (0 : ℚ) ≤ dbl_0_3 := by unfold dbl_0_3; norm_num
    have h := (DMM_FormatValue_finite (targetDue (fun _ => 0)) scale8Selected dbl_0_3 5e0 [] 1
      (by decide) rfl (by decide)
      (fun h => absurd (hmode ▸ h.1) (by decide))
      (Or.inl (by rw [hy]; exact hpos))
      (by rw [hy, hbits]; unfold dbl_0_3; constructor <;> norm_num)
      (by rw [hy, hrnd, r4]; constructor <;> norm_num)).2.1
    rw [hy, hrnd, r5, hp, hmode, hun] at h
    refine ⟨by decide, rfl, hy, by rw [hrnd]; exact r4, ?_⟩
    rw [h]
    decide
  · have hf : specFactor 5e-1 = 1000 := by unfold specFactor; norm_num
    have hp : specPrefix 5e-1 = ['m'] := by unfold specPrefix; norm_num
    have hmode : scale9Selected.curCfg.mode = DmmDCVoltage := by decide
    obtain ⟨s1, _, s3, s4, s5⟩ := dbl_0_3_scaled
    have hy : (targetDue (fun _ => 0)).rnd
        (dbl_0_3 * (targetDue (fun _ => 0)).rnd (specFactor 5e-1)) = 300 := by
      rw [hrnd, hf, s1, s3]
    have h := (DMM_FormatValue_finite (targetDue (fun _ => 0)) scale9Selected dbl_0_3 5e-1 [] 1
      (by decide) rfl (by decide)
      (fun h => absurd (hmode ▸ h.1) (by decide))
      (Or.inl (by rw [hy]; norm_num))
      (by rw [hy, hbits]; constructor <;> norm_num)
      (by rw [hy, hrnd, s4]; constructor <;> norm_num)).2.1
    rw [hy, hrnd, s5, hp, hmode, hun] at h
    refine ⟨by decide, rfl, hy, ?_⟩
    rw [h]
    decide

/-- C18 (as stated) fails: on the diode scale (nominal range 3.0, factor 1) the finite
value 3.5 is rendered as the text OPEN, not as the number 3.500000 with its unit. -/
theorem DMM_FormatValue_diode_finite_open :
    scale18Selected.curCfg.mode = DmmDiode ∧
    scale18Selected.curCfg.range = Dbl.fin 3.0 ∧
    DMM_FormatValue (targetDue (fun _ => 0)) scale18Selected (Dbl.fin 3.5) [] 1 =
      (ERRVAL_SUCCESS, "OPEN".toList) ∧
    DMM_FormatValue (targetAVR (fun _ => 0)) scale18Selected (Dbl.fin 3.5) [] 1 =
      (ERRVAL_SUCCESS, "OPEN".toList) ∧
    "OPEN".toList ≠ "3.500000 V".toList := by
  have hidx : DMM_ERR_CheckIdxCalib scale18Selected.idxCurrentScale = ERRVAL_SUCCESS := by decide
  have hm : scale18Selected.curCfg.mode = DmmDiode := by decide
  have hr : scale18Selected.curCfg.range = Dbl.fin 3.0 := rfl
  have hu := DMM_GetScaleUnit_eq_spec scale18Selected scale18Selected.idxCurrentScale 3.0 hidx hr
    (by decide)
  have hf : specFactor 3.0 = 1 := by unfold specFactor; norm_num
  have hopen : ∀ t : Target, t.rnd 1 = 1 → t.rnd (7 / 2) = 7 / 2 →
      DMM_FormatValue t scale18Selected (Dbl.fin 3.5) [] 1 =
        (ERRVAL_SUCCESS, "OPEN".toList) := by
    intro t h1 h7
    have hy : t.rnd (3.5 * t.rnd 1) = 7 / 2 := by
      rw [h1, show (3.5 : ℚ) * 1 = 7 / 2 by norm_num, h7]
    have hgt : Dbl.gt (Dbl.fin (t.rnd (3.5 * t.rnd 1))) (Dbl.ofInt DMM_DIODEOPENTHRESHOLD) =
        true := by
      rw [Dbl_gt_threshold, hy]; norm_num
    unfold DMM_FormatValue
    simp only [hidx, if_true, Dbl.eq, Bool.false_eq_true, if_false, hu, Dbl.mul, Dbl.round, hf,
      hm, hgt, and_self]
  exact ⟨hm, hr, hopen _ roundNE_53_values.1 roundNE_53_values.2.2.2,
    hopen _ roundNE_24_values.1 roundNE_24_values.2.2.2, by decide⟩

/-! ## Sentinel texts -/

theorem SPrintfDouble_digits_shape (n : Nat) (sInt : List Char) :
    ∃ F : List Char, F.length = 6 ∧ (∀ c ∈ F, c.isDigit = true) ∧
      sInt ++ ['.'] ++
        [Nat.digitChar (n / 100000 % 10), Nat.digitChar (n / 10000 % 10),
         Nat.digitChar (n / 1000 % 10), Nat.digitChar (n / 100 % 10),
         Nat.digitChar (n / 10 % 10), Nat.digitChar (n % 10)] = sInt ++ '.' :: F := by
  have hd : ∀ d : Nat, d < 10 → (Nat.digitChar d).isDigit = true := by decide
  refine ⟨[Nat.digitChar (n / 100000 % 10), Nat.digitChar (n / 10000 % 10),
         Nat.digitChar (n / 1000 % 10), Nat.digitChar (n / 100 % 10),
         Nat.digitChar (n / 10 % 10), Nat.digitChar (n % 10)], rfl, ?_, by simp⟩
  intro c hc
  simp only [List.mem_cons, List.mem_nil_iff, or_false] at hc
  rcases hc with h | h | h | h | h | h <;> rw [h] <;> exact hd _ (Nat.mod_lt _ (by decide))

theorem SPrintfDouble_shape (t : Target) (x : Dbl) :
    ∃ F : List Char, F.length = 6 ∧ (∀ c ∈ F, c.isDigit = true) ∧
      (SPrintfDouble t x 6).1 = itoa (Dbl.toInt t x) ++ '.' :: F := by
  unfold SPrintfDouble
  simp only [SPrintfDouble_digits]
  exact SPrintfDouble_digits_shape _ _

theorem DMM_FormatValue_inf (t : Target) (s : DMMState) (x : Dbl) (pString0 : List Char)
    (fUnit : Nat)
    (hidx : 0 ≤ s.idxCurrentScale ∧ s.idxCurrentScale ≤ 26)
    (hx : x = Dbl.pinf ∨ x = Dbl.ninf) :
    DMM_FormatValue t s x pString0 fUnit =
      if s.curCfg.mode = DmmDiode ∧ x = Dbl.pinf then (ERRVAL_SUCCESS, "OPEN".toList)
      else (ERRVAL_SUCCESS,
        if s.curCfg.mode = DmmContinuity then "OPEN".toList else "OVERLOAD".toList) := by
  have hidx1 := (DMM_ERR_CheckIdxCalib_eq_success s.idxCurrentScale).mpr hidx
  have h3 : Dbl.gt Dbl.pinf (Dbl.ofInt DMM_DIODEOPENTHRESHOLD) = true := rfl
  have h4 : Dbl.gt Dbl.ninf (Dbl.ofInt DMM_DIODEOPENTHRESHOLD) = false := rfl
  unfold DMM_FormatValue
  rcases hx with hx | hx <;> subst hx
  · simp only [hidx1, if_true, Dbl.eq, h3, and_true]
  · simp only [hidx1, if_true, Dbl.eq, Bool.false_eq_true, if_false, h4, and_false]
    simp

/-- C19: with a scale selected, on any board, `DMM_FormatValue` renders both infinities
as OPEN in continuity mode and as OVERLOAD in every mode that is neither continuity nor
diode; on the diode scale (mode diode, nominal range 3.0, factor 1) it renders `+∞` as
OPEN, every finite value whose product with the factor, as the board rounds it, is above
3 as OPEN, and every finite value whose rounded product is not above 3 as a number:
integer part, point, six digits, then the unit when asked for. On a board whose `double`
holds 1 this reads, for every value `v` of the type `double`: OPEN when `v` is above 3,
a number otherwise. In the table, scale 18 is the only diode scale, with range 3.0, and
scale 17 the only continuity scale. -/
theorem DMM_FormatValue_sentinels (t : Target) (s : DMMState) (pString0 : List Char)
    (fUnit : Nat)
    (hidx : 0 ≤ s.idxCurrentScale ∧ s.idxCurrentScale ≤ 26) :
    (s.curCfg.mode = DmmContinuity →
      DMM_FormatValue t s Dbl.pinf pString0 fUnit = (ERRVAL_SUCCESS, "OPEN".toList) ∧
      DMM_FormatValue t s Dbl.ninf pString0 fUnit = (ERRVAL_SUCCESS, "OPEN".toList)) ∧
    (s.curCfg.mode ≠ DmmContinuity → s.curCfg.mode ≠ DmmDiode →
      DMM_FormatValue t s Dbl.pinf pString0 fUnit = (ERRVAL_SUCCESS, "OVERLOAD".toList) ∧
      DMM_FormatValue t s Dbl.ninf pString0 fUnit = (ERRVAL_SUCCESS, "OVERLOAD".toList)) ∧
    (s.curCfg.mode = DmmDiode → s.curCfg.range = Dbl.fin 3.0 →
      DMM_FormatValue t s Dbl.pinf pString0 fUnit = (ERRVAL_SUCCESS, "OPEN".toList) ∧
      (∀ v : ℚ, 3 < t.rnd (v * t.rnd 1) →
        DMM_FormatValue t s (Dbl.fin v) pString0 fUnit = (ERRVAL_SUCCESS, "OPEN".toList)) ∧
      (∀ v : ℚ, t.rnd (v * t.rnd 1) ≤ 3 →
        ∃ F : List Char, F.length = 6 ∧ (∀ c ∈ F, c.isDigit = true) ∧
        DMM_FormatValue t s (Dbl.fin v) pString0 fUnit =
          (ERRVAL_SUCCESS, itoa (Dbl.toInt t (Dbl.fin (t.rnd (v * t.rnd 1)))) ++ '.' :: F ++
            (if fUnit ≠ 0 then " V".toList else []))) ∧
      (t.rnd 1 = 1 → ∀ v : ℚ, t.rnd v = v →
        (3 < v →
          DMM_FormatValue t s (Dbl.fin v) pString0 fUnit = (ERRVAL_SUCCESS, "OPEN".toList)) ∧
        (v ≤ 3 → ∃ F : List Char, F.length = 6 ∧ (∀ c ∈ F, c.isDigit = true) ∧
          DMM_FormatValue t s (Dbl.fin v) pString0 fUnit =
            (ERRVAL_SUCCESS, itoa (Dbl.toInt t (Dbl.fin v)) ++ '.' :: F ++
              (if fUnit ≠ 0 then " V".toList else []))))) ∧
    (∀ i, i < 27 → ((dmmcfg.getD i default).mode = DmmDiode ↔ i = 18) ∧
      ((dmmcfg.getD i default).mode = DmmContinuity ↔ i = 17)) ∧
    (dmmcfg.getD 18 default).range = Dbl.fin 3.0 := by
  have hcd : ¬ (DmmContinuity = DmmDiode) := by decide
  refine ⟨?_, ?_, ?_, by decide, rfl⟩
  · intro hm
    rw [DMM_FormatValue_inf t s _ pString0 fUnit hidx (Or.inl rfl),
      DMM_FormatValue_inf t s _ pString0 fUnit hidx (Or.inr rfl)]
    simp only [hm, hcd, false_and, if_false, if_true, and_self]
  · intro hc hd
    rw [DMM_FormatValue_inf t s _ pString0 fUnit hidx (Or.inl rfl),
      DMM_FormatValue_inf t s _ pString0 fUnit hidx (Or.inr rfl)]
    simp only [hc, hd, false_and, if_false, and_self]
  · intro hm hr
    have hidx1 := (DMM_ERR_CheckIdxCalib_eq_success s.idxCurrentScale).mpr hidx
    have hm9 : 1 ≤ s.curCfg.mode ∧ s.curCfg.mode ≤ 9 := by rw [hm]; decide
    have hu := DMM_GetScaleUnit_eq_spec s s.idxCurrentScale 3.0 hidx1 hr hm9
    have hf : specFactor 3.0 = 1 := by unfold specFactor; norm_num
    have hp : specPrefix 3.0 = [] := by unfold specPrefix; norm_num
    have hun : specUnit DmmDiode = ['V'] := by decide
    have hopen : ∀ v : ℚ, 3 < t.rnd (v * t.rnd 1) →
        DMM_FormatValue t s (Dbl.fin v) pString0 fUnit = (ERRVAL_SUCCESS, "OPEN".toList) := by
      intro v hv
      have hgt : Dbl.gt (Dbl.fin (t.rnd (v * t.rnd 1))) (Dbl.ofInt DMM_DIODEOPENTHRESHOLD) =
          true := by
        rw [Dbl_gt_threshold]; exact hv
      unfold DMM_FormatValue
      simp only [hidx1, if_true, Dbl.eq, Bool.false_eq_true, if_false, hu, Dbl.mul, Dbl.round,
        hf, hm, hgt, and_self]
    have hnum : ∀ v : ℚ, t.rnd (v * t.rnd 1) ≤ 3 →
        ∃ F : List Char, F.length = 6 ∧ (∀ c ∈ F, c.isDigit = true) ∧
        DMM_FormatValue t s (Dbl.fin v) pString0 fUnit =
          (ERRVAL_SUCCESS, itoa (Dbl.toInt t (Dbl.fin (t.rnd (v * t.rnd 1)))) ++ '.' :: F ++
            (if fUnit ≠ 0 then " V".toList else [])) := by
      intro v hv
      have hno : ¬ (s.curCfg.mode = DmmDiode ∧ 3 < t.rnd (v * t.rnd (specFactor 3.0))) := by
        rw [hf]; intro h; linarith [h.2]
      obtain ⟨F, hF1, hF2, hF3⟩ := SPrintfDouble_shape t (Dbl.fin (t.rnd (v * t.rnd 1)))
      refine ⟨F, hF1, hF2, ?_⟩
      rw [DMM_FormatValue_number t s v 3.0 pString0 fUnit hidx hr hm9 hno, hf, hF3, hp,
        hm, hun]
      by_cases h0 : fUnit = 0
      · simp [h0]
      · simp [h0]
    refine ⟨?_, hopen, hnum, ?_⟩
    · rw [DMM_FormatValue_inf t s _ pString0 fUnit hidx (Or.inl rfl)]
      simp only [hm, and_self, if_true]
    · intro h1 v hv
      have hy : t.rnd (v * t.rnd 1) = v := by rw [h1, mul_one, hv]
      constructor
      · intro h3
        exact hopen v (by rw [hy]; exact h3)
      · intro h3
        have := hnum v (by rw [hy]; exact h3)
        rw [hy] at this
        exact this

/-- Witness of C19: the diode scale selected, on the Arduino Due. -/
theorem DMM_FormatValue_sentinels_witness :
    (0 ≤ scale18Selected.idxCurrentScale ∧ scale18Selected.idxCurrentScale ≤ 26) ∧
    DMM_FormatValue (targetDue (fun _ => 0)) scale18Selected Dbl.pinf [] 1 =
      (ERRVAL_SUCCESS, "OPEN".toList) :=
  ⟨by decide,
   ((DMM_FormatValue_sentinels (targetDue (fun _ => 0)) scale18Selected [] 1
     (by decide)).2.2.1 (by decide) rfl).1⟩

/-! ## Parsing of a value -/

theorem Dbl_div_eq_mul (x : Dbl) (a b : ℚ) (ha : 0 < a) (hab : a * b = 1) :
    Dbl.div x (Dbl.fin a) = Dbl.mul x (Dbl.fin b) := by
  have hb : 0 < b := by
    by_contra h
    have : a * b ≤ 0 := mul_nonpos_of_nonneg_of_nonpos ha.le (not_lt.mp h)
    linarith
  have hb' : b = 1 / a := by field_simp; linarith
  cases x with
  | nan => rfl
  | pinf => simp [Dbl.div, Dbl.mul, Dbl.infOfSign, hb.ne', not_lt.mpr ha.le, not_lt.mpr hb.le]
  | ninf => simp [Dbl.div, Dbl.mul, Dbl.infOfSign, hb.ne', ha, hb]
  | fin q => simp [Dbl.div, Dbl.mul, ha.ne', hb']; ring

theorem trimTrailingBlanks_idem (p : List Char) :
    trimTrailingBlanks (trimTrailingBlanks p) = trimTrailingBlanks p := by
  unfold trimTrailingBlanks
  rw [List.reverse_reverse, List.dropWhile_idempotent]

theorem specUnit_cases (mode : Nat) :
    specUnit mode = ['V'] ∨ specUnit mode = ['A'] ∨ specUnit mode = ['O', 'h', 'm'] := by
  unfold specUnit
  split
  · exact Or.inl rfl
  · split
    · exact Or.inr (Or.inl rfl)
    · exact Or.inr (Or.inr rfl)

theorem specUnit_last (mode : Nat) (body : List Char) :
    ¬ ('0' ≤ (body ++ specUnit mode).getLastD ' ' ∧ (body ++ specUnit mode).getLastD ' ' ≤ '9') := by
  rcases specUnit_cases mode with h | h | h <;> rw [h]
  · have : (body ++ ['V']).getLastD ' ' = 'V' := by simp [List.getLastD_eq_getLast?]
    rw [this]; decide
  · have : (body ++ ['A']).getLastD ' ' = 'A' := by simp [List.getLastD_eq_getLast?]
    rw [this]; decide
  · have : (body ++ ['O', 'h', 'm']).getLastD ' ' = 'm' := by
      simp [List.getLastD_eq_getLast?, List.getLast?_append]
    rw [this]; decide

/-- C20: with a scale selected (one of the nine modes, nominal range `r`) and a text
that, without its trailing blanks, is neither OVERLOAD nor OPEN: when the text ends in a
character that is not a digit and does not end with the unit of the mode,
`DMM_InterpretValue` returns the wrong-unit error and writes no value; when the text is
`body` followed by the unit, the result is `atof` of the numeric text times the
multiplier selected by the last character of `body` (u: 1e-6, m: 1e-3, k: 1e3, M: 1e6,
else 1); when the text ends in a digit, the result is `atof` of the text divided by the
scale factor of the class of `r`. -/
theorem DMM_InterpretValue_units (atof : List Char → Dbl) (s : DMMState) (pString : List Char)
    (r : ℚ)
    (hidx : 0 ≤ s.idxCurrentScale ∧ s.idxCurrentScale ≤ 26)
    (hr : s.curCfg.range = Dbl.fin r)
    (hm : 1 ≤ s.curCfg.mode ∧ s.curCfg.mode ≤ 9)
    (hno : trimTrailingBlanks pString ≠ "OVERLOAD".toList ∧
      trimTrailingBlanks pString ≠ "OPEN".toList) :
    (¬ ('0' ≤ (trimTrailingBlanks pString).getLastD ' ' ∧
        (trimTrailingBlanks pString).getLastD ' ' ≤ '9') →
      ¬ (specUnit s.curCfg.mode <:+ trimTrailingBlanks pString) →
      DMM_InterpretValue atof s pString = (ERRVAL_CMD_VALWRONGUNIT, none)) ∧
    (∀ body : List Char, trimTrailingBlanks pString = body ++ specUnit s.curCfg.mode →
      DMM_InterpretValue atof s pString =
        (ERRVAL_SUCCESS, some (Dbl.mul (atof (specNumberText body))
          (Dbl.fin (specMultiplier (body.getLastD ' ')))))) ∧
    (('0' ≤ (trimTrailingBlanks pString).getLastD ' ' ∧
        (trimTrailingBlanks pString).getLastD ' ' ≤ '9') →
      DMM_InterpretValue atof s pString =
        (ERRVAL_SUCCESS, some (Dbl.div (atof (trimTrailingBlanks pString))
          (Dbl.fin (specFactor r))))) := by
  have hidx1 := (DMM_ERR_CheckIdxCalib_eq_success s.idxCurrentScale).mpr hidx
  have hu := DMM_GetScaleUnit_eq_spec s s.idxCurrentScale r hidx1 hr hm
  have hno1 : ¬ (trimTrailingBlanks pString = "OVERLOAD".toList ∨
      trimTrailingBlanks pString = "OPEN".toList) := fun h => h.elim hno.1 hno.2
  have hne : ¬ (ERRVAL_CMD_VALWRONGUNIT = ERRVAL_SUCCESS) := by decide
  refine ⟨?_, ?_, ?_⟩
  · intro hd hs
    have hdrop : ¬ ((trimTrailingBlanks pString).drop
        ((trimTrailingBlanks pString).length - (specUnit s.curCfg.mode).length) =
          specUnit s.curCfg.mode) := fun h => hs (List.suffix_iff_eq_drop.mpr h.symm)
    unfold DMM_InterpretValue
    simp only [hno1, if_false, hu, if_true, hd, not_false_eq_true, hdrop, hne]
  · intro body hb
    have hd := specUnit_last s.curCfg.mode body
    rw [← hb] at hd
    have hdrop : (trimTrailingBlanks pString).drop
        ((trimTrailingBlanks pString).length - (specUnit s.curCfg.mode).length) =
          specUnit s.curCfg.mode := by
      rw [hb]; simp
    have htake : (trimTrailingBlanks pString).take
        ((trimTrailingBlanks pString).length - (specUnit s.curCfg.mode).length) = body := by
      rw [hb]; simp
    unfold DMM_InterpretValue
    simp only [hno1, if_false, hu, if_true, hd, not_false_eq_true, hdrop, htake]
    unfold specNumberText specMultiplier
    by_cases h1 : body.getLastD ' ' = 'u'
    · simp only [h1, if_true, true_or]
      rw [Dbl_div_eq_mul _ 1e6 1e-6 (by norm_num) (by norm_num)]
    · by_cases h2 : body.getLastD ' ' = 'm'
      · simp only [h2, if_true, true_or, or_true, show ¬ ('m' = 'u') by decide, if_false]
        rw [Dbl_div_eq_mul _ 1e3 1e-3 (by norm_num) (by norm_num)]
      · by_cases h3 : body.getLastD ' ' = 'k'
        · simp only [h3, if_true, true_or, or_true, show ¬ ('k' = 'u') by decide,
            show ¬ ('k' = 'm') by decide, if_false]
          rw [Dbl_div_eq_mul _ 1e-3 1e3 (by norm_num) (by norm_num)]
        · by_cases h4 : body.getLastD ' ' = 'M'
          · simp only [h4, if_true, or_true, show ¬ ('M' = 'u') by decide,
              show ¬ ('M' = 'm') by decide, show ¬ ('M' = 'k') by decide, if_false]
            rw [Dbl_div_eq_mul _ 1e-6 1e6 (by norm_num) (by norm_num)]
          · simp only [h1, h2, h3, h4, if_false, or_self, if_true]
            rw [Dbl_div_eq_mul _ 1 1 (by norm_num) (by norm_num)]
  · intro hd
    unfold DMM_InterpretValue
    simp only [hno1, if_false, hu, if_true, hd, and_self, not_true_eq_false,
      trimTrailingBlanks_idem]

/-- Witness of C20: the text "0.500000 V" on the 5 V DC scale. -/
theorem DMM_InterpretValue_units_witness :
    (0 ≤ scale8Selected.idxCurrentScale ∧ scale8Selected.idxCurrentScale ≤ 26) ∧
    scale8Selected.curCfg.range = Dbl.fin 5e0 ∧
    DMM_InterpretValue (fun _ => Dbl.fin (1 / 2)) scale8Selected "0.500000 V".toList =
      (ERRVAL_SUCCESS, some (Dbl.mul
        ((fun _ => Dbl.fin (1 / 2)) (specNumberText "0.500000 ".toList))
        (Dbl.fin (specMultiplier ("0.500000 ".toList.getLastD ' '))))) :=
  ⟨by decide, rfl,
   (DMM_InterpretValue_units (fun _ => Dbl.fin (1 / 2)) scale8Selected "0.500000 V".toList 5e0
     (by decide) rfl (by decide) (by decide)).2.1 "0.500000 ".toList (by decide)⟩

/-! ## Import, save and export of one pair of coefficients -/

/-- For an index inside the table, `CALIB_ExportCalibs_Raw` renders the entry of the
record read from the chip. -/
theorem CALIB_ExportCalibs_Raw_entry (t : Target) (dev : EPROM) (baseAddr idxScale : Nat)
    (beyond : Nat → Nat) (hi : idxScale < 27)
    (hwf : (CALIB_ReadAllCalibsFromEPROM_Raw dev baseAddr).2.WellFormed) :
    CALIB_ExportCalibs_Raw t dev baseAddr idxScale beyond =
      ((CALIB_ReadAllCalibsFromEPROM_Raw dev baseAddr).1,
       [Char.ofNat (48 + idxScale / 10), Char.ofNat (48 + idxScale % 10), ',', ' ']
        ++ (SPrintfDouble t (f32ToDbl
          ((CALIB_ReadAllCalibsFromEPROM_Raw dev baseAddr).2.Dmm idxScale).Mult) 6).1
        ++ [',', ' ']
        ++ (SPrintfDouble t (f32ToDbl
          ((CALIB_ReadAllCalibsFromEPROM_Raw dev baseAddr).2.Dmm idxScale).Add) 6).1) := by
  unfold CALIB_ExportCalibs_Raw
  simp only
  rw [CALIBDATA_ofBytes_entry (CALIB_ReadAllCalibsFromEPROM_Raw dev baseAddr).2
    (fun k => if k < sizeofCALIBDATA then (CALIB_ReadAllCalibsFromEPROM_Raw dev baseAddr).2.byte k
      else beyond (k - sizeofCALIBDATA)) idxScale hi hwf (fun k hk => if_pos hk)]

/-- On a chip in which every write completes: `CALIB_ImportCalibCoefficients` of two
`float` patterns for a valid index, then `CALIB_WriteAllCalibsToEPROM_User`, then
`CALIB_ExportCalibs_User` for that index succeeds with the line made of the two digits of
the index and the two coefficients as `SPrintfDouble` renders them, separated by `, `. -/
theorem CALIB_Import_Write_Export_line (t : Target) (st : CalibState) (idx : Nat)
    (fMult fAdd : Nat)
    (beyond : Nat → Nat) (hi : idx < 27) (hM : fMult < 2 ^ 32) (hA : fAdd < 2 ^ 32)
    (hdev : st.eprom.AllComplete) (hwf : st.calib.WellFormed) :
    (CALIB_ImportCalibCoefficients st idx fMult fAdd).1 = ERRVAL_SUCCESS ∧
    CALIB_ExportCalibs_User t
      (CALIB_WriteAllCalibsToEPROM_User
        (CALIB_ImportCalibCoefficients st idx fMult fAdd).2).2.eprom idx beyond =
      (ERRVAL_SUCCESS,
       [Char.ofNat (48 + idx / 10), Char.ofNat (48 + idx % 10), ',', ' ']
        ++ (SPrintfDouble t (f32ToDbl fMult) 6).1 ++ [',', ' ']
        ++ (SPrintfDouble t (f32ToDbl fAdd) 6).1) := by
  have hidx : DMM_ERR_CheckIdxCalib (idx : Int) = ERRVAL_SUCCESS :=
    (DMM_ERR_CheckIdxCalib_eq_success _).mpr ⟨by omega, by omega⟩
  have himp : CALIB_ImportCalibCoefficients st idx fMult fAdd =
      (ERRVAL_SUCCESS, { st with
        calib := ⟨st.calib.magic,
          fun i => if i = idx then ⟨fMult, fAdd⟩ else st.calib.Dmm i, st.calib.crc⟩,
        partCalib := fun i =>
          if i = idx then { (st.partCalib i) with fCalibDirty := 1 } else st.partCalib i }) := by
    unfold CALIB_ImportCalibCoefficients
    simp only [hidx, if_true, Int.toNat_ofNat]
  rw [himp]
  refine ⟨rfl, ?_⟩
  simp only
  generalize hst1 : ({ st with
        calib := ⟨st.calib.magic,
          fun i => if i = idx then ⟨fMult, fAdd⟩ else st.calib.Dmm i, st.calib.crc⟩,
        partCalib := fun i =>
          if i = idx then { (st.partCalib i) with fCalibDirty := 1 } else st.partCalib i } :
        CalibState) = st1
  have hdev1 : st1.eprom.AllComplete := by rw [← hst1]; exact hdev
  have hent : st1.calib.Dmm idx = ⟨fMult, fAdd⟩ := by rw [← hst1]; simp
  have hwf1 : st1.calib.WellFormed := by
    rw [← hst1]
    intro i hi27
    by_cases h : i = idx
    · simp only [h, if_true]; exact ⟨hM, hA⟩
    · simp only [h, if_false]; exact hwf i hi27
  obtain ⟨hrd, _⟩ := CALIB_WriteAllCalibsToEPROM_User_complete st1 hdev1 hwf1
  obtain ⟨hok, hdmm⟩ := CALIB_ReadAllCalibsFromEPROM_Raw_sealed st1.calib
    (CALIB_WriteAllCalibsToEPROM_User st1).2.eprom ADR_EPROM_CALIB hwf1 hrd
  have hwf2 : (CALIB_ReadAllCalibsFromEPROM_Raw (CALIB_WriteAllCalibsToEPROM_User st1).2.eprom
      ADR_EPROM_CALIB).2.WellFormed := by
    intro i hi27
    rw [hdmm i hi27]
    exact hwf1 i hi27
  unfold CALIB_ExportCalibs_User
  rw [CALIB_ExportCalibs_Raw_entry _ _ _ _ _ hi hwf2, hok, hdmm idx hi, hent]

/-- Function `SPrintfDouble` with six digits on a number `q` of the `double` type between 0 and 1
whose rounded product with 10^6 is `P`, with integer part `n`. -/
theorem SPrintfDouble_small (t : Target) (q P : ℚ) (n : Nat) (h0 : 0 ≤ q) (h1 : q < 1)
    (hq : t.rnd q = q) (hP : t.rnd (q * 1000000) = P) (hn : (n : ℚ) ≤ P ∧ P < n + 1)
    (hn32 : n < 2 ^ 32) :
    (SPrintfDouble t (Dbl.fin q) 6).1 = '0' :: '.' ::
      [Nat.digitChar (n / 100000 % 10), Nat.digitChar (n / 10000 % 10),
       Nat.digitChar (n / 1000 % 10), Nat.digitChar (n / 100 % 10),
       Nat.digitChar (n / 10 % 10), Nat.digitChar (n % 10)] := by
  have hpos : (0 : Int) < 2 ^ (t.intBits - 1) := by positivity
  have hfl : ⌊q⌋ = 0 := by
    rw [Int.floor_eq_iff]
    constructor
    · simpa using h0
    · simpa using h1
  have htr : truncQ q = 0 := by rw [truncQ_nonneg q h0, hfl]
  have hip : Dbl.toInt t (Dbl.fin q) = 0 := by
    rw [Dbl_toInt_fin t q (by rw [htr]; omega), htr]
  have hfP : ⌊P⌋ = (n : Int) := by
    rw [Int.floor_eq_iff]
    constructor
    · simpa using hn.1
    · simpa using hn.2
  have hP0 : 0 ≤ P := le_trans (by positivity) hn.1
  have hP1 : P < 2 ^ 32 := by
    have : ((n : ℚ) + 1) ≤ 2 ^ 32 := by exact_mod_cast hn32
    linarith [hn.2]
  have hd : itoa 0 = ['0'] := by decide
  rw [SPrintfDouble_fin t q 0 n hip
    (by rw [if_pos h0, Int.cast_zero, sub_zero, hq, hP, Dbl_toUInt32_fin t P hP0 hP1, hfP,
      Int.toNat_ofNat]), hd]
  rfl

/-- The `float` nearest to 0.01 is the pattern `0x3C23D70A`, just below 0.01, and the
`float` nearest to 0.002 is `0x3B03126F`, just above 0.002. On the Arduino Due the
product of the first one and 10^6 is computed exactly, 9999.99977..., and
`SPrintfDouble` prints 0.009999; on an AVR board the product is rounded to 10000 and
`SPrintfDouble` prints 0.010000. The second one is printed as 0.002000 on both. -/
theorem SPrintfDouble_float_0_01 (intUndef : Dbl → Int) :
    (roundNE 24 (1 / 100) = 10737418 / 1073741824 ∧
      f32ToDbl 0x3C23D70A = Dbl.fin (10737418 / 1073741824)) ∧
    (roundNE 24 (2 / 1000) = 8589935 / 4294967296 ∧
      f32ToDbl 0x3B03126F = Dbl.fin (8589935 / 4294967296)) ∧
    (SPrintfDouble (targetDue intUndef) (f32ToDbl 0x3C23D70A) 6).1 = "0.009999".toList ∧
    (SPrintfDouble (targetDue intUndef) (f32ToDbl 0x3B03126F) 6).1 = "0.002000".toList ∧
    (SPrintfDouble (targetAVR intUndef) (f32ToDbl 0x3C23D70A) 6).1 = "0.010000".toList ∧
    (SPrintfDouble (targetAVR intUndef) (f32ToDbl 0x3B03126F) 6).1 = "0.002000".toList := by
  have h1 : f32ToDbl 0x3C23D70A = Dbl.fin (10737418 / 1073741824) := by
    simp [f32ToDbl]; norm_num
  have h2 : f32ToDbl 0x3B03126F = Dbl.fin (8589935 / 4294967296) := by
    simp [f32ToDbl]; norm_num
  have n1 : roundNE 24 (1 / 100) = 10737418 / 1073741824 := by
    rw [roundNE_eval 24 _ (-30) 10737418 (by norm_num) (by norm_num) (by norm_num)
      (by rw [abs_lt]; constructor <;> norm_num)]
    norm_num
  have n2 : roundNE 24 (2 / 1000) = 8589935 / 4294967296 := by
    rw [roundNE_eval 24 _ (-32) 8589935 (by norm_num) (by norm_num) (by norm_num)
      (by rw [abs_lt]; constructor <;> norm_num)]
    norm_num
  -- binary64: both numbers and both products are exact
  have a1 : roundNE 53 (10737418 / 1073741824) = 10737418 / 1073741824 := by
    rw [roundNE_eval 53 _ (-59) (10737418 * 2 ^ 29) (by norm_num) (by norm_num) (by norm_num)
      (by rw [abs_lt]; constructor <;> norm_num)]
    norm_num
  have a2 : roundNE 53 (10737418 / 1073741824 * 1000000) = 83886078125 / 8388608 := by
    rw [roundNE_eval 53 _ (-39) (83886078125 * 2 ^ 16) (by norm_num) (by norm_num)
      (by norm_num) (by rw [abs_lt]; constructor <;> norm_num)]
    norm_num
  have a3 : roundNE 53 (8589935 / 4294967296) = 8589935 / 4294967296 := by
    rw [roundNE_eval 53 _ (-61) (8589935 * 2 ^ 29) (by norm_num) (by norm_num) (by norm_num)
      (by rw [abs_lt]; constructor <;> norm_num)]
    norm_num
  have a4 : roundNE 53 (8589935 / 4294967296 * 1000000) = 134217734375 / 67108864 := by
    rw [roundNE_eval 53 _ (-42) (134217734375 * 2 ^ 16) (by norm_num) (by norm_num)
      (by norm_num) (by rw [abs_lt]; constructor <;> norm_num)]
    norm_num
  -- binary32: both numbers are exact, both products are rounded
  have b1 : roundNE 24 (10737418 / 1073741824) = 10737418 / 1073741824 := by
    rw [roundNE_eval 24 _ (-30) 10737418 (by norm_num) (by norm_num) (by norm_num)
      (by rw [abs_lt]; constructor <;> norm_num)]
    norm_num
  have b2 : roundNE 24 (10737418 / 1073741824 * 1000000) = 10000 := by
    rw [roundNE_eval 24 _ (-10) 10240000 (by norm_num) (by norm_num) (by norm_num)
      (by rw [abs_lt]; constructor <;> norm_num)]
    norm_num
  have b3 : roundNE 24 (8589935 / 4294967296) = 8589935 / 4294967296 := by
    rw [roundNE_eval 24 _ (-32) 8589935 (by norm_num) (by norm_num) (by norm_num)
      (by rw [abs_lt]; constructor <;> norm_num)]
    norm_num
  have b4 : roundNE 24 (8589935 / 4294967296 * 1000000) = 16384001 / 8192 := by
    rw [roundNE_eval 24 _ (-13) 16384001 (by norm_num) (by norm_num) (by norm_num)
      (by rw [abs_lt]; constructor <;> norm_num)]
    norm_num
  refine ⟨⟨n1, h1⟩, ⟨n2, h2⟩, ?_, ?_, ?_, ?_⟩
  · rw [h1, SPrintfDouble_small (targetDue intUndef) _ _ 9999 (by norm_num) (by norm_num) a1 a2
      (by norm_num) (by norm_num)]
    decide
  · rw [h2, SPrintfDouble_small (targetDue intUndef) _ _ 2000 (by norm_num) (by norm_num) a3 a4
      (by norm_num) (by norm_num)]
    decide
  · rw [h1, SPrintfDouble_small (targetAVR intUndef) _ _ 10000 (by norm_num) (by norm_num) b1 b2
      (by norm_num) (by norm_num)]
    decide
  · rw [h2, SPrintfDouble_small (targetAVR intUndef) _ _ 2000 (by norm_num) (by norm_num) b3 b4
      (by norm_num) (by norm_num)]
    decide

/-- C17 (amended): on a chip in which every write completes, for every index 0..26:
`CALIB_ImportCalibCoefficients` of the `float` values of 0.01 and 0.002, then
`CALIB_WriteAllCalibsToEPROM_User`, then `CALIB_ExportCalibs_User` for that index
succeeds with the line made of the two digits of the index and the two values with six
digits cut from the product the board computes: `0.010000, 0.002000` on an AVR board,
`0.009999, 0.002000` on the Arduino Due. -/
theorem CALIB_Import_Write_Export_roundtrip (st : CalibState) (idx : Nat)
    (beyond : Nat → Nat) (intUndef : Dbl → Int) (hi : idx < 27)
    (hdev : st.eprom.AllComplete) (hwf : st.calib.WellFormed) :
    (roundNE 24 (1 / 100) = 10737418 / 1073741824 ∧
      f32ToDbl 0x3C23D70A = Dbl.fin (10737418 / 1073741824)) ∧
    (roundNE 24 (2 / 1000) = 8589935 / 4294967296 ∧
      f32ToDbl 0x3B03126F = Dbl.fin (8589935 / 4294967296)) ∧
    (CALIB_ImportCalibCoefficients st idx 0x3C23D70A 0x3B03126F).1 = ERRVAL_SUCCESS ∧
    CALIB_ExportCalibs_User (targetAVR intUndef)
      (CALIB_WriteAllCalibsToEPROM_User
        (CALIB_ImportCalibCoefficients st idx 0x3C23D70A 0x3B03126F).2).2.eprom idx beyond =
      (ERRVAL_SUCCESS,
       [Char.ofNat (48 + idx / 10), Char.ofNat (48 + idx % 10)] ++
         ", 0.010000, 0.002000".toList) ∧
    CALIB_ExportCalibs_User (targetDue intUndef)
      (CALIB_WriteAllCalibsToEPROM_User
        (CALIB_ImportCalibCoefficients st idx 0x3C23D70A 0x3B03126F).2).2.eprom idx beyond =
      (ERRVAL_SUCCESS,
       [Char.ofNat (48 + idx / 10), Char.ofNat (48 + idx % 10)] ++
         ", 0.009999, 0.002000".toList) := by
  obtain ⟨f1, f2, d1, d2, v1, v2⟩ := SPrintfDouble_float_0_01 intUndef
  obtain ⟨hA1, hA2⟩ := CALIB_Import_Write_Export_line (targetAVR intUndef) st idx 0x3C23D70A
    0x3B03126F beyond hi (by norm_num) (by norm_num) hdev hwf
  obtain ⟨_, hD2⟩ := CALIB_Import_Write_Export_line (targetDue intUndef) st idx 0x3C23D70A
    0x3B03126F beyond hi (by norm_num) (by norm_num) hdev hwf
  refine ⟨f1, f2, hA1, ?_, ?_⟩
  · rw [hA2, v1, v2]
    rfl
  · rw [hD2, d1, d2]
    rfl

/-- Witness of C17 (amended): index 5 on the zeroed chip. -/
theorem CALIB_Import_Write_Export_roundtrip_witness :
    (5 < 27 ∧ calibStateZero.eprom.AllComplete ∧ calibStateZero.calib.WellFormed) ∧
    (CALIB_ExportCalibs_User (targetAVR (fun _ => 0))
      (CALIB_WriteAllCalibsToEPROM_User
        (CALIB_ImportCalibCoefficients calibStateZero ((5 : Nat) : Int) 0x3C23D70A
          0x3B03126F).2).2.eprom 5 (fun _ => 0)).2 = "05, 0.010000, 0.002000".toList :=
  have hdev : calibStateZero.eprom.AllComplete := fun p hp => absurd hp (List.not_mem_nil p)
  have hwf : calibStateZero.calib.WellFormed :=
    fun _ _ => ⟨(by decide : (0 : Nat) < 2 ^ 32), (by decide : (0 : Nat) < 2 ^ 32)⟩
  ⟨⟨by decide, hdev, hwf⟩,
   (congrArg Prod.snd (CALIB_Import_Write_Export_roundtrip calibStateZero 5 (fun _ => 0)
      (fun _ => 0) (by decide) hdev hwf).2.2.2.1).trans (by decide)⟩

/-- C17 (as stated) fails on the Arduino Due: for the index 5 on the zeroed chip the
exported line is `05, 0.009999, 0.002000`, not `05, 0.010000, 0.002000`. -/
theorem CALIB_Import_Write_Export_Due_line :
    CALIB_ExportCalibs_User (targetDue (fun _ => 0))
      (CALIB_WriteAllCalibsToEPROM_User
        (CALIB_ImportCalibCoefficients calibStateZero ((5 : Nat) : Int) 0x3C23D70A
          0x3B03126F).2).2.eprom 5 (fun _ => 0) =
      (ERRVAL_SUCCESS, "05, 0.009999, 0.002000".toList) ∧
    "05, 0.009999, 0.002000".toList ≠ "05, 0.010000, 0.002000".toList := by
  have hdev : calibStateZero.eprom.AllComplete := fun p hp => absurd hp (List.not_mem_nil p)
  have hwf : calibStateZero.calib.WellFormed :=
    fun _ _ => ⟨(by decide : (0 : Nat) < 2 ^ 32), (by decide : (0 : Nat) < 2 ^ 32)⟩
  obtain ⟨_, _, d1, d2, _, _⟩ := SPrintfDouble_float_0_01 (fun _ => 0)
  obtain ⟨_, hD2⟩ := CALIB_Import_Write_Export_line (targetDue (fun _ => 0)) calibStateZero 5
    0x3C23D70A 0x3B03126F (fun _ => 0) (by decide) (by norm_num) (by norm_num) hdev hwf
  refine ⟨?_, by decide⟩
  rw [hD2, d1, d2]
  rfl

/-! ## Parsing without a selected scale -/

/-- C21: at program start (current index -1, no valid scale) `DMM_InterpretValue`
returns success and the value `+∞` for the texts OVERLOAD and OPEN: they are recognised
before the scale is looked at. For every other text, without a valid scale, it returns
the invalid-index error and writes no value; `DMM_FormatValue` of `+∞` in the same state
returns the invalid-index error. -/
theorem DMM_InterpretValue_sentinel_without_scale (atof : List Char → Dbl) :
    DMM_ERR_CheckIdxCalib DMMState.init.idxCurrentScale = ERRVAL_DMM_IDXCONFIG ∧
    DMM_InterpretValue atof DMMState.init "OVERLOAD".toList =
      (ERRVAL_SUCCESS, some Dbl.pinf) ∧
    DMM_InterpretValue atof DMMState.init "OPEN".toList = (ERRVAL_SUCCESS, some Dbl.pinf) ∧
    (∀ (s : DMMState) (pString : List Char),
      ¬ (0 ≤ s.idxCurrentScale ∧ s.idxCurrentScale ≤ 26) →
      trimTrailingBlanks pString ≠ "OVERLOAD".toList →
      trimTrailingBlanks pString ≠ "OPEN".toList →
      DMM_InterpretValue atof s pString = (ERRVAL_DMM_IDXCONFIG, none)) ∧
    (∀ (t : Target) (pString0 : List Char) (fUnit : Nat),
      DMM_FormatValue t DMMState.init Dbl.pinf pString0 fUnit =
        (ERRVAL_DMM_IDXCONFIG, pString0)) := by
  have h1 : trimTrailingBlanks "OVERLOAD".toList = "OVERLOAD".toList := by decide
  have h2 : trimTrailingBlanks "OPEN".toList = "OPEN".toList := by decide
  have hi : DMM_ERR_CheckIdxCalib DMMState.init.idxCurrentScale = ERRVAL_DMM_IDXCONFIG := by
    decide
  have hne : ¬ (ERRVAL_DMM_IDXCONFIG = ERRVAL_SUCCESS) := by decide
  refine ⟨hi, ?_, ?_, ?_, ?_⟩
  · unfold DMM_InterpretValue
    simp only [h1, true_or, if_true]
  · unfold DMM_InterpretValue
    simp only [h2, or_true, if_true]
  · intro s pString hidx hov hop
    have hbad : DMM_ERR_CheckIdxCalib s.idxCurrentScale = ERRVAL_DMM_IDXCONFIG := by
      have := (DMM_ERR_CheckIdxCalib_eq_success s.idxCurrentScale).not.mpr hidx
      unfold DMM_ERR_CheckIdxCalib at this ⊢
      split
      · rename_i h; rw [if_pos h] at this; exact absurd rfl this
      · rfl
    unfold DMM_InterpretValue DMM_GetScaleUnit
    simp only [hov, hop, or_self, if_false, hbad, hne]
  · intro t pString0 fUnit
    unfold DMM_FormatValue
    simp only [hi, hne, if_false]

/-! ## Calibration measurements that fail -/

theorem CALIB_MeasureForCalib_fail (sq : ℚ → ℚ) (dmm : DMMState) (samples : Nat → Dbl × Nat)
    (cbSamples : Int)
    (h : (CALIB_MeasureForCalib sq dmm samples cbSamples).1 ≠ ERRVAL_SUCCESS) :
    (CALIB_MeasureForCalib sq dmm samples cbSamples).2.1 = Dbl.nan ∧
    (CALIB_MeasureForCalib sq dmm samples cbSamples).2.2.2 = none := by
  unfold CALIB_MeasureForCalib at h ⊢
  simp only at h ⊢
  split
  · rename_i h1
    rw [if_pos h1] at h
    split
    · rename_i h2
      rw [if_pos h2] at h
      exact absurd h2 h
    · exact ⟨rfl, rfl⟩
  · exact ⟨rfl, rfl⟩

/-- C22 (amended): whenever `CALIB_MeasureForCalibZeroVal`,
`CALIB_MeasureForCalibPositiveVal` or `CALIB_MeasureForCalibNegativeVal` fails, the
measured value reported to the caller is NaN and the module state is unchanged: every
partial-calibration field keeps the value it had before the call (NaN if it was absent,
an earlier measurement otherwise), and the failed reading is not stored. -/
theorem CALIB_MeasureForCalib_failure_keeps_fields (sq : ℚ → ℚ) (dmm : DMMState)
    (st : CalibState) (samples : Nat → Dbl × Nat) :
    ((CALIB_MeasureForCalibZeroVal sq dmm st samples).1 ≠ ERRVAL_SUCCESS →
      (CALIB_MeasureForCalibZeroVal sq dmm st samples).2.1 = Dbl.nan ∧
      (CALIB_MeasureForCalibZeroVal sq dmm st samples).2.2.2 = st) ∧
    ((CALIB_MeasureForCalibPositiveVal sq dmm st samples).1 ≠ ERRVAL_SUCCESS →
      (CALIB_MeasureForCalibPositiveVal sq dmm st samples).2.1 = Dbl.nan ∧
      (CALIB_MeasureForCalibPositiveVal sq dmm st samples).2.2.2 = st) ∧
    ((CALIB_MeasureForCalibNegativeVal sq dmm st samples).1 ≠ ERRVAL_SUCCESS →
      (CALIB_MeasureForCalibNegativeVal sq dmm st samples).2.1 = Dbl.nan ∧
      (CALIB_MeasureForCalibNegativeVal sq dmm st samples).2.2.2 = st) := by
  refine ⟨?_, ?_, ?_⟩
  · intro h
    have h1 : (CALIB_MeasureForCalib sq dmm samples MEASURE_CNT_AVG).1 ≠ ERRVAL_SUCCESS := by
      unfold CALIB_MeasureForCalibZeroVal at h
      simp only at h
      split at h <;> exact h
    obtain ⟨hv, hn⟩ := CALIB_MeasureForCalib_fail sq dmm samples _ h1
    unfold CALIB_MeasureForCalibZeroVal
    simp only [hn, hv, and_self]
  · intro h
    have h1 : (CALIB_MeasureForCalib sq dmm samples MEASURE_CNT_AVG).1 ≠ ERRVAL_SUCCESS := by
      unfold CALIB_MeasureForCalibPositiveVal at h
      simp only at h
      split at h <;> exact h
    obtain ⟨hv, hn⟩ := CALIB_MeasureForCalib_fail sq dmm samples _ h1
    unfold CALIB_MeasureForCalibPositiveVal
    simp only [hn, hv, and_self]
  · intro h
    have h1 : (CALIB_MeasureForCalib sq dmm samples 20).1 ≠ ERRVAL_SUCCESS := by
      unfold CALIB_MeasureForCalibNegativeVal at h
      simp only at h
      split at h <;> exact h
    obtain ⟨hv, hn⟩ := CALIB_MeasureForCalib_fail sq dmm samples _ h1
    unfold CALIB_MeasureForCalibNegativeVal
    simp only [hn, hv, and_self]

theorem DMM_DGetAvgValue_loop_stopped (term : Dbl → Dbl) (samples : Nat → Dbl × Nat)
    (cbSamples : Int) (fuel i : Nat) (dValAvg : Dbl) (bErr : Nat) :
    DMM_DGetAvgValue_loop term samples cbSamples fuel i (false, dValAvg, bErr) =
      (false, dValAvg, bErr) := by
  cases fuel with
  | zero => rfl
  | succ n =>
    unfold DMM_DGetAvgValue_loop
    rw [if_neg (fun h => Bool.false_ne_true h.2)]

theorem CALIB_MeasureForCalib_timeout (sq : ℚ → ℚ) :
    CALIB_MeasureForCalib sq scale8Selected samplesTimeout 20 =
      (ERRVAL_DMM_VALIDDATATIMEOUT, Dbl.nan,
        DMM_SetUseCalib (DMM_SetUseCalib scale8Selected 0) 1, none) := by
  have hidx : DMM_ERR_CheckIdxCalib (DMM_GetCurrentScale scale8Selected) = ERRVAL_SUCCESS := by
    decide
  have hidx0 : DMM_ERR_CheckIdxCalib (DMM_GetCurrentScale (DMM_SetUseCalib scale8Selected 0)) =
      ERRVAL_SUCCESS := by decide
  have hac : DMM_FACScale (DMM_SetUseCalib scale8Selected 0)
      (DMM_GetCurrentScale (DMM_SetUseCalib scale8Selected 0)) = false := by decide
  have hloop : DMM_DGetAvgValue_loop id samplesTimeout 20 ((20 : Int).toNat) 0
      (true, Dbl.fin 0, ERRVAL_SUCCESS) = (false, Dbl.fin 0, ERRVAL_DMM_VALIDDATATIMEOUT) := by
    have h20 : (20 : Int).toNat = 19 + 1 := rfl
    rw [h20]
    unfold DMM_DGetAvgValue_loop
    have hv : DMM_DGetAvgValue_valid (samplesTimeout 0).1 (samplesTimeout 0).2 = false := by
      decide
    simp only [hv, Bool.false_eq_true, if_false]
    rw [if_pos ⟨by decide, trivial⟩]
    exact DMM_DGetAvgValue_loop_stopped _ _ _ _ _ _ _
  have hne : ERRVAL_DMM_VALIDDATATIMEOUT ≠ ERRVAL_SUCCESS := by decide
  have havg : DMM_DGetAvgValue sq (DMM_SetUseCalib scale8Selected 0) samplesTimeout 20 =
      (Dbl.nan, ERRVAL_DMM_VALIDDATATIMEOUT) := by
    unfold DMM_DGetAvgValue
    simp only [hidx0, if_true, hac, Bool.false_eq_true, if_false, hloop, false_and, hne,
      ne_eq, not_false_eq_true]
  unfold CALIB_MeasureForCalib
  simp only [hidx, if_true, havg, hne, if_false]

/-- C22 (as stated) fails: with the 5 V DC scale selected and the zero measurement 1.0
already stored for it, a call of `CALIB_MeasureForCalibZeroVal` that fails with the
measurement-timeout error reports NaN and leaves the field `Calib_Ms_Zero` at 1.0, which
is not NaN. -/
theorem CALIB_MeasureForCalibZeroVal_timeout_keeps_old_value :
    (calibStateZeroMeasured.partCalib 8).Calib_Ms_Zero = Dbl.fin 1 ∧
    (CALIB_MeasureForCalibZeroVal sqExample scale8Selected calibStateZeroMeasured
      samplesTimeout).1 = ERRVAL_DMM_VALIDDATATIMEOUT ∧
    (CALIB_MeasureForCalibZeroVal sqExample scale8Selected calibStateZeroMeasured
      samplesTimeout).2.1 = Dbl.nan ∧
    (((CALIB_MeasureForCalibZeroVal sqExample scale8Selected calibStateZeroMeasured
      samplesTimeout).2.2.2.partCalib 8).Calib_Ms_Zero = Dbl.fin 1) ∧
    Dbl.fin 1 ≠ Dbl.nan := by
  have hm := CALIB_MeasureForCalib_timeout sqExample
  have h20 : MEASURE_CNT_AVG = 20 := rfl
  unfold CALIB_MeasureForCalibZeroVal
  rw [h20, hm]
  exact ⟨rfl, rfl, rfl, rfl, by decide⟩

/-! ## Reading the converter: the value of a snapshot -/

/-- Function `DMM_DGetStatus` on a scale that is not an AC scale. -/
theorem DMM_DGetStatus_AD1 (sq : ℚ → ℚ) (rms32 : Bool) (s : DMMState) (calib : CALIBDATA)
    (dmmsts : DMMSTS)
    (hidx : 0 ≤ s.idxCurrentScale ∧ s.idxCurrentScale ≤ 26)
    (hnac : DMM_FACScale s s.idxCurrentScale = false) :
    DMM_DGetStatus sq rms32 s calib dmmsts =
      (if dmmsts.intf &&& 0x04 ≠ 0 then
        if DMM_vad1 dmmsts ≥ 0x7FFFFE then Dbl.pinf
        else if DMM_vad1 dmmsts ≤ -0x7FFFFE then Dbl.ninf
        else if s.fUseCalib ≠ 0 then
          Dbl.add (Dbl.mul (Dbl.mul s.curCfg.mul (Dbl.ofInt (DMM_vad1 dmmsts)))
            (Dbl.add (Dbl.fin 1) (f32ToDbl (calib.Dmm s.idxCurrentScale.toNat).Mult)))
            (f32ToDbl (calib.Dmm s.idxCurrentScale.toNat).Add)
        else Dbl.mul s.curCfg.mul (Dbl.ofInt (DMM_vad1 dmmsts))
       else Dbl.nan, ERRVAL_SUCCESS) := by
  have hidx1 := (DMM_ERR_CheckIdxCalib_eq_success s.idxCurrentScale).mpr hidx
  unfold DMM_DGetStatus
  simp only [hidx1, ne_eq, not_true_eq_false, if_false, hnac, Bool.false_eq_true]

theorem DMM_vrms_wide (dmmsts : DMMSTS) :
    DMM_vrms false dmmsts =
      ((dmmsts.rms 0 % 256 + dmmsts.rms 1 % 256 * 2 ^ 8 + dmmsts.rms 2 % 256 * 2 ^ 16 +
        dmmsts.rms 3 % 256 * 2 ^ 24 + dmmsts.rms 4 % 256 * 2 ^ 32 : Nat) : Int) := by
  unfold DMM_vrms
  have h : List.range 5 = [0, 1, 2, 3, 4] := by decide
  simp only [h, List.foldl, Bool.false_eq_true, if_false, show (4 - 0 : Nat) = 4 from rfl,
    show (4 - 1 : Nat) = 3 from rfl, show (4 - 2 : Nat) = 2 from rfl,
    show (4 - 3 : Nat) = 1 from rfl, show (4 - 4 : Nat) = 0 from rfl]
  congr 1
  ring

theorem DMM_vrms_narrow (dmmsts : DMMSTS) :
    DMM_vrms true dmmsts =
      ((dmmsts.rms 1 % 256 + dmmsts.rms 2 % 256 * 2 ^ 8 + dmmsts.rms 3 % 256 * 2 ^ 16 +
        dmmsts.rms 4 % 256 * 2 ^ 24 : Nat) : Int) := by
  have h0 : dmmsts.rms 0 % 256 < 256 := Nat.mod_lt _ (by decide)
  unfold DMM_vrms
  have h : List.range 5 = [0, 1, 2, 3, 4] := by decide
  simp only [h, List.foldl, if_true, show (4 - 0 : Nat) = 4 from rfl,
    show (4 - 1 : Nat) = 3 from rfl, show (4 - 2 : Nat) = 2 from rfl,
    show (4 - 3 : Nat) = 1 from rfl, show (4 - 4 : Nat) = 0 from rfl]
  congr 1
  omega

/-- C27 (amended): in the wide mode the RMS value used by `DMM_DGetStatus` is the full
40-bit unsigned value `rms[0] + rms[1]*2^8 + rms[2]*2^16 + rms[3]*2^24 + rms[4]*2^32`;
in the narrow mode it is that accumulator shifted right by 8 bits, that is without its
lowest (least significant) byte: `rms[1] + rms[2]*2^8 + rms[3]*2^16 + rms[4]*2^24`. On
an AC scale with the conversion-done flag set and calibration disabled the result is
`mul * sqrt(rms)` in the wide mode and `16 * (mul * sqrt(rms))` in the narrow one. -/
theorem DMM_vrms_modes (sq : ℚ → ℚ) (s : DMMState) (calib : CALIBDATA) (dmmsts : DMMSTS) :
    DMM_vrms false dmmsts =
      ((dmmsts.rms 0 % 256 + dmmsts.rms 1 % 256 * 2 ^ 8 + dmmsts.rms 2 % 256 * 2 ^ 16 +
        dmmsts.rms 3 % 256 * 2 ^ 24 + dmmsts.rms 4 % 256 * 2 ^ 32 : Nat) : Int) ∧
    DMM_vrms true dmmsts =
      ((dmmsts.rms 1 % 256 + dmmsts.rms 2 % 256 * 2 ^ 8 + dmmsts.rms 3 % 256 * 2 ^ 16 +
        dmmsts.rms 4 % 256 * 2 ^ 24 : Nat) : Int) ∧
    DMM_vrms true dmmsts = DMM_vrms false dmmsts / 256 ∧
    (0 ≤ s.idxCurrentScale ∧ s.idxCurrentScale ≤ 26 →
      DMM_FACScale s s.idxCurrentScale = true → dmmsts.intf &&& 0x10 ≠ 0 → s.fUseCalib = 0 →
      DMM_DGetStatus sq false s calib dmmsts =
        (Dbl.mul s.curCfg.mul (Dbl.sqrt sq (Dbl.ofInt (DMM_vrms false dmmsts))),
          ERRVAL_SUCCESS) ∧
      DMM_DGetStatus sq true s calib dmmsts =
        (Dbl.mul (Dbl.fin 16)
          (Dbl.mul s.curCfg.mul (Dbl.sqrt sq (Dbl.ofInt (DMM_vrms true dmmsts)))),
          ERRVAL_SUCCESS)) := by
  refine ⟨DMM_vrms_wide dmmsts, DMM_vrms_narrow dmmsts, ?_, ?_⟩
  · rw [DMM_vrms_wide, DMM_vrms_narrow]
    have h0 : dmmsts.rms 0 % 256 < 256 := Nat.mod_lt _ (by decide)
    omega
  · intro hidx hac hf hu
    have hidx1 := (DMM_ERR_CheckIdxCalib_eq_success s.idxCurrentScale).mpr hidx
    unfold DMM_DGetStatus
    simp only [hidx1, ne_eq, not_true_eq_false, if_false, hac, if_true, hf, not_false_eq_true,
      hu, Bool.false_eq_true, and_self]

/-- C27 (as stated) fails: for the accumulator `2^32 + 1` (lowest and highest byte 1)
the narrow mode uses `2^24`: the highest byte is kept and the lowest one dropped; the
accumulator with its top byte ignored would be 1. -/
theorem DMM_vrms_narrow_keeps_top_byte :
    DMM_vrms false dmmstsRmsEnds = 2 ^ 32 + 1 ∧
    DMM_vrms true dmmstsRmsEnds = 2 ^ 24 ∧
    ((2 : Int) ^ 32 + 1) % 2 ^ 32 = 1 ∧
    DMM_vrms true dmmstsRmsEnds ≠ (DMM_vrms false dmmstsRmsEnds) % 2 ^ 32 := by
  decide

/-! ## Over-range readings -/

theorem DMM_DGetValue_first_ready (sq : ℚ → ℚ) (rms32 : Bool) (s : DMMState)
    (calib : CALIBDATA) (sts : Nat → DMMSTS) (v : Dbl) (hv : v ≠ Dbl.nan)
    (h0 : DMM_DGetStatus sq rms32 s calib (sts 0) = (v, ERRVAL_SUCCESS)) :
    DMM_DGetValue sq rms32 s calib sts =
      some (if DMM_GetCurrentScale s = DMMVoltageDC50Scale then
        DMM_CompensateVoltage50DCLinear v else v, ERRVAL_SUCCESS, 1) := by
  have hn : DMM_IsNotANumber v = false := (DMM_IsNotANumber_eq_false v).mpr hv
  have hlt : ¬ ((0 : Nat) ≥ DMM_VALIDDATA_CNTTIMEOUT) := by decide
  unfold DMM_DGetValue DMM_DGetValue_loop
  simp only [h0, hn, Bool.false_eq_true, if_false, Nat.zero_add, hlt, and_false, true_and]

theorem DMM_CompensateVoltage50DCLinear_inf :
    DMM_CompensateVoltage50DCLinear Dbl.pinf = Dbl.nan ∧
    DMM_CompensateVoltage50DCLinear Dbl.ninf = Dbl.nan := by
  constructor <;>
  · simp [DMM_CompensateVoltage50DCLinear, DMM_IsNotANumber, Dbl.eq, Dbl.isNaN, Dbl.mul, Dbl.add,
      Dbl.infOfSign, DMM_Voltage50DCLinearCoeff_P3, DMM_Voltage50DCLinearCoeff_P1,
      DMM_Voltage50DCLinearCoeff_P0]
    norm_num

/-- C25: on the 50 V DC scale (index 7) a snapshot with the code `0x7FFFFF` makes
`DMM_DGetStatus` return `+∞`, and `DMM_DGetValue` returns NaN with success: the
compensation `DMM_CompensateVoltage50DCLinear` turns `+∞` into NaN (its cubic term is
`-∞`, its linear term `+∞`). The same holds for the code `-0x7FFFFF` and `-∞`. On the
5 V DC scale (index 8) the same snapshots give `+∞` and `-∞`. The text `DMM_FormatValue`
makes of NaN on the 50 V scale is not OVERLOAD, on any board. -/
theorem DMM_DGetValue_overrange_scale7 (sq : ℚ → ℚ) (rms32 : Bool) (calib : CALIBDATA)
    (t : Target) :
    DMM_vad1 dmmstsOverRange = 0x7FFFFF ∧ DMM_vad1 dmmstsUnderRange = -0x7FFFFF ∧
    DMM_DGetStatus sq rms32 scale7Selected calib dmmstsOverRange = (Dbl.pinf, ERRVAL_SUCCESS) ∧
    DMM_DGetStatus sq rms32 scale7Selected calib dmmstsUnderRange =
      (Dbl.ninf, ERRVAL_SUCCESS) ∧
    DMM_DGetValue sq rms32 scale7Selected calib (fun _ => dmmstsOverRange) =
      some (Dbl.nan, ERRVAL_SUCCESS, 1) ∧
    DMM_DGetValue sq rms32 scale7Selected calib (fun _ => dmmstsUnderRange) =
      some (Dbl.nan, ERRVAL_SUCCESS, 1) ∧
    DMM_DGetValue sq rms32 scale8Selected calib (fun _ => dmmstsOverRange) =
      some (Dbl.pinf, ERRVAL_SUCCESS, 1) ∧
    DMM_DGetValue sq rms32 scale8Selected calib (fun _ => dmmstsUnderRange) =
      some (Dbl.ninf, ERRVAL_SUCCESS, 1) ∧
    (DMM_FormatValue t scale7Selected Dbl.nan [] 1).2 ≠ "OVERLOAD".toList := by
  have hO : DMM_vad1 dmmstsOverRange = 0x7FFFFF := by decide
  have hU : DMM_vad1 dmmstsUnderRange = -0x7FFFFF := by decide
  have hfO : dmmstsOverRange.intf &&& 0x04 ≠ 0 := by decide
  have hfU : dmmstsUnderRange.intf &&& 0x04 ≠ 0 := by decide
  have h7O : DMM_DGetStatus sq rms32 scale7Selected calib dmmstsOverRange =
      (Dbl.pinf, ERRVAL_SUCCESS) := by
    rw [DMM_DGetStatus_AD1 sq rms32 scale7Selected calib _ (by decide) (by decide), if_pos hfO,
      hO, if_pos (by decide)]
  have h7U : DMM_DGetStatus sq rms32 scale7Selected calib dmmstsUnderRange =
      (Dbl.ninf, ERRVAL_SUCCESS) := by
    rw [DMM_DGetStatus_AD1 sq rms32 scale7Selected calib _ (by decide) (by decide), if_pos hfU,
      hU, if_neg (by decide), if_pos (by decide)]
  have h8O : DMM_DGetStatus sq rms32 scale8Selected calib dmmstsOverRange =
      (Dbl.pinf, ERRVAL_SUCCESS) := by
    rw [DMM_DGetStatus_AD1 sq rms32 scale8Selected calib _ (by decide) (by decide), if_pos hfO,
      hO, if_pos (by decide)]
  have h8U : DMM_DGetStatus sq rms32 scale8Selected calib dmmstsUnderRange =
      (Dbl.ninf, ERRVAL_SUCCESS) := by
    rw [DMM_DGetStatus_AD1 sq rms32 scale8Selected calib _ (by decide) (by decide), if_pos hfU,
      hU, if_neg (by decide), if_pos (by decide)]
  have hs7 : DMM_GetCurrentScale scale7Selected = DMMVoltageDC50Scale := by decide
  have hs8 : ¬ (DMM_GetCurrentScale scale8Selected = DMMVoltageDC50Scale) := by decide
  obtain ⟨hcp, hcn⟩ := DMM_CompensateVoltage50DCLinear_inf
  refine ⟨hO, hU, h7O, h7U, ?_, ?_, ?_, ?_, ?_⟩
  · rw [DMM_DGetValue_first_ready sq rms32 scale7Selected calib (fun _ => dmmstsOverRange)
      Dbl.pinf (by decide) h7O,
      if_pos hs7, hcp]
  · rw [DMM_DGetValue_first_ready sq rms32 scale7Selected calib (fun _ => dmmstsUnderRange)
      Dbl.ninf (by decide) h7U,
      if_pos hs7, hcn]
  · rw [DMM_DGetValue_first_ready sq rms32 scale8Selected calib (fun _ => dmmstsOverRange)
      Dbl.pinf (by decide) h8O,
      if_neg hs8]
  · rw [DMM_DGetValue_first_ready sq rms32 scale8Selected calib (fun _ => dmmstsUnderRange)
      Dbl.ninf (by decide) h8U,
      if_neg hs8]
  · have hidx : DMM_ERR_CheckIdxCalib scale7Selected.idxCurrentScale = ERRVAL_SUCCESS := by
      decide
    have hm : ¬ (scale7Selected.curCfg.mode = DmmDiode) := by decide
    obtain ⟨F, _, _, hF⟩ := SPrintfDouble_shape t Dbl.nan
    have hu := DMM_GetScaleUnit_eq_spec scale7Selected scale7Selected.idxCurrentScale 5e1 hidx rfl
      (by decide)
    have hdot : '.' ∉ "OVERLOAD".toList := by decide
    have htxt : '.' ∈ (DMM_FormatValue t scale7Selected Dbl.nan [] 1).2 := by
      unfold DMM_FormatValue
      simp only [hidx, if_true, Dbl.eq, Bool.false_eq_true, if_false, hu, Dbl.mul, Dbl.round,
        hm, false_and, hF]
      simp
    intro heq
    rw [heq] at htxt
    exact hdot htxt

/-! ## Coefficients that are not finite -/

theorem CALIB_clampNaN_cases (fResult : Nat) :
    f32ToDbl (CALIB_clampNaN fResult) ≠ Dbl.nan ∧
    (f32ToDbl fResult = Dbl.nan → CALIB_clampNaN fResult = 0) ∧
    (f32ToDbl fResult ≠ Dbl.nan → CALIB_clampNaN fResult = fResult) := by
  unfold CALIB_clampNaN
  by_cases h : f32ToDbl fResult = Dbl.nan
  · have hn := (DMM_IsNotANumber_eq_true _).mpr h
    rw [if_pos hn]
    refine ⟨?_, fun _ => rfl, fun h1 => absurd h h1⟩
    rw [f32ToDbl_zero]
    exact fun hc => Dbl.noConfusion hc
  · have hn := (DMM_IsNotANumber_eq_false _).mpr h
    rw [if_neg (by rw [hn]; exact Bool.false_ne_true)]
    exact ⟨h, fun h1 => absurd h1 h, fun _ => rfl⟩

/-- C24 (amended): when `CALIB_CheckCompleteCalib` reports completion, neither stored
coefficient is a NaN: `Mult` is 0 when the formula of the scale's type converted to
`float` is a NaN, and that `float` value otherwise, an infinity included; likewise `Add`
is 0 when its product (for an AC scale `Z`) converted to `float` is a NaN, and that
`float` value otherwise. -/
theorem CALIB_CheckCompleteCalib_clamps_NaN (toFloat : Dbl → Nat) (sq : ℚ → ℚ)
    (dmm : DMMState) (st : CalibState)
    (hdone : (CALIB_CheckCompleteCalib toFloat sq dmm st).1 = 1) :
    f32ToDbl ((CALIB_CheckCompleteCalib toFloat sq dmm st).2.calib.Dmm
      (DMM_GetCurrentScale dmm).toNat).Mult ≠ Dbl.nan ∧
    f32ToDbl ((CALIB_CheckCompleteCalib toFloat sq dmm st).2.calib.Dmm
      (DMM_GetCurrentScale dmm).toNat).Add ≠ Dbl.nan ∧
    (f32ToDbl (toFloat (specMult sq dmm.curCfg.mode
        (st.partCalib (DMM_GetCurrentScale dmm).toNat))) = Dbl.nan →
      ((CALIB_CheckCompleteCalib toFloat sq dmm st).2.calib.Dmm
        (DMM_GetCurrentScale dmm).toNat).Mult = 0) ∧
    (f32ToDbl (toFloat (specMult sq dmm.curCfg.mode
        (st.partCalib (DMM_GetCurrentScale dmm).toNat))) ≠ Dbl.nan →
      ((CALIB_CheckCompleteCalib toFloat sq dmm st).2.calib.Dmm
        (DMM_GetCurrentScale dmm).toNat).Mult =
        toFloat (specMult sq dmm.curCfg.mode
          (st.partCalib (DMM_GetCurrentScale dmm).toNat))) ∧
    (∀ A : Nat,
      A = toFloat
        (if dmm.curCfg.mode = DmmACVoltage ∨ dmm.curCfg.mode = DmmACCurrent ∨
            dmm.curCfg.mode = DmmACLowCurrent then
          (st.partCalib (DMM_GetCurrentScale dmm).toNat).Calib_Ms_Zero
         else Dbl.mul
          (f32ToDbl (toFloat (specAddFactor dmm.curCfg.mode
            (st.partCalib (DMM_GetCurrentScale dmm).toNat))))
          (Dbl.add (Dbl.fin 1)
            (f32ToDbl ((CALIB_CheckCompleteCalib toFloat sq dmm st).2.calib.Dmm
              (DMM_GetCurrentScale dmm).toNat).Mult))) →
      (f32ToDbl A = Dbl.nan →
        ((CALIB_CheckCompleteCalib toFloat sq dmm st).2.calib.Dmm
          (DMM_GetCurrentScale dmm).toNat).Add = 0) ∧
      (f32ToDbl A ≠ Dbl.nan →
        ((CALIB_CheckCompleteCalib toFloat sq dmm st).2.calib.Dmm
          (DMM_GetCurrentScale dmm).toNat).Add = A)) := by
  obtain ⟨hmode, hst⟩ := CALIB_CheckCompleteCalib_done toFloat sq dmm st hdone
  have hM := CALIB_ComputeMult_eq_spec toFloat sq dmm st (DMM_GetCurrentScale dmm) hmode
  have hA := CALIB_ComputeAdd_eq_spec toFloat sq dmm st (DMM_GetCurrentScale dmm) hmode
  rw [hst]
  simp only
  obtain ⟨m1, m2, m3⟩ := CALIB_clampNaN_cases (toFloat (specMult sq dmm.curCfg.mode
    (st.partCalib (DMM_GetCurrentScale dmm).toNat)))
  rw [← hM] at m1 m2 m3
  refine ⟨m1, ?_, m2, m3, ?_⟩
  · rw [hA]
    exact (CALIB_clampNaN_cases _).1
  · intro A hAeq
    rw [hA, ← hAeq]
    exact ⟨(CALIB_clampNaN_cases A).2.1, (CALIB_clampNaN_cases A).2.2⟩

theorem calibStateDCEqual_specMult :
    specMult sqExample scale8Selected.curCfg.mode (calibStateDCEqual.partCalib 8) = Dbl.pinf := by
  have hmode : scale8Selected.curCfg.mode = DmmDCVoltage := by decide
  have hpc : calibStateDCEqual.partCalib 8 =
      ⟨Dbl.fin 0, Dbl.fin 1, Dbl.fin 1, Dbl.fin 1, Dbl.fin (-1), 0⟩ := rfl
  rw [hmode, hpc]
  simp [specMult, DmmDCVoltage, DmmACVoltage, DmmACCurrent, DmmACLowCurrent, Dbl.sub, Dbl.div,
    Dbl.add, Dbl.neg, Dbl.infOfSign]
  norm_num

/-- Witness of C24 (amended): the AC scale 11 with `Z = 0`, `P = 1000`, `Pref = 1`. -/
theorem CALIB_CheckCompleteCalib_clamps_NaN_witness :
    (CALIB_CheckCompleteCalib toFloatExample sqExample scale11Selected calibStateACExample).1 = 1 ∧
    f32ToDbl ((CALIB_CheckCompleteCalib toFloatExample sqExample scale11Selected
      calibStateACExample).2.calib.Dmm (DMM_GetCurrentScale scale11Selected).toNat).Mult ≠
      Dbl.nan :=
  ⟨by decide,
   (CALIB_CheckCompleteCalib_clamps_NaN toFloatExample sqExample scale11Selected
     calibStateACExample (by decide)).1⟩

/-- C24 (as stated) fails: on the DC scale 8 with `P = N = 1`, `Pref = 1`, `Nref = -1`
the formula `(Pref − Nref) / (P − N) − 1` is `+∞`, and `CALIB_CheckCompleteCalib` stores
the `float` `+∞` (`0x7F800000`) as `Mult`, not 0. -/
theorem CALIB_CheckCompleteCalib_stores_infinity :
    (CALIB_CheckCompleteCalib toFloatExample sqExample scale8Selected calibStateDCEqual).1 = 1 ∧
    specMult sqExample scale8Selected.curCfg.mode (calibStateDCEqual.partCalib 8) = Dbl.pinf ∧
    ((CALIB_CheckCompleteCalib toFloatExample sqExample scale8Selected
      calibStateDCEqual).2.calib.Dmm 8).Mult = 0x7F800000 ∧
    f32ToDbl 0x7F800000 = Dbl.pinf := by
  have hdone : (CALIB_CheckCompleteCalib toFloatExample sqExample scale8Selected
      calibStateDCEqual).1 = 1 := by decide
  have hidx : (DMM_GetCurrentScale scale8Selected).toNat = 8 := by decide
  have hinf : f32ToDbl 0x7F800000 = Dbl.pinf := by decide
  obtain ⟨hmode, hst⟩ := CALIB_CheckCompleteCalib_done toFloatExample sqExample scale8Selected
    calibStateDCEqual hdone
  have hM := CALIB_ComputeMult_eq_spec toFloatExample sqExample scale8Selected calibStateDCEqual
    (DMM_GetCurrentScale scale8Selected) hmode
  rw [hidx] at hst hM
  rw [calibStateDCEqual_specMult] at hM
  have hcl : CALIB_clampNaN (toFloatExample Dbl.pinf) = 0x7F800000 := by decide
  refine ⟨hdone, calibStateDCEqual_specMult, ?_, hinf⟩
  rw [hst]
  simp only
  rw [hM, hcl]

/-! ## The partial calibration after a save -/

theorem CALIB_WriteAllCalibsToEPROM_User_reset (st : CalibState)
    (hw : (CALIB_WriteAllCalibsToEPROM_Raw st ADR_EPROM_CALIB).1 = ERRVAL_SUCCESS)
    (i : Nat) (hi : i < 27) :
    (CALIB_WriteAllCalibsToEPROM_User st).2.partCalib i =
      ⟨Dbl.nan, Dbl.nan, Dbl.nan, Dbl.nan, Dbl.nan, 0⟩ := by
  unfold CALIB_WriteAllCalibsToEPROM_User
  simp only [hw, if_true]
  simp only [CALIB_Init, CALIB_ReadAllCalibsFromEPROM_User, CALIB_ReplaceCalibNullValues,
    CALIB_InitPartCalibData, hi, if_true]

/-- C26 (amended): a successful `CALIB_WriteAllCalibsToEPROM_User` resets the whole
partial-calibration table: for every scale the five fields `Calib_Ms_Zero`,
`Calib_Ms_ValP`, `Calib_Ref_ValP`, `Calib_Ms_ValN`, `Calib_Ref_ValN` are NaN and the dirty
flag is 0 afterwards; a save that fails leaves the table as it was. -/
theorem CALIB_WriteAllCalibsToEPROM_User_partCalib (st : CalibState) :
    ((CALIB_WriteAllCalibsToEPROM_Raw st ADR_EPROM_CALIB).1 = ERRVAL_SUCCESS →
      ∀ i, i < 27 → (CALIB_WriteAllCalibsToEPROM_User st).2.partCalib i =
        ⟨Dbl.nan, Dbl.nan, Dbl.nan, Dbl.nan, Dbl.nan, 0⟩) ∧
    ((CALIB_WriteAllCalibsToEPROM_Raw st ADR_EPROM_CALIB).1 ≠ ERRVAL_SUCCESS →
      (CALIB_WriteAllCalibsToEPROM_User st).2.partCalib = st.partCalib) := by
  constructor
  · intro hw i hi
    exact CALIB_WriteAllCalibsToEPROM_User_reset st hw i hi
  · intro hw
    unfold CALIB_WriteAllCalibsToEPROM_User
    rw [if_neg hw]
    rfl

/-- C26 (as stated) fails: scale 11 holds the partly entered calibration `Z = 0`,
`P = 1000`, `Pref = 1`; after a successful `CALIB_WriteAllCalibsToEPROM_User` all its
fields are NaN. -/
theorem CALIB_WriteAllCalibsToEPROM_User_clears_partial :
    (calibStateACExample.partCalib 11).Calib_Ms_Zero = Dbl.fin 0 ∧
    (calibStateACExample.partCalib 11).Calib_Ms_ValP = Dbl.fin 1000 ∧
    (CALIB_WriteAllCalibsToEPROM_User calibStateACExample).1 = 0 ∧
    (CALIB_WriteAllCalibsToEPROM_User calibStateACExample).2.partCalib 11 =
      ⟨Dbl.nan, Dbl.nan, Dbl.nan, Dbl.nan, Dbl.nan, 0⟩ := by
  have hdev : calibStateACExample.eprom.AllComplete :=
    fun p hp => absurd hp (List.not_mem_nil p)
  obtain ⟨hw, _, _, _, _⟩ :=
    CALIB_WriteAllCalibsToEPROM_Raw_complete calibStateACExample ADR_EPROM_CALIB (by decide) hdev
  have hcnt : ∀ st : CalibState, (CALIB_WriteAllCalibsToEPROM_Raw st ADR_EPROM_CALIB).1 =
      ERRVAL_SUCCESS → (CALIB_WriteAllCalibsToEPROM_User st).1 =
        (CALIB_CntCalibDirty (CALIB_WriteAllCalibsToEPROM_Raw st ADR_EPROM_CALIB).2).1 := by
    intro st h
    unfold CALIB_WriteAllCalibsToEPROM_User
    simp only [h, if_true]
  have hpc : ∀ st : CalibState,
      (CALIB_WriteAllCalibsToEPROM_Raw st ADR_EPROM_CALIB).2.partCalib = st.partCalib :=
    fun _ => rfl
  have hc : ∀ st : CalibState, (CALIB_CntCalibDirty st).1 =
      (List.range 27).foldl (fun bResult idxScale =>
        (bResult + (st.partCalib idxScale).fCalibDirty) % 256) 0 := fun _ => rfl
  refine ⟨rfl, rfl, ?_, ?_⟩
  · rw [hcnt _ hw, hc, hpc]
    decide
  · exact CALIB_WriteAllCalibsToEPROM_User_reset calibStateACExample hw 11 (by decide)

/-! ## The calibrated conversion at the calibration points -/

theorem f32ToDbl_dyadic :
    f32ToDbl 0x3F800000 = Dbl.fin 1 ∧ f32ToDbl 0x40000000 = Dbl.fin 2 ∧
    f32ToDbl 0x3F000000 = Dbl.fin (1 / 2) ∧ f32ToDbl 0xBF000000 = Dbl.fin (-1 / 2) ∧
    f32ToDbl 0x3E800000 = Dbl.fin (1 / 4) ∧ f32ToDbl 0xBE800000 = Dbl.fin (-1 / 4) := by
  refine ⟨?_, ?_, ?_, ?_, ?_, ?_⟩ <;>
  · simp [f32ToDbl]
    try norm_num

theorem toFloatDyadic_pattern :
    toFloatDyadic (Dbl.fin 0) = 0 ∧ toFloatDyadic (Dbl.fin 1) = 0x3F800000 ∧
    toFloatDyadic (Dbl.fin 2) = 0x40000000 ∧ toFloatDyadic (Dbl.fin (1 / 2)) = 0x3F000000 ∧
    toFloatDyadic (Dbl.fin (-1 / 2)) = 0xBF000000 ∧
    toFloatDyadic (Dbl.fin (1 / 4)) = 0x3E800000 ∧
    toFloatDyadic (Dbl.fin (-1 / 4)) = 0xBE800000 := by
  refine ⟨?_, ?_, ?_, ?_, ?_, ?_, ?_⟩ <;>
  · unfold toFloatDyadic
    norm_num
theorem toFloatDyadic_exact :
    f32ToDbl (toFloatDyadic (Dbl.fin 0)) = Dbl.fin 0 ∧
    f32ToDbl (toFloatDyadic (Dbl.fin 1)) = Dbl.fin 1 ∧
    f32ToDbl (toFloatDyadic (Dbl.fin 2)) = Dbl.fin 2 ∧
    f32ToDbl (toFloatDyadic (Dbl.fin (1 / 2))) = Dbl.fin (1 / 2) ∧
    f32ToDbl (toFloatDyadic (Dbl.fin (-1 / 2))) = Dbl.fin (-1 / 2) ∧
    f32ToDbl (toFloatDyadic (Dbl.fin (1 / 4))) = Dbl.fin (1 / 4) ∧
    f32ToDbl (toFloatDyadic (Dbl.fin (-1 / 4))) = Dbl.fin (-1 / 4) := by
  obtain ⟨p0, p1, p2, p3, p4, p5, p6⟩ := toFloatDyadic_pattern
  obtain ⟨d1, d2, d3, d4, d5, d6⟩ := f32ToDbl_dyadic
  rw [p0, p1, p2, p3, p4, p5, p6]
  exact ⟨f32ToDbl_zero, d1, d2, d3, d4, d5, d6⟩

/-- On a scale that is not an AC scale, the calibrated result of `DMM_DGetStatus` is
`DMM_applyCalib` of the result the same snapshot gives with calibration disabled,
whenever that one is a finite number. -/
theorem DMM_DGetStatus_applyCalib (sq : ℚ → ℚ) (rms32 : Bool) (s : DMMState)
    (calib : CALIBDATA) (dmmsts : DMMSTS) (u : ℚ)
    (hidx : 0 ≤ s.idxCurrentScale ∧ s.idxCurrentScale ≤ 26)
    (hnac : DMM_FACScale s s.idxCurrentScale = false)
    (hu : DMM_DGetStatus sq rms32 (DMM_SetUseCalib s 0) calib dmmsts =
      (Dbl.fin u, ERRVAL_SUCCESS)) :
    DMM_DGetStatus sq rms32 (DMM_SetUseCalib s 1) calib dmmsts =
      (DMM_applyCalib (Dbl.fin u) (calib.Dmm s.idxCurrentScale.toNat), ERRVAL_SUCCESS) := by
  have h0 := DMM_DGetStatus_AD1 sq rms32 (DMM_SetUseCalib s 0) calib dmmsts hidx hnac
  have h1 := DMM_DGetStatus_AD1 sq rms32 (DMM_SetUseCalib s 1) calib dmmsts hidx hnac
  rw [h1]
  rw [h0] at hu
  have e0 : (DMM_SetUseCalib s 0).fUseCalib = 0 := rfl
  have e1 : (DMM_SetUseCalib s 1).fUseCalib = 1 := rfl
  have em0 : (DMM_SetUseCalib s 0).curCfg = s.curCfg := rfl
  have em1 : (DMM_SetUseCalib s 1).curCfg = s.curCfg := rfl
  have ei1 : (DMM_SetUseCalib s 1).idxCurrentScale = s.idxCurrentScale := rfl
  rw [e0, em0] at hu
  rw [e1, em1, ei1]
  simp only [ne_eq, not_true_eq_false, if_false, Prod.mk.injEq, and_true] at hu
  simp only [ne_eq, one_ne_zero, not_false_eq_true, if_true, Prod.mk.injEq, and_true]
  by_cases hf : dmmsts.intf &&& 0x04 = 0
  · simp only [hf, not_true_eq_false, if_false] at hu
    exact absurd hu (by simp)
  · simp only [hf, not_false_eq_true, if_true] at hu ⊢
    by_cases h1 : DMM_vad1 dmmsts ≥ 0x7FFFFE
    · simp only [h1, if_true] at hu
      exact absurd hu (by simp)
    · simp only [h1, if_false] at hu ⊢
      by_cases h2 : DMM_vad1 dmmsts ≤ -0x7FFFFE
      · simp only [h2, if_true] at hu
        exact absurd hu (by simp)
      · simp only [h2, if_false] at hu ⊢
        rw [hu]
        rfl

theorem DMM_applyCalib_fin (x M A : ℚ) (c : CALIB) (hM : f32ToDbl c.Mult = Dbl.fin M)
    (hA : f32ToDbl c.Add = Dbl.fin A) :
    DMM_applyCalib (Dbl.fin x) c = Dbl.fin (x * (1 + M) + A) := by
  unfold DMM_applyCalib
  rw [hM, hA]
  rfl

theorem CALIB_CheckCompleteCalib_complete (toFloat : Dbl → Nat) (sq : ℚ → ℚ) (dmm : DMMState)
    (st : CalibState)
    (hidx : 0 ≤ DMM_GetCurrentScale dmm ∧ DMM_GetCurrentScale dmm ≤ 26)
    (hc : calibrationComplete dmm.curCfg.mode (st.partCalib (DMM_GetCurrentScale dmm).toNat)) :
    (CALIB_CheckCompleteCalib toFloat sq dmm st).1 = 1 := by
  have hv : DMM_GetCurrentScale dmm ≥ 0 ∧ DMM_GetCurrentScale dmm < DMM_CNTSCALES := by
    unfold DMM_CNTSCALES; omega
  have hiff := CALIB_fResult_iff dmm (DMM_GetCurrentScale dmm)
    (st.partCalib (DMM_GetCurrentScale dmm).toNat)
  unfold CALIB_CheckCompleteCalib
  simp only [hv, and_self, if_true]
  rw [if_pos (hiff.2 hc)]

/-- The coefficients stored at completion on a scale that is not an AC scale, when the
conversions to `float` are exact. -/
theorem CALIB_stored_coeffs (toFloat : Dbl → Nat) (sq : ℚ → ℚ) (dmm : DMMState)
    (st : CalibState) (M F : ℚ)
    (hdone : (CALIB_CheckCompleteCalib toFloat sq dmm st).1 = 1)
    (hnac : ¬ (dmm.curCfg.mode = DmmACVoltage ∨ dmm.curCfg.mode = DmmACCurrent ∨
      dmm.curCfg.mode = DmmACLowCurrent))
    (hsm : specMult sq dmm.curCfg.mode (st.partCalib (DMM_GetCurrentScale dmm).toNat) =
      Dbl.fin M)
    (hsf : specAddFactor dmm.curCfg.mode (st.partCalib (DMM_GetCurrentScale dmm).toNat) =
      Dbl.fin F)
    (hfM : f32ToDbl (toFloat (Dbl.fin M)) = Dbl.fin M)
    (hfF : f32ToDbl (toFloat (Dbl.fin F)) = Dbl.fin F)
    (hfA : f32ToDbl (toFloat (Dbl.fin (F * (1 + M)))) = Dbl.fin (F * (1 + M))) :
    f32ToDbl ((CALIB_CheckCompleteCalib toFloat sq dmm st).2.calib.Dmm
      (DMM_GetCurrentScale dmm).toNat).Mult = Dbl.fin M ∧
    f32ToDbl ((CALIB_CheckCompleteCalib toFloat sq dmm st).2.calib.Dmm
      (DMM_GetCurrentScale dmm).toNat).Add = Dbl.fin (F * (1 + M)) := by
  obtain ⟨hmode, hst⟩ := CALIB_CheckCompleteCalib_done toFloat sq dmm st hdone
  have hM := CALIB_ComputeMult_eq_spec toFloat sq dmm st (DMM_GetCurrentScale dmm) hmode
  have hA := CALIB_ComputeAdd_eq_spec toFloat sq dmm st (DMM_GetCurrentScale dmm) hmode
  have hne : ∀ q : ℚ, Dbl.fin q ≠ Dbl.nan := fun q h => Dbl.noConfusion h
  have hM1 : CALIB_ComputeMult toFloat sq dmm st (DMM_GetCurrentScale dmm) =
      toFloat (Dbl.fin M) := by
    rw [hM, hsm]
    exact (CALIB_clampNaN_cases _).2.2 (by rw [hfM]; exact hne M)
  have hA1 : CALIB_ComputeAdd toFloat sq dmm st (DMM_GetCurrentScale dmm) =
      toFloat (Dbl.fin (F * (1 + M))) := by
    rw [hA, if_neg hnac, hsf, hfF, hM1, hfM]
    have hmul : Dbl.mul (Dbl.fin F) (Dbl.add (Dbl.fin 1) (Dbl.fin M)) =
        Dbl.fin (F * (1 + M)) := rfl
    rw [hmul]
    exact (CALIB_clampNaN_cases _).2.2 (by rw [hfA]; exact hne _)
  rw [hst]
  simp only
  rw [hM1, hA1]
  exact ⟨hfM, hfA⟩


theorem specMult_DC (sq : ℚ → ℚ) (mode : Nat) (pc : PARTCALIB) (P N Pref Nref : ℚ)
    (hmode : mode = DmmDCVoltage ∨ mode = DmmDCCurrent ∨ mode = DmmDCLowCurrent)
    (hP : pc.Calib_Ms_ValP = Dbl.fin P) (hPref : pc.Calib_Ref_ValP = Dbl.fin Pref)
    (hN : pc.Calib_Ms_ValN = Dbl.fin N) (hNref : pc.Calib_Ref_ValN = Dbl.fin Nref)
    (hPN : P ≠ N) :
    ¬ (mode = DmmACVoltage ∨ mode = DmmACCurrent ∨ mode = DmmACLowCurrent) ∧
    specMult sq mode pc = Dbl.fin ((Pref - Nref) / (P - N) - 1) := by
  have hnac : ¬ (mode = DmmACVoltage ∨ mode = DmmACCurrent ∨ mode = DmmACLowCurrent) := by
    unfold DmmDCVoltage DmmDCCurrent DmmDCLowCurrent at hmode
    unfold DmmACVoltage DmmACCurrent DmmACLowCurrent
    omega
  refine ⟨hnac, ?_⟩
  unfold specMult
  rw [if_neg hnac, if_pos hmode, hP, hPref, hN, hNref]
  have hd : ¬ (P + -N = 0) := fun h => hPN (by linarith)
  simp only [Dbl.sub, Dbl.neg, Dbl.add, Dbl.div]
  rw [if_neg hd]
  simp only [Dbl.add]
  congr 1
  simp only [sub_eq_add_neg]

/-- C29: in exact arithmetic (the three conversions to `float` exact), for a DC scale
with the complete data `Z`, `P`, `Pref`, `N`, `Nref` and `P ≠ N`: `CALIB_CheckCompleteCalib`
completes, and the calibrated conversion `raw * (1 + Mult) + Add` with the stored
coefficients maps `Z` to 0 and maps `P` and `N` to two numbers whose difference is
`Pref − Nref`. That conversion is the one `DMM_DGetStatus` applies: for every snapshot
whose result with calibration disabled is a finite number `u`, the result with
calibration enabled is the conversion of `u`. -/
theorem CALIB_DC_calibration_points (toFloat : Dbl → Nat) (sq : ℚ → ℚ) (dmm : DMMState)
    (st : CalibState) (Z P N Pref Nref : ℚ)
    (hidx : 0 ≤ DMM_GetCurrentScale dmm ∧ DMM_GetCurrentScale dmm ≤ 26)
    (hmode : dmm.curCfg.mode = DmmDCVoltage ∨ dmm.curCfg.mode = DmmDCCurrent ∨
      dmm.curCfg.mode = DmmDCLowCurrent)
    (hZ : (st.partCalib (DMM_GetCurrentScale dmm).toNat).Calib_Ms_Zero = Dbl.fin Z)
    (hP : (st.partCalib (DMM_GetCurrentScale dmm).toNat).Calib_Ms_ValP = Dbl.fin P)
    (hPref : (st.partCalib (DMM_GetCurrentScale dmm).toNat).Calib_Ref_ValP = Dbl.fin Pref)
    (hN : (st.partCalib (DMM_GetCurrentScale dmm).toNat).Calib_Ms_ValN = Dbl.fin N)
    (hNref : (st.partCalib (DMM_GetCurrentScale dmm).toNat).Calib_Ref_ValN = Dbl.fin Nref)
    (hPN : P ≠ N)
    (hfM : f32ToDbl (toFloat (Dbl.fin ((Pref - Nref) / (P - N) - 1))) =
      Dbl.fin ((Pref - Nref) / (P - N) - 1))
    (hfZ : f32ToDbl (toFloat (Dbl.fin (-Z))) = Dbl.fin (-Z))
    (hfA : f32ToDbl (toFloat (Dbl.fin (-Z * (1 + ((Pref - Nref) / (P - N) - 1))))) =
      Dbl.fin (-Z * (1 + ((Pref - Nref) / (P - N) - 1)))) :
    (CALIB_CheckCompleteCalib toFloat sq dmm st).1 = 1 ∧
    DMM_applyCalib (Dbl.fin Z) ((CALIB_CheckCompleteCalib toFloat sq dmm st).2.calib.Dmm
      (DMM_GetCurrentScale dmm).toNat) = Dbl.fin 0 ∧
    (∃ p n : ℚ,
      DMM_applyCalib (Dbl.fin P) ((CALIB_CheckCompleteCalib toFloat sq dmm st).2.calib.Dmm
        (DMM_GetCurrentScale dmm).toNat) = Dbl.fin p ∧
      DMM_applyCalib (Dbl.fin N) ((CALIB_CheckCompleteCalib toFloat sq dmm st).2.calib.Dmm
        (DMM_GetCurrentScale dmm).toNat) = Dbl.fin n ∧
      p - n = Pref - Nref) ∧
    (∀ (rms32 : Bool) (calib : CALIBDATA) (dmmsts : DMMSTS) (u : ℚ),
      DMM_DGetStatus sq rms32 (DMM_SetUseCalib dmm 0) calib dmmsts =
        (Dbl.fin u, ERRVAL_SUCCESS) →
      DMM_DGetStatus sq rms32 (DMM_SetUseCalib dmm 1) calib dmmsts =
        (DMM_applyCalib (Dbl.fin u) (calib.Dmm (DMM_GetCurrentScale dmm).toNat),
          ERRVAL_SUCCESS)) := by
  have hne : ∀ q : ℚ, Dbl.fin q ≠ Dbl.nan := fun q h => Dbl.noConfusion h
  have hc : calibrationComplete dmm.curCfg.mode
      (st.partCalib (DMM_GetCurrentScale dmm).toNat) :=
    Or.inl ⟨hmode, by rw [hZ]; exact hne Z, by rw [hP]; exact hne P,
      by rw [hPref]; exact hne Pref, by rw [hN]; exact hne N, by rw [hNref]; exact hne Nref⟩
  have hdone := CALIB_CheckCompleteCalib_complete toFloat sq dmm st hidx hc
  obtain ⟨hnac, hsm⟩ := specMult_DC sq dmm.curCfg.mode
    (st.partCalib (DMM_GetCurrentScale dmm).toNat) P N Pref Nref hmode hP hPref hN hNref hPN
  have hsf : specAddFactor dmm.curCfg.mode (st.partCalib (DMM_GetCurrentScale dmm).toNat) =
      Dbl.fin (-Z) := by
    unfold specAddFactor
    rw [if_pos hmode, hZ]
    rfl
  obtain ⟨cM, cA⟩ := CALIB_stored_coeffs toFloat sq dmm st _ _ hdone hnac hsm hsf hfM hfZ hfA
  have hd : P - N ≠ 0 := fun h => hPN (by linarith)
  have hfac : DMM_FACScale dmm dmm.idxCurrentScale = false := by
    unfold DMM_FACScale
    unfold DmmDCVoltage DmmDCCurrent DmmDCLowCurrent at hmode
    simp only [DmmACVoltage, DmmACCurrent, DmmACLowCurrent]
    rcases hmode with h | h | h <;> rw [h] <;> rfl
  refine ⟨hdone, ?_, ⟨_, _, DMM_applyCalib_fin P _ _ _ cM cA, DMM_applyCalib_fin N _ _ _ cM cA,
    ?_⟩, fun rms32 calib dmmsts u hu =>
      DMM_DGetStatus_applyCalib sq rms32 dmm calib dmmsts u hidx hfac hu⟩
  · rw [DMM_applyCalib_fin Z _ _ _ cM cA]
    congr 1
    ring
  · field_simp
    ring

theorem calibStateDCExample_hyps :
    (Dbl.fin (((2 : ℚ) - (-2)) / (1 - (-1)) - 1) = Dbl.fin 1) ∧
    (Dbl.fin (-(1 / 4 : ℚ)) = Dbl.fin (-1 / 4)) ∧
    (Dbl.fin (-(1 / 4 : ℚ) * (1 + ((2 - (-2)) / (1 - (-1)) - 1))) = Dbl.fin (-1 / 2)) := by
  refine ⟨?_, ?_, ?_⟩ <;> · congr 1; norm_num

/-- Witness of C29: the 5 V DC scale with `Z = 1/4`, `P = 1`, `Pref = 2`, `N = -1`,
`Nref = -2` (`Mult = 1`, `Add = -1/2`). -/
theorem CALIB_DC_calibration_points_witness :
    (0 ≤ DMM_GetCurrentScale scale8Selected ∧ DMM_GetCurrentScale scale8Selected ≤ 26) ∧
    (1 : ℚ) ≠ -1 ∧
    DMM_applyCalib (Dbl.fin (1 / 4))
      ((CALIB_CheckCompleteCalib toFloatDyadic sqExample scale8Selected
        calibStateDCExample).2.calib.Dmm (DMM_GetCurrentScale scale8Selected).toNat) =
      Dbl.fin 0 := by
  obtain ⟨e1, e2, e3⟩ := calibStateDCExample_hyps
  obtain ⟨_, x1, _, _, x5, _, x6⟩ := toFloatDyadic_exact
  exact ⟨by decide, by norm_num,
    (CALIB_DC_calibration_points toFloatDyadic sqExample scale8Selected calibStateDCExample
      (1 / 4) 1 (-1) 2 (-2) (by decide) (Or.inl (by decide)) rfl rfl rfl rfl rfl (by norm_num)
      (by rw [e1]; exact x1) (by rw [e2]; exact x6) (by rw [e3]; exact x5)).2.1⟩


/-- The images of the two calibration points under the coefficients stored for a
resistance, continuity or diode scale, in exact arithmetic: with `k = (R0 − Pref) / (Z − P)`
the zero measurement `Z` is sent to `R0 * k` and the positive measurement `P` to
`Pref + R0 * (k − 1)`. -/
theorem CALIB_resistive_calibration_images (toFloat : Dbl → Nat) (sq : ℚ → ℚ) (dmm : DMMState)
    (st : CalibState) (Z P Pref R0 : ℚ)
    (hidx : 0 ≤ DMM_GetCurrentScale dmm ∧ DMM_GetCurrentScale dmm ≤ 26)
    (hmode : dmm.curCfg.mode = DmmResistance ∨ dmm.curCfg.mode = DmmContinuity ∨
      dmm.curCfg.mode = DmmDiode)
    (hR0 : specZeroRef dmm.curCfg.mode = Dbl.fin R0)
    (hZ : (st.partCalib (DMM_GetCurrentScale dmm).toNat).Calib_Ms_Zero = Dbl.fin Z)
    (hP : (st.partCalib (DMM_GetCurrentScale dmm).toNat).Calib_Ms_ValP = Dbl.fin P)
    (hPref : (st.partCalib (DMM_GetCurrentScale dmm).toNat).Calib_Ref_ValP = Dbl.fin Pref)
    (hZP : Z ≠ P)
    (hfM : f32ToDbl (toFloat (Dbl.fin ((R0 - Pref) / (Z - P) - 1))) =
      Dbl.fin ((R0 - Pref) / (Z - P) - 1))
    (hfF : f32ToDbl (toFloat (Dbl.fin (R0 - Z))) = Dbl.fin (R0 - Z))
    (hfA : f32ToDbl (toFloat (Dbl.fin ((R0 - Z) * (1 + ((R0 - Pref) / (Z - P) - 1))))) =
      Dbl.fin ((R0 - Z) * (1 + ((R0 - Pref) / (Z - P) - 1)))) :
    (CALIB_CheckCompleteCalib toFloat sq dmm st).1 = 1 ∧
    DMM_applyCalib (Dbl.fin Z) ((CALIB_CheckCompleteCalib toFloat sq dmm st).2.calib.Dmm
      (DMM_GetCurrentScale dmm).toNat) = Dbl.fin (R0 * ((R0 - Pref) / (Z - P))) ∧
    DMM_applyCalib (Dbl.fin P) ((CALIB_CheckCompleteCalib toFloat sq dmm st).2.calib.Dmm
      (DMM_GetCurrentScale dmm).toNat) =
      Dbl.fin (Pref + R0 * ((R0 - Pref) / (Z - P) - 1)) := by
  have hne : ∀ q : ℚ, Dbl.fin q ≠ Dbl.nan := fun q h => Dbl.noConfusion h
  have hc : calibrationComplete dmm.curCfg.mode
      (st.partCalib (DMM_GetCurrentScale dmm).toNat) :=
    Or.inr ⟨by tauto, by rw [hZ]; exact hne Z, by rw [hP]; exact hne P,
      by rw [hPref]; exact hne Pref⟩
  have hdone := CALIB_CheckCompleteCalib_complete toFloat sq dmm st hidx hc
  have hnac : ¬ (dmm.curCfg.mode = DmmACVoltage ∨ dmm.curCfg.mode = DmmACCurrent ∨
      dmm.curCfg.mode = DmmACLowCurrent) := by
    unfold DmmResistance DmmContinuity DmmDiode at hmode
    unfold DmmACVoltage DmmACCurrent DmmACLowCurrent
    omega
  have hndc : ¬ (dmm.curCfg.mode = DmmDCVoltage ∨ dmm.curCfg.mode = DmmDCCurrent ∨
      dmm.curCfg.mode = DmmDCLowCurrent) := by
    unfold DmmResistance DmmContinuity DmmDiode at hmode
    unfold DmmDCVoltage DmmDCCurrent DmmDCLowCurrent
    omega
  have hd : ¬ (Z + -P = 0) := fun h => hZP (by linarith)
  have hsm : specMult sq dmm.curCfg.mode (st.partCalib (DMM_GetCurrentScale dmm).toNat) =
      Dbl.fin ((R0 - Pref) / (Z - P) - 1) := by
    unfold specMult
    rw [if_neg hnac, if_neg hndc, hR0, hZ, hP, hPref]
    simp only [Dbl.sub, Dbl.neg, Dbl.add, Dbl.div]
    rw [if_neg hd]
    simp only [Dbl.add]
    congr 1
    simp only [sub_eq_add_neg]
  have hsf : specAddFactor dmm.curCfg.mode (st.partCalib (DMM_GetCurrentScale dmm).toNat) =
      Dbl.fin (R0 - Z) := by
    unfold specAddFactor
    rw [if_neg hndc, hR0, hZ]
    simp only [Dbl.sub, Dbl.neg, Dbl.add]
    congr 1
    simp only [sub_eq_add_neg]
  obtain ⟨cM, cA⟩ := CALIB_stored_coeffs toFloat sq dmm st _ _ hdone hnac hsm hsf hfM hfF hfA
  have hd1 : Z - P ≠ 0 := fun h => hZP (by linarith)
  refine ⟨hdone, ?_, ?_⟩
  · rw [DMM_applyCalib_fin Z _ _ _ cM cA]
    congr 1
    ring
  · rw [DMM_applyCalib_fin P _ _ _ cM cA]
    congr 1
    field_simp
    ring

/-- C28: on the resistance scale 6 with `Z = 0.3`, `P = 1.3`, `Pref = 2.05` (zero
reference 0.05) and conversions to `float` that are exact on the values met,
`CALIB_CheckCompleteCalib` completes with `Mult = 1` and `Add = -1/2`, and the calibrated
conversion `raw * (1 + Mult) + Add` maps `Z` to 0.1, not to the zero reference 0.05, and
`P` to 2.1, not to `Pref = 2.05`. That conversion is the one `DMM_DGetStatus` applies on
this scale to the finite result a snapshot gives with calibration disabled. -/
theorem CALIB_resistance_calibration_misses_points :
    scale6Selected.curCfg.mode = DmmResistance ∧
    specZeroRef scale6Selected.curCfg.mode = Dbl.fin (1 / 20) ∧
    calibStateResExample.partCalib 6 =
      ⟨Dbl.fin (3 / 10), Dbl.fin (13 / 10), Dbl.fin (41 / 20), Dbl.nan, Dbl.nan, 0⟩ ∧
    (CALIB_CheckCompleteCalib toFloatDyadic sqExample scale6Selected calibStateResExample).1 =
      1 ∧
    DMM_applyCalib (Dbl.fin (3 / 10))
      ((CALIB_CheckCompleteCalib toFloatDyadic sqExample scale6Selected
        calibStateResExample).2.calib.Dmm 6) = Dbl.fin (1 / 10) ∧
    DMM_applyCalib (Dbl.fin (13 / 10))
      ((CALIB_CheckCompleteCalib toFloatDyadic sqExample scale6Selected
        calibStateResExample).2.calib.Dmm 6) = Dbl.fin (21 / 10) ∧
    (1 / 10 : ℚ) ≠ 1 / 20 ∧ (21 / 10 : ℚ) ≠ 41 / 20 ∧
    (∀ (sq : ℚ → ℚ) (rms32 : Bool) (calib : CALIBDATA) (dmmsts : DMMSTS) (u : ℚ),
      DMM_DGetStatus sq rms32 (DMM_SetUseCalib scale6Selected 0) calib dmmsts =
        (Dbl.fin u, ERRVAL_SUCCESS) →
      DMM_DGetStatus sq rms32 (DMM_SetUseCalib scale6Selected 1) calib dmmsts =
        (DMM_applyCalib (Dbl.fin u) (calib.Dmm 6), ERRVAL_SUCCESS)) := by
  have hmode : scale6Selected.curCfg.mode = DmmResistance := by decide
  have hR0 : specZeroRef scale6Selected.curCfg.mode = Dbl.fin (1 / 20) := by
    rw [hmode]
    unfold specZeroRef
    rw [if_pos (Or.inl rfl)]
    congr 1
    norm_num
  have hidx : (DMM_GetCurrentScale scale6Selected).toNat = 6 := by decide
  obtain ⟨_, x1, _, _, x5, _, x7⟩ := toFloatDyadic_exact
  have e1 : (((1 / 20 : ℚ) - 41 / 20) / (3 / 10 - 13 / 10) - 1) = 1 := by norm_num
  have e2 : ((1 / 20 : ℚ) - 3 / 10) = -1 / 4 := by norm_num
  have e3 : (((1 / 20 : ℚ) - 3 / 10) * (1 + ((1 / 20 - 41 / 20) / (3 / 10 - 13 / 10) - 1))) =
      -1 / 2 := by norm_num
  have h := CALIB_resistive_calibration_images toFloatDyadic sqExample scale6Selected
    calibStateResExample (3 / 10) (13 / 10) (41 / 20) (1 / 20) (by decide) (Or.inl hmode) hR0
    (by rw [hidx]; rfl) (by rw [hidx]; rfl) (by rw [hidx]; rfl) (by norm_num)
    (by rw [e1]; exact x1) (by rw [e2]; exact x7) (by rw [e3]; exact x5)
  rw [hidx] at h
  have e4 : ((1 / 20 : ℚ) * ((1 / 20 - 41 / 20) / (3 / 10 - 13 / 10))) = 1 / 10 := by norm_num
  have e5 : ((41 / 20 : ℚ) + 1 / 20 * ((1 / 20 - 41 / 20) / (3 / 10 - 13 / 10) - 1)) =
      21 / 10 := by norm_num
  rw [e4, e5] at h
  exact ⟨hmode, hR0, rfl, h.1, h.2.1, h.2.2, by norm_num, by norm_num,
    fun sq rms32 calib dmmsts u hu =>
      DMM_DGetStatus_applyCalib sq rms32 scale6Selected calib dmmsts u (by decide) (by decide) hu⟩


theorem DMM_vrms_nonneg (rms32 : Bool) (dmmsts : DMMSTS) : 0 ≤ DMM_vrms rms32 dmmsts := by
  unfold DMM_vrms
  simp only
  split <;> exact Int.natCast_nonneg _

/-- On an AC scale with the conversion-done flag set, for a snapshot at whose RMS value
the square-root routine is exact, the calibrated result of `DMM_DGetStatus` is
`sqrt(|u² − Add²|) * (1 + Mult)` for the result `u` of the same snapshot with calibration
disabled, in both accumulator modes. -/
theorem DMM_DGetStatus_AC_calibrated (sq : ℚ → ℚ) (rms32 : Bool) (s : DMMState)
    (calib : CALIBDATA) (dmmsts : DMMSTS) (m : ℚ)
    (hidx : 0 ≤ s.idxCurrentScale ∧ s.idxCurrentScale ≤ 26)
    (hac : DMM_FACScale s s.idxCurrentScale = true)
    (hm : s.curCfg.mul = Dbl.fin m)
    (hf : dmmsts.intf &&& 0x10 ≠ 0)
    (hsq : sq (DMM_vrms rms32 dmmsts) * sq (DMM_vrms rms32 dmmsts) = DMM_vrms rms32 dmmsts) :
    DMM_DGetStatus sq rms32 (DMM_SetUseCalib s 1) calib dmmsts =
      (specACCalibrated sq (DMM_DGetStatus sq rms32 (DMM_SetUseCalib s 0) calib dmmsts).1
        (calib.Dmm s.idxCurrentScale.toNat), ERRVAL_SUCCESS) := by
  have hidx1 := (DMM_ERR_CheckIdxCalib_eq_success s.idxCurrentScale).mpr hidx
  have hnn : ¬ (((DMM_vrms rms32 dmmsts : Int) : ℚ) < 0) := by
    have := DMM_vrms_nonneg rms32 dmmsts
    exact not_lt.mpr (by exact_mod_cast this)
  have hsqrt : Dbl.sqrt sq (Dbl.ofInt (DMM_vrms rms32 dmmsts)) =
      Dbl.fin (sq (DMM_vrms rms32 dmmsts)) := by
    simp only [Dbl.ofInt, Dbl.sqrt]
    rw [if_neg hnn]
  have e0 : ∀ f, (DMM_SetUseCalib s f).idxCurrentScale = s.idxCurrentScale := fun _ => rfl
  have e1 : ∀ f, (DMM_SetUseCalib s f).curCfg = s.curCfg := fun _ => rfl
  have e2 : ∀ f, DMM_FACScale (DMM_SetUseCalib s f) s.idxCurrentScale = true := fun _ => hac
  have e3 : ∀ f, (DMM_SetUseCalib s f).fUseCalib = f := fun _ => rfl
  unfold DMM_DGetStatus specACCalibrated
  simp only [e0, e1, e2, e3, hidx1, ne_eq, not_true_eq_false, if_false, if_true, hf,
    not_false_eq_true, one_ne_zero, hm, hsqrt, Dbl.pow2, Prod.mk.injEq, and_true]
  cases rms32 with
  | false =>
    simp only [Bool.false_eq_true, if_false]
    have key : Dbl.mul (Dbl.mul (Dbl.fin m) (Dbl.fin (sq (DMM_vrms false dmmsts))))
        (Dbl.mul (Dbl.fin m) (Dbl.fin (sq (DMM_vrms false dmmsts)))) =
        Dbl.mul (Dbl.mul (Dbl.fin m) (Dbl.fin m)) (Dbl.ofInt (DMM_vrms false dmmsts)) := by
      simp only [Dbl.mul, Dbl.ofInt]
      congr 1
      linear_combination (m * m) * hsq
    rw [key]
  | true =>
    simp only [if_true]
    have key : Dbl.mul
        (Dbl.mul (Dbl.fin 16) (Dbl.mul (Dbl.fin m) (Dbl.fin (sq (DMM_vrms true dmmsts)))))
        (Dbl.mul (Dbl.fin 16) (Dbl.mul (Dbl.fin m) (Dbl.fin (sq (DMM_vrms true dmmsts))))) =
        Dbl.mul (Dbl.fin 256)
          (Dbl.mul (Dbl.mul (Dbl.fin m) (Dbl.fin m)) (Dbl.ofInt (DMM_vrms true dmmsts))) := by
      simp only [Dbl.mul, Dbl.ofInt]
      congr 1
      linear_combination (256 * m * m) * hsq
    rw [key]

/-- C30: in exact arithmetic, for an AC scale: for every snapshot with the
conversion-done flag set at whose RMS value the square-root routine is exact, in both
accumulator modes, the calibrated result of `DMM_DGetStatus` is
`sqrt(|u² − Add²|) * (1 + Mult)`, where `u` is the result of the same snapshot with
calibration disabled; and after a calibration completed with `P > Z ≥ 0` (square root
exact at `P² − Z²` and at 0, conversions to `float` exact) the uncalibrated value `P`
reads `Pref` and the uncalibrated value `Z` reads 0. -/
theorem CALIB_AC_calibration_points (toFloat : Dbl → Nat) (sq : ℚ → ℚ) (dmm : DMMState)
    (st : CalibState) (Z P Pref : ℚ)
    (hidx : 0 ≤ DMM_GetCurrentScale dmm ∧ DMM_GetCurrentScale dmm ≤ 26)
    (hmode : dmm.curCfg.mode = DmmACVoltage ∨ dmm.curCfg.mode = DmmACCurrent ∨
      dmm.curCfg.mode = DmmACLowCurrent)
    (hZ : (st.partCalib (DMM_GetCurrentScale dmm).toNat).Calib_Ms_Zero = Dbl.fin Z)
    (hP : (st.partCalib (DMM_GetCurrentScale dmm).toNat).Calib_Ms_ValP = Dbl.fin P)
    (hPref : (st.partCalib (DMM_GetCurrentScale dmm).toNat).Calib_Ref_ValP = Dbl.fin Pref)
    (hZ0 : 0 ≤ Z) (hZP : Z < P)
    (hsqD : sq (P * P - Z * Z) * sq (P * P - Z * Z) = P * P - Z * Z)
    (hsq0 : sq 0 = 0)
    (hfM : f32ToDbl (toFloat (Dbl.fin (Pref / sq (P * P - Z * Z) - 1))) =
      Dbl.fin (Pref / sq (P * P - Z * Z) - 1))
    (hfZ : f32ToDbl (toFloat (Dbl.fin Z)) = Dbl.fin Z) :
    (∀ (rms32 : Bool) (calib : CALIBDATA) (dmmsts : DMMSTS) (m : ℚ),
      dmm.curCfg.mul = Dbl.fin m → dmmsts.intf &&& 0x10 ≠ 0 →
      sq (DMM_vrms rms32 dmmsts) * sq (DMM_vrms rms32 dmmsts) = DMM_vrms rms32 dmmsts →
      DMM_DGetStatus sq rms32 (DMM_SetUseCalib dmm 1) calib dmmsts =
        (specACCalibrated sq (DMM_DGetStatus sq rms32 (DMM_SetUseCalib dmm 0) calib dmmsts).1
          (calib.Dmm (DMM_GetCurrentScale dmm).toNat), ERRVAL_SUCCESS)) ∧
    (CALIB_CheckCompleteCalib toFloat sq dmm st).1 = 1 ∧
    specACCalibrated sq (Dbl.fin P) ((CALIB_CheckCompleteCalib toFloat sq dmm st).2.calib.Dmm
      (DMM_GetCurrentScale dmm).toNat) = Dbl.fin Pref ∧
    specACCalibrated sq (Dbl.fin Z) ((CALIB_CheckCompleteCalib toFloat sq dmm st).2.calib.Dmm
      (DMM_GetCurrentScale dmm).toNat) = Dbl.fin 0 := by
  have hne : ∀ q : ℚ, Dbl.fin q ≠ Dbl.nan := fun q h => Dbl.noConfusion h
  have hfac : DMM_FACScale dmm dmm.idxCurrentScale = true := by
    unfold DMM_FACScale
    simp only [Bool.or_eq_true, beq_iff_eq]
    tauto
  have hc : calibrationComplete dmm.curCfg.mode
      (st.partCalib (DMM_GetCurrentScale dmm).toNat) :=
    Or.inr ⟨by tauto, by rw [hZ]; exact hne Z, by rw [hP]; exact hne P,
      by rw [hPref]; exact hne Pref⟩
  have hdone := CALIB_CheckCompleteCalib_complete toFloat sq dmm st hidx hc
  obtain ⟨hmode9, hst⟩ := CALIB_CheckCompleteCalib_done toFloat sq dmm st hdone
  have hMs := CALIB_ComputeMult_eq_spec toFloat sq dmm st (DMM_GetCurrentScale dmm) hmode9
  have hAs := CALIB_ComputeAdd_eq_spec toFloat sq dmm st (DMM_GetCurrentScale dmm) hmode9
  have hDpos : 0 < P * P - Z * Z := by nlinarith
  have hD' : P * P + -(Z * Z) = P * P - Z * Z := by ring
  have hsne : sq (P * P - Z * Z) ≠ 0 := by
    intro h
    rw [h] at hsqD
    linarith
  have hsm : specMult sq dmm.curCfg.mode (st.partCalib (DMM_GetCurrentScale dmm).toNat) =
      Dbl.fin (Pref / sq (P * P - Z * Z) - 1) := by
    unfold specMult
    rw [if_pos hmode, hZ, hP, hPref]
    simp only [Dbl.sub, Dbl.neg, Dbl.add, Dbl.mul, Dbl.sqrt, hD']
    rw [if_neg (not_lt.mpr hDpos.le)]
    simp only [Dbl.div]
    rw [if_neg hsne]
    simp only [Dbl.add]
    congr 1
    simp only [sub_eq_add_neg]
  have hM1 : CALIB_ComputeMult toFloat sq dmm st (DMM_GetCurrentScale dmm) =
      toFloat (Dbl.fin (Pref / sq (P * P - Z * Z) - 1)) := by
    rw [hMs, hsm]
    exact (CALIB_clampNaN_cases _).2.2 (by rw [hfM]; exact hne _)
  have hA1 : CALIB_ComputeAdd toFloat sq dmm st (DMM_GetCurrentScale dmm) =
      toFloat (Dbl.fin Z) := by
    rw [hAs, if_pos hmode, hZ]
    exact (CALIB_clampNaN_cases _).2.2 (by rw [hfZ]; exact hne _)
  refine ⟨fun rms32 calib dmmsts m hm hf hsq =>
    DMM_DGetStatus_AC_calibrated sq rms32 dmm calib dmmsts m hidx hfac hm hf hsq, hdone, ?_, ?_⟩
  · rw [hst]
    unfold specACCalibrated
    simp only
    rw [hM1, hA1, hfM, hfZ]
    simp only [Dbl.sub, Dbl.neg, Dbl.add, Dbl.mul, Dbl.abs, Dbl.sqrt, hD', abs_of_pos hDpos]
    rw [if_neg (not_lt.mpr hDpos.le)]
    simp only [Dbl.mul]
    congr 1
    field_simp
  · rw [hst]
    unfold specACCalibrated
    simp only
    rw [hM1, hA1, hfM, hfZ]
    simp only [Dbl.sub, Dbl.neg, Dbl.add, Dbl.mul, Dbl.abs, Dbl.sqrt, add_neg_cancel, abs_zero,
      lt_irrefl, if_false, hsq0, zero_mul]

/-- Witness of C30: the AC scale 11 with `Z = 0`, `P = 1000`, `Pref = 2000`
(`Mult = 1`, `Add = 0`). -/
theorem CALIB_AC_calibration_points_witness :
    (0 ≤ DMM_GetCurrentScale scale11Selected ∧ DMM_GetCurrentScale scale11Selected ≤ 26) ∧
    (0 : ℚ) < 1000 ∧
    sqExample (1000 * 1000 - 0 * 0) * sqExample (1000 * 1000 - 0 * 0) = 1000 * 1000 - 0 * 0 ∧
    specACCalibrated sqExample (Dbl.fin 1000)
      ((CALIB_CheckCompleteCalib toFloatDyadic sqExample scale11Selected
        calibStateACExact).2.calib.Dmm (DMM_GetCurrentScale scale11Selected).toNat) =
      Dbl.fin 2000 := by
  have hs : sqExample (1000 * 1000 - 0 * 0) = 1000 := by
    unfold sqExample
    norm_num
  have hsD : sqExample (1000 * 1000 - 0 * 0) * sqExample (1000 * 1000 - 0 * 0) =
      1000 * 1000 - 0 * 0 := by
    rw [hs]; norm_num
  have hs0 : sqExample 0 = 0 := by
    unfold sqExample
    norm_num
  have e1 : (2000 / sqExample (1000 * 1000 - 0 * 0) - 1 : ℚ) = 1 := by
    rw [hs]; norm_num
  obtain ⟨x0, x1, _, _, _, _, _⟩ := toFloatDyadic_exact
  exact ⟨by decide, by norm_num, hsD,
    (CALIB_AC_calibration_points toFloatDyadic sqExample scale11Selected calibStateACExact
      0 1000 2000 (by decide) (Or.inl (by decide)) rfl rfl rfl (le_refl 0) (by norm_num) hsD hs0
      (by rw [e1]; exact x1) x0).2.2.1⟩

end DMMShield
